import Mathlib

set_option maxRecDepth 8192
set_option linter.unreachableTactic false
set_option linter.unnecessarySeqFocus false
set_option linter.unusedVariables false
set_option linter.unusedTactic false
set_option linter.flexible false

/-!
Verification of the legal-document generator's template-selection and
document-assembly engine.

The Python sources (privacy_generator.py, tos_generator.py,
cookie_generator.py, eula_generator.py, refund_generator.py, app.py,
main.py) are shallowly embedded:

* the flat configuration dictionary (whose schema is `get_default_config`
  in app.py) becomes the structure `Config`; free-text fields are
  `Option String` (`none` models an absent key, `some ""` a key present
  with the empty string, which Python treats as falsy), feature flags are
  `Bool`, list fields are `List String`;
* Python's `config.get(k) or d` becomes `pyOr`, `config.get(k, d)` on a
  string field becomes `Option.getD`;
* `datetime.now().strftime("%B %d, %Y")` is an ambient clock read; it is
  made explicit as the parameter `now` threaded into every generator, and
  the filename timestamp `datetime.now().strftime("%Y%m%d_%H%M%S")` as
  the parameter `ts`;
* f-strings become explicit `++` concatenations, in source order.
-/

/-- One entry of the `cookie_details` list consumed by
`_generate_cookie_details` in cookie_generator.py.  Each Python entry is a
dict read with `.get`, so every field is optional. -/
structure CookieDetail where
  name : Option String
  provider : Option String
  purpose : Option String
  duration : Option String
  ctype : Option String
deriving DecidableEq, Repr

/-- The flat configuration record.  Field names and grouping follow
`get_default_config` in app.py; the trailing fields (`effective_date`,
`collects_job_title`, `allows_children`, `cookie_details`,
`privacy_email`) are keys read by the generators that are absent from the
default dictionary, hence their defaults below are `none` / `false` /
`[]`. -/
structure Config where
  -- Business Information
  platform_type : Option String
  website_url : Option String
  website_name : Option String
  app_name : Option String
  business_type : Option String
  company_name : Option String
  company_address : Option String
  country : Option String
  contact_email : Option String
  contact_phone : Option String
  -- Data Collection
  collects_name : Bool
  collects_email : Bool
  collects_phone : Bool
  collects_address : Bool
  collects_billing_address : Bool
  collects_payment_info : Bool
  collects_age : Bool
  collects_username : Bool
  collects_password : Bool
  -- Tracking
  uses_cookies : Bool
  uses_web_beacons : Bool
  uses_local_storage : Bool
  uses_sessions : Bool
  uses_google_maps : Bool
  -- Social Login
  social_login_facebook : Bool
  social_login_google : Bool
  social_login_twitter : Bool
  social_login_github : Bool
  social_login_linkedin : Bool
  -- Marketing
  has_email_newsletter : Bool
  uses_analytics : Bool
  analytics_provider : Option String
  displays_ads : Bool
  uses_facebook_pixel : Bool
  uses_retargeting : Bool
  -- App Permissions
  requests_geolocation : Bool
  requests_contacts : Bool
  requests_camera : Bool
  requests_photo_gallery : Bool
  requests_microphone : Bool
  requests_push_notifications : Bool
  -- Payment
  accepts_payments : Bool
  payment_type : Option String
  payment_processors : List String
  -- Compliance
  gdpr_compliant : Bool
  ccpa_compliant : Bool
  caloppa_compliant : Bool
  coppa_compliant : Bool
  allows_children_under_13 : Bool
  -- Data Sharing
  shares_with_third_parties : Bool
  third_party_categories : List String
  sells_data : Bool
  -- User Rights
  allows_data_access : Bool
  allows_data_deletion : Bool
  allows_data_portability : Bool
  allows_opt_out : Bool
  -- Security
  uses_encryption : Bool
  uses_ssl : Bool
  has_security_measures : Bool
  data_retention_period : Option String
  -- ToS specific
  service_description : Option String
  minimum_age : Option Nat
  requires_account : Bool
  has_paid_services : Bool
  has_subscriptions : Bool
  has_free_trial : Bool
  offers_refunds : Bool
  refund_period : Option String
  allows_user_content : Bool
  user_content_types : List String
  moderates_content : Bool
  has_third_party_links : Bool
  provides_api : Bool
  has_mobile_app : Bool
  jurisdiction : Option String
  governing_state : Option String
  has_arbitration : Bool
  dispute_resolution : Option String
  liability_cap : Option String
  disclaims_warranties : Bool
  -- Cookie specific
  uses_essential_cookies : Bool
  uses_functional_cookies : Bool
  uses_performance_cookies : Bool
  uses_advertising_cookies : Bool
  uses_social_cookies : Bool
  uses_google_analytics : Bool
  uses_hotjar : Bool
  uses_mixpanel : Bool
  uses_google_ads : Bool
  uses_linkedin_insight : Bool
  uses_twitter_pixel : Bool
  uses_tiktok_pixel : Bool
  uses_facebook_cookies : Bool
  uses_twitter_cookies : Bool
  uses_linkedin_cookies : Bool
  uses_instagram_cookies : Bool
  uses_youtube_cookies : Bool
  uses_pinterest_cookies : Bool
  social_sharing_enabled : Bool
  uses_hubspot : Bool
  uses_intercom : Bool
  third_party_cookies : List String
  has_cookie_consent : Bool
  honors_dnt : Bool
  -- EULA specific
  license_type : Option String
  is_transferable : Bool
  is_subscription : Bool
  billing_cycle : Option String
  auto_renewal : Bool
  trial_period : Option String
  no_reverse_engineering : Bool
  no_modification : Bool
  no_redistribution : Bool
  no_commercial_use : Bool
  collects_data : Bool
  uses_third_party : Bool
  has_export_restrictions : Bool
  has_warranty : Bool
  warranty_period : Option String
  eula_liability_cap : Option String
  -- Refund specific
  refund_business_type : Option String
  has_satisfaction_guarantee : Bool
  guarantee_period : Option String
  refund_period_days : Option String
  refund_processing_time : Option String
  return_period : Option String
  requires_receipt : Bool
  requires_original_packaging : Bool
  offers_exchanges : Bool
  restocking_fee : Option String
  return_shipping : Option String
  subscription_refund_policy : Option String
  offers_prorated_refunds : Bool
  sale_items_refundable : Bool
  -- Keys read by generators but absent from the default dictionary
  effective_date : Option String
  collects_job_title : Bool
  allows_children : Bool
  cookie_details : List CookieDetail
  privacy_email : Option String
deriving DecidableEq, Repr

/-- Translation of `get_default_config` from app.py: the canonical default record. -/
def defaultConfig : Config where
  platform_type := some "website"
  website_url := some ""
  website_name := some ""
  app_name := some ""
  business_type := some "business"
  company_name := some ""
  company_address := some ""
  country := some ""
  contact_email := some ""
  contact_phone := some ""
  collects_name := true
  collects_email := true
  collects_phone := false
  collects_address := false
  collects_billing_address := false
  collects_payment_info := false
  collects_age := false
  collects_username := true
  collects_password := true
  uses_cookies := true
  uses_web_beacons := false
  uses_local_storage := false
  uses_sessions := true
  uses_google_maps := false
  social_login_facebook := false
  social_login_google := false
  social_login_twitter := false
  social_login_github := false
  social_login_linkedin := false
  has_email_newsletter := false
  uses_analytics := false
  analytics_provider := some ""
  displays_ads := false
  uses_facebook_pixel := false
  uses_retargeting := false
  requests_geolocation := false
  requests_contacts := false
  requests_camera := false
  requests_photo_gallery := false
  requests_microphone := false
  requests_push_notifications := false
  accepts_payments := false
  payment_type := some "one_time"
  payment_processors := []
  gdpr_compliant := false
  ccpa_compliant := false
  caloppa_compliant := false
  coppa_compliant := false
  allows_children_under_13 := false
  shares_with_third_parties := false
  third_party_categories := []
  sells_data := false
  allows_data_access := true
  allows_data_deletion := true
  allows_data_portability := false
  allows_opt_out := true
  uses_encryption := true
  uses_ssl := true
  has_security_measures := true
  data_retention_period := some ""
  service_description := some ""
  minimum_age := some 18
  requires_account := true
  has_paid_services := false
  has_subscriptions := false
  has_free_trial := false
  offers_refunds := false
  refund_period := some ""
  allows_user_content := false
  user_content_types := []
  moderates_content := false
  has_third_party_links := false
  provides_api := false
  has_mobile_app := false
  jurisdiction := some ""
  governing_state := some ""
  has_arbitration := false
  dispute_resolution := some ""
  liability_cap := some ""
  disclaims_warranties := true
  uses_essential_cookies := true
  uses_functional_cookies := false
  uses_performance_cookies := false
  uses_advertising_cookies := false
  uses_social_cookies := false
  uses_google_analytics := false
  uses_hotjar := false
  uses_mixpanel := false
  uses_google_ads := false
  uses_linkedin_insight := false
  uses_twitter_pixel := false
  uses_tiktok_pixel := false
  uses_facebook_cookies := false
  uses_twitter_cookies := false
  uses_linkedin_cookies := false
  uses_instagram_cookies := false
  uses_youtube_cookies := false
  uses_pinterest_cookies := false
  social_sharing_enabled := false
  uses_hubspot := false
  uses_intercom := false
  third_party_cookies := []
  has_cookie_consent := true
  honors_dnt := false
  license_type := some "subscription"
  is_transferable := false
  is_subscription := true
  billing_cycle := some "monthly"
  auto_renewal := true
  trial_period := some "14 days"
  no_reverse_engineering := true
  no_modification := true
  no_redistribution := true
  no_commercial_use := false
  collects_data := true
  uses_third_party := true
  has_export_restrictions := false
  has_warranty := false
  warranty_period := some ""
  eula_liability_cap := some ""
  refund_business_type := some "services"
  has_satisfaction_guarantee := false
  guarantee_period := some "30 days"
  refund_period_days := some "14 days"
  refund_processing_time := some "5-10 business days"
  return_period := some "30 days"
  requires_receipt := true
  requires_original_packaging := true
  offers_exchanges := true
  restocking_fee := some ""
  return_shipping := some "customer"
  subscription_refund_policy := some "prorated"
  offers_prorated_refunds := true
  sale_items_refundable := true
  effective_date := none
  collects_job_title := false
  allows_children := false
  cookie_details := []
  privacy_email := none

/-- Python's `config.get(k) or d` on a string-valued key: the default is
used when the key is absent or its value is falsy (the empty string). -/
def pyOr (o : Option String) (d : String) : String :=
  match o with
  | some s => if s = "" then d else s
  | none => d

/-- Python's truthiness test `if config.get(k):` on a string-valued key. -/
def truthyS (o : Option String) : Bool :=
  match o with
  | some s => !(s = "")
  | none => false

/-- Python's truthiness test on a list-valued key. -/
def truthyL (l : List String) : Bool := !l.isEmpty


/-! ## Shared markdown-to-HTML machinery

The five `_convert_to_html` functions share a line-oriented regex
pipeline.  Strings are modelled as `List Char` (Python `str` semantics);
the per-generator converters below assemble these pieces in the order of
the corresponding Python source.  Where a substitution is applied by the
source to the whole text but its pattern cannot cross a newline (because
`.` does not match `\n`), it is modelled per line. -/

/-- Python `text.split('\n')`. -/
def splitLines : List Char → List (List Char)
  | [] => [[]]
  | '\n' :: r => [] :: splitLines r
  | c :: r =>
    match splitLines r with
    | [] => [[c]]
    | l :: ls => (c :: l) :: ls

/-- Python `'\n'.join(lines)`. -/
def joinLines : List (List Char) → List Char
  | [] => []
  | [l] => l
  | l :: ls => l ++ '\n' :: joinLines ls

/-- The three header substitutions
`re.sub(r'^### (.+)$', r'<h3>\1</h3>', ..., flags=re.MULTILINE)` (and the
`##`, `#` variants), applied to one line; `(.+)` requires a non-empty
title. -/
def convertHeaderLine (l : List Char) : List Char :=
  match l with
  | '#' :: '#' :: '#' :: ' ' :: rest =>
    if rest = [] then l else "<h3>".data ++ rest ++ "</h3>".data
  | '#' :: '#' :: ' ' :: rest =>
    if rest = [] then l else "<h2>".data ++ rest ++ "</h2>".data
  | '#' :: ' ' :: rest =>
    if rest = [] then l else "<h1>".data ++ rest ++ "</h1>".data
  | _ => l

/-- After an opening `**`, the lazy search of `\*\*(.+?)\*\*` for the
closing `**`: at least one content character, the first closing pair
wins, and `.` does not match a newline. -/
def findClose : List Char → Option (List Char × List Char)
  | [] => none
  | c :: rest =>
    if c = '\n' then none
    else if rest.take 2 = ['*', '*'] then some ([c], rest.drop 2)
    else (findClose rest).map (fun p => (c :: p.1, p.2))

theorem findClose_eq (l : List Char) :
    ∀ p, findClose l = some p → l = p.1 ++ '*' :: '*' :: p.2 ∧ p.1 ≠ [] := by
  induction l with
  | nil => simp [findClose]
  | cons c rest ih =>
    intro p h
    simp only [findClose] at h
    split at h
    · exact absurd h (by simp)
    · split at h
      · next htake =>
        obtain rfl := Option.some.inj h
        refine ⟨?_, by simp⟩
        have : rest = ['*', '*'] ++ rest.drop 2 := by
          conv_lhs => rw [← List.take_append_drop 2 rest]
          rw [htake]
        simpa using this
      · rw [Option.map_eq_some'] at h
        obtain ⟨q, hq, rfl⟩ := h
        obtain ⟨hrest, hne⟩ := ih q hq
        exact ⟨by simp [← hrest], by simp⟩

theorem findClose_len (l : List Char) (p : List Char × List Char)
    (h : findClose l = some p) : p.2.length + 3 ≤ l.length := by
  obtain ⟨hl, hne⟩ := findClose_eq l p h
  have : 1 ≤ p.1.length := by
    cases p1 : p.1 with
    | nil => exact absurd p1 hne
    | cons a b => simp
  subst hl
  simp
  omega

/-- Model of `re.sub(r'\*\*(.+?)\*\*', r'<strong>\1</strong>', text)`.  On a failed
match the regex engine advances one character, so a first `*` is emitted
and scanning resumes at the second. -/
def boldConv (l : List Char) : List Char :=
  match l with
  | [] => []
  | '*' :: '*' :: rest =>
    match h : findClose rest with
    | some p => "<strong>".data ++ p.1 ++ "</strong>".data ++ boldConv p.2
    | none => '*' :: boldConv ('*' :: rest)
  | c :: rest => c :: boldConv rest
termination_by l.length
decreasing_by
  · have := findClose_len rest p h
    simp
    omega
  · simp
  · simp

/-- After an opening `*`, the lazy search of `\*(.+?)\*` for the closing
`*` (used by the EULA and refund converters for `<em>`). -/
def findCloseEm : List Char → Option (List Char × List Char)
  | [] => none
  | c :: rest =>
    if c = '\n' then none
    else if rest.take 1 = ['*'] then some ([c], rest.drop 1)
    else (findCloseEm rest).map (fun p => (c :: p.1, p.2))

theorem findCloseEm_eq (l : List Char) :
    ∀ p, findCloseEm l = some p → l = p.1 ++ '*' :: p.2 ∧ p.1 ≠ [] := by
  induction l with
  | nil => simp [findCloseEm]
  | cons c rest ih =>
    intro p h
    simp only [findCloseEm] at h
    split at h
    · exact absurd h (by simp)
    · split at h
      · next htake =>
        obtain rfl := Option.some.inj h
        refine ⟨?_, by simp⟩
        have : rest = ['*'] ++ rest.drop 1 := by
          conv_lhs => rw [← List.take_append_drop 1 rest]
          rw [htake]
        simpa using this
      · rw [Option.map_eq_some'] at h
        obtain ⟨q, hq, rfl⟩ := h
        obtain ⟨hrest, hne⟩ := ih q hq
        exact ⟨by simp [← hrest], by simp⟩

theorem findCloseEm_len (l : List Char) (p : List Char × List Char)
    (h : findCloseEm l = some p) : p.2.length + 2 ≤ l.length := by
  obtain ⟨hl, hne⟩ := findCloseEm_eq l p h
  have : 1 ≤ p.1.length := by
    cases p1 : p.1 with
    | nil => exact absurd p1 hne
    | cons a b => simp
  subst hl
  simp
  omega

/-- Model of `re.sub(r'\*(.+?)\*', r'<em>\1</em>', text)`. -/
def emConv (l : List Char) : List Char :=
  match l with
  | [] => []
  | '*' :: rest =>
    match h : findCloseEm rest with
    | some p => "<em>".data ++ p.1 ++ "</em>".data ++ emConv p.2
    | none => '*' :: emConv rest
  | c :: rest => c :: emConv rest
termination_by l.length
decreasing_by
  · have := findCloseEm_len rest p h
    simp
    omega
  · simp
  · simp

/-- Model of `re.sub(r'^- (.+)$', r'<li>\1</li>', line, flags=re.MULTILINE)` on one
line; `(.+)` requires a non-empty item. -/
def convertListLine (l : List Char) : List Char :=
  match l with
  | '-' :: ' ' :: rest =>
    if rest = [] then l else "<li>".data ++ rest ++ "</li>".data
  | _ => l

/-- One repetition `<li>.+?</li>` of the ul-wrapping regex
`(<li>.+?</li>\n)+`, matching a whole line. -/
def isLiLine (l : List Char) : Bool :=
  "<li>".data.isPrefixOf l && "</li>".data.isSuffixOf l && decide (9 < l.length)

/-- Collect the remainder of a maximal run of `<li>` lines that are each
followed by a newline (a final line without a trailing newline is outside
every run, because the regex repetition requires `</li>\n`). -/
def takeLiRun : List (List Char) → (List (List Char) × List (List Char))
  | [] => ([], [])
  | l :: rest =>
    if isLiLine l && !rest.isEmpty then
      let p := takeLiRun rest
      (l :: p.1, p.2)
  else ([], l :: rest)

theorem takeLiRun_len (ls : List (List Char)) :
    (takeLiRun ls).2.length ≤ ls.length := by
  induction ls with
  | nil => simp [takeLiRun]
  | cons l rest ih =>
    simp only [takeLiRun]
    split
    · simpa using Nat.le_succ_of_le ih
    · simp

/-- Model of `re.sub(r'(<li>.+?</li>\n)+', lambda m: f'<ul>\n{m.group(0)}</ul>\n',
text)`: each maximal run of newline-terminated `<li>` lines is wrapped in
a `<ul>` line and a `</ul>` line. -/
def wrapLiRuns (ls : List (List Char)) : List (List Char) :=
  match ls with
  | [] => []
  | l :: rest =>
    if isLiLine l && !rest.isEmpty then
      "<ul>".data :: l ::
        ((takeLiRun rest).1 ++ "</ul>".data :: wrapLiRuns (takeLiRun rest).2)
    else l :: wrapLiRuns rest
termination_by ls.length
decreasing_by
  · simp only [List.length_cons]
    exact Nat.lt_succ_of_le (takeLiRun_len _)
  · simp

/-- Python `line.strip()` (whitespace from both ends). -/
def stripChars (l : List Char) : List Char :=
  ((l.dropWhile Char.isWhitespace).reverse.dropWhile Char.isWhitespace).reverse

/-- The paragraph-wrapping loop of the privacy and ToS converters: every
line is stripped; a non-empty stripped line not starting with `<` is
wrapped in `<p>...</p>`. -/
def pline (l : List Char) : List Char :=
  let s := stripChars l
  if !s.isEmpty && !("<".data.isPrefixOf s) then
    "<p>".data ++ s ++ "</p>".data
  else s

/-- The paragraph-wrapping loop of the cookie converter, which also skips
lines starting with `|`. -/
def plineCookie (l : List Char) : List Char :=
  let s := stripChars l
  if !s.isEmpty && !("<".data.isPrefixOf s) && !("|".data.isPrefixOf s) then
    "<p>".data ++ s ++ "</p>".data
  else s

/-- The stateful list loop of the EULA converter (eula_generator.py,
`convert_to_html`): the check uses the stripped line, the item content is
the stripped line without its `- ` marker, non-list lines are emitted
unchanged, and an open `<ul>` is closed when the loop leaves a list or
ends inside one. -/
def eulaListLoop : List (List Char) → Bool → List (List Char)
  | [], inList => if inList then ["</ul>".data] else []
  | l :: ls, inList =>
    if "- ".data.isPrefixOf (stripChars l) then
      (if inList then [] else ["<ul>".data]) ++
        ("<li>".data ++ (stripChars l).drop 2 ++ "</li>".data) ::
          eulaListLoop ls true
    else
      (if inList then ["</ul>".data] else []) ++ l :: eulaListLoop ls false

/-- Python `'. ' in s`: the tail of `s` after the first occurrence of
`'. '`, when there is one. -/
def afterDot : List Char → Option (List Char)
  | '.' :: ' ' :: r => some r
  | _ :: r => afterDot r
  | [] => none

/-- The stateful list loop of the refund converter (refund_generator.py,
`convert_to_html`): numbered lines (`stripped[0].isdigit() and '. ' in
stripped[:4]`) collect into `<ol>`, bulleted lines into `<ul>`, switching
closes the other list; non-list lines are emitted unchanged. -/
def refundListLoop : List (List Char) → Bool → Bool → List (List Char)
  | [], inUl, inOl =>
    (if inUl then ["</ul>".data] else []) ++ (if inOl then ["</ol>".data] else [])
  | l :: ls, inUl, inOl =>
    let s := stripChars l
    if !s.isEmpty && (s.headD ' ').isDigit && (afterDot (s.take 4)).isSome then
      (if inUl then ["</ul>".data] else []) ++
        (if inOl then [] else ["<ol>".data]) ++
          ("<li>".data ++ ((afterDot s).getD s) ++ "</li>".data) ::
            refundListLoop ls false true
    else if "- ".data.isPrefixOf s then
      (if inOl then ["</ol>".data] else []) ++
        (if inUl then [] else ["<ul>".data]) ++
          ("<li>".data ++ s.drop 2 ++ "</li>".data) :: refundListLoop ls true false
    else
      (if inUl then ["</ul>".data] else []) ++
        (if inOl then ["</ol>".data] else []) ++ l :: refundListLoop ls false false

/-- Model of `re.sub(r'\n\n([^<])', r'\n\n<p>\1', text)`: after a blank line, a
character other than `<` is prefixed with `<p>`; on a failed match the
engine advances one character. -/
def pOpen : List Char → List Char
  | '\n' :: '\n' :: c :: rest =>
    if c = '<' then '\n' :: pOpen ('\n' :: c :: rest)
    else '\n' :: '\n' :: '<' :: 'p' :: '>' :: c :: pOpen rest
  | c :: rest => c :: pOpen rest
  | [] => []
termination_by l => l.length
decreasing_by
  all_goals simp only [List.length_cons]
  all_goals omega

/-- Model of `re.sub(r'([^>])\n\n', r'\1</p>\n\n', text)`: a character other than
`>` directly before a blank line is suffixed with `</p>`. -/
def pClose : List Char → List Char
  | c :: '\n' :: '\n' :: rest =>
    if c = '>' then c :: pClose ('\n' :: '\n' :: rest)
    else c :: '<' :: '/' :: 'p' :: '>' :: '\n' :: '\n' :: pClose rest
  | c :: rest => c :: pClose rest
  | [] => []
termination_by l => l.length
decreasing_by
  all_goals simp only [List.length_cons]
  all_goals omega

/-- Split on `|` (Python `s.split('|')`), used by the cookie table
substitution. -/
def splitBar : List Char → List (List Char)
  | [] => [[]]
  | '|' :: r => [] :: splitBar r
  | c :: r =>
    match splitBar r with
    | [] => [[c]]
    | l :: ls => (c :: l) :: ls

/-- Python `'</td><td>'.join(parts)`. -/
def joinWithTd : List (List Char) → List Char
  | [] => []
  | [x] => x
  | x :: xs => x ++ "</td><td>".data ++ joinWithTd xs

/-- Model of `re.sub(r'\|(.+)\|', lambda m: '<tr><td>' +
'</td><td>'.join(m.group(1).split('|')) + '</td></tr>', text)` applied to
one line: the greedy `(.+)` spans from the first `|` to the last `|` of
the line and must be non-empty; at most one match fires per line because
the match consumes every `|`. -/
def tableLine (l : List Char) : List Char :=
  let pre := l.takeWhile (fun c => !(c = '|'))
  match l.dropWhile (fun c => !(c = '|')) with
  | '|' :: r =>
    match (r.reverse.dropWhile (fun c => !(c = '|'))) with
    | '|' :: midRev =>
      let mid := midRev.reverse
      let suf := (r.reverse.takeWhile (fun c => !(c = '|'))).reverse
      if mid.isEmpty then l
      else
        pre ++ "<tr><td>".data ++
          (joinWithTd (splitBar mid)) ++ "</td></tr>".data ++ suf
    | _ => l
  | _ => l

/-! ## eula_generator.py -/

namespace Eula

/-- Translation of `convert_to_html` from eula_generator.py: headers, `**bold**`,
`*italic*`, the stateful bullet-list loop, the two blank-line paragraph
substitutions, and the fixed HTML shell. -/
def convert_to_html (markdown_content : String) (title : String) : String :=
  let lines0 := (splitLines markdown_content.data).map convertHeaderLine
  let lines1 := lines0.map boldConv
  let lines2 := lines1.map emConv
  let lines3 := eulaListLoop lines2 false
  let body := pClose (pOpen (joinLines lines3))
  ⟨("<!DOCTYPE html>\n<html lang=\"en\">\n<head>\n    <meta charset=\"UTF-8\">\n    <meta name=\"viewport\" content=\"width=device-width, initial-scale=1.0\">\n    <title>").data
    ++ title.data
    ++ ("</title>\n    <style>\n        body \x7b\n            font-family: -apple-system, BlinkMacSystemFont, \x27Segoe UI\x27, Roboto, Oxygen, Ubuntu, sans-serif;\n            line-height: 1.6;\n            max-width: 800px;\n            margin: 0 auto;\n            padding: 20px;\n            color: #333;\n        \x7d\n        h1 \x7b color: #2c3e50; border-bottom: 2px solid #3498db; padding-bottom: 10px; \x7d\n        h2 \x7b color: #34495e; margin-top: 30px; border-bottom: 1px solid #bdc3c7; padding-bottom: 5px; \x7d\n        h3 \x7b color: #7f8c8d; margin-top: 20px; \x7d\n        ul \x7b padding-left: 20px; \x7d\n        li \x7b margin: 5px 0; \x7d\n        strong \x7b color: #2c3e50; \x7d\n        p \x7b margin: 10px 0; text-align: justify; \x7d\n    </style>\n</head>\n<body>\n").data
    ++ body
    ++ ("\n</body>\n</html>").data⟩

/-- The license-grant phrasing selection of `generate_eula`
(eula_generator.py lines 47-55): `config.get("license_type",
"subscription")` followed by the `perpetual` / `subscription` / other
branches. -/
def licenseText (config : Config) : String :=
  let license_type := config.license_type.getD "subscription"
  if license_type = "perpetual" then "a perpetual, non-exclusive license"
  else if license_type = "subscription" then
    "a limited, non-exclusive, subscription-based license"
  else "a limited, non-exclusive license"

/-- Translation of `generate_eula` from eula_generator.py.  `now` is the injected value
of `datetime.now().strftime("%B %d, %Y")`; the sections are joined with a
single newline. -/
def generate_eula (config : Config) (output_format : String) (now : String) : String :=
  let company_name := pyOr config.company_name "Company"
  let app_name := pyOr config.app_name (pyOr config.website_name "Application")
  let website_url := pyOr config.website_url "https://example.com"
  let company_address := pyOr config.company_address ""
  let contact_email := pyOr config.contact_email ""
  let effective_date := pyOr config.effective_date now
  let header :=
    "# End User License Agreement (EULA)\n\n**" ++ company_name ++ "**\n\n**"
      ++ app_name ++ "**\n\n**Effective Date:** " ++ effective_date
      ++ "\n\n**Last Updated:** " ++ now
  let intro :=
    "\n## Introduction\n\nThis End User License Agreement (\"Agreement\" or \"EULA\") is a legal agreement between you (\"User\", \"you\", or \"your\") and "
      ++ company_name
      ++ " (\"Company\", \"we\", \"us\", or \"our\") for the use of "
      ++ app_name
      ++ " (the \"Software\" or \"Application\").\n\nBy installing, copying, or otherwise using the Software, you agree to be bound by the terms of this Agreement. If you do not agree to the terms of this Agreement, do not install or use the Software.\n\nThis Agreement applies to all versions of the Software, including any updates, upgrades, or new releases."
  let license_text := licenseText config
  let transfer_text :=
    if config.is_transferable then
      "This license is transferable to another party with our prior written consent."
    else
      "This license is non-transferable and may not be assigned to any third party."
  let licenseGrant :=
    "\n## License Grant\n\nSubject to the terms and conditions of this Agreement, "
      ++ company_name ++ " hereby grants you " ++ license_text
      ++ " to:\n\n- Install and use the Software on devices that you own or control\n- Use the Software for your personal or internal business purposes\n- Make a reasonable number of copies of the Software for backup purposes\n\n"
      ++ transfer_text
      ++ "\n\nThis license does not include the right to sublicense the Software to third parties."
  let restrictions : List String :=
    (if config.no_reverse_engineering then
      ["Reverse engineer, decompile, disassemble, or otherwise attempt to derive the source code of the Software"]
    else []) ++
    (if config.no_modification then
      ["Modify, adapt, translate, or create derivative works based on the Software"]
    else []) ++
    (if config.no_redistribution then
      ["Distribute, sublicense, lease, rent, loan, or otherwise transfer the Software to any third party"]
    else []) ++
    (if config.no_commercial_use then
      ["Use the Software for commercial purposes without obtaining a commercial license"]
    else []) ++
    ["Remove, alter, or obscure any proprietary notices, labels, or marks on the Software",
     "Use the Software in any way that violates applicable laws or regulations",
     "Use the Software to transmit malware, viruses, or other harmful code",
     "Use the Software to infringe upon the intellectual property rights of others",
     "Use the Software to collect or harvest personal information without consent"]
  let restrictions_text := String.intercalate "\n" (restrictions.map (fun r => "- " ++ r))
  let licenseRestrictions :=
    "\n## License Restrictions\n\nYou agree NOT to:\n\n" ++ restrictions_text
      ++ "\n\nAny violation of these restrictions may result in immediate termination of this license and may expose you to civil and criminal liability."
  let intellectualProperty :=
    "\n## Intellectual Property Rights\n\nThe Software and all copies thereof are proprietary to "
      ++ company_name ++ " and title thereto remains exclusively with " ++ company_name
      ++ ". All rights in the Software not specifically granted in this Agreement are reserved to "
      ++ company_name
      ++ ".\n\nThe Software is protected by copyright laws, international treaty provisions, and other intellectual property laws. You acknowledge that the Software contains valuable trade secrets and proprietary information belonging to "
      ++ company_name
      ++ ".\n\n### Ownership\n\n- The Software, including its code, documentation, appearance, structure, and organization, is owned by "
      ++ company_name
      ++ "\n- This Agreement does not grant you any ownership rights to the Software\n- All trademarks, service marks, and trade names are the property of "
      ++ company_name
      ++ "\n\n### Feedback\n\nIf you provide any feedback, suggestions, or ideas regarding the Software, you grant "
      ++ company_name
      ++ " a perpetual, irrevocable, royalty-free license to use such feedback for any purpose."
  let userAccounts :=
    "\n## User Accounts\n\n### Account Creation\n\nTo access certain features of the Software, you may be required to create an account. You agree to:\n\n- Provide accurate, current, and complete information during registration\n- Maintain and promptly update your account information\n- Keep your password secure and confidential\n- Accept responsibility for all activities under your account\n- Notify us immediately of any unauthorized use of your account\n\n### Account Termination\n\nWe reserve the right to suspend or terminate your account at any time for:\n\n- Violation of this Agreement\n- Suspected fraudulent, abusive, or illegal activity\n- Extended periods of inactivity\n- Non-payment of applicable fees\n\nUpon termination, your right to use the Software will immediately cease."
  let billing_cycle := config.billing_cycle.getD "monthly"
  let renewal_text :=
    if config.auto_renewal then
      "Your subscription will automatically renew at the end of each billing period unless you cancel before the renewal date. You authorize us to charge your payment method for each renewal period."
    else
      "Your subscription will not automatically renew. You must manually renew your subscription before it expires to continue using the Software."
  let subscriptionTerms :=
    "\n## Subscription Terms\n\n### Billing\n\n- Subscription fees are billed " ++ billing_cycle
      ++ "\n- All fees are non-refundable unless otherwise stated\n- Prices are subject to change with reasonable notice\n\n### Auto-Renewal\n\n"
      ++ renewal_text
      ++ "\n\n### Cancellation\n\nYou may cancel your subscription at any time through your account settings or by contacting us. Cancellation will take effect at the end of the current billing period."
  let trial_period := config.trial_period.getD "14 days"
  let freeTrial :=
    "\n## Free Trial\n\nWe may offer a free trial period of " ++ trial_period
      ++ " for new users. During the trial:\n\n- You will have access to the Software\x27s features as specified\n- No payment is required during the trial period\n- Your trial may convert to a paid subscription automatically unless cancelled\n\nWe reserve the right to limit free trials to one per user or household."
  let updatesSection :=
    "\n## Updates and Upgrades\n\n### Automatic Updates\n\nThe Software may automatically download and install updates. These updates are designed to improve, enhance, and further develop the Software and may include bug fixes, feature enhancements, or entirely new features.\n\n### Update Terms\n\n- Updates are provided at our sole discretion\n- Some updates may be required to continue using the Software\n- Major version upgrades may require additional payment\n- We are not obligated to provide updates or support for older versions\n\n### Changes to Features\n\nWe reserve the right to modify, suspend, or discontinue any feature of the Software at any time with or without notice."
  let dataCollection :=
    "\n## Data Collection and Privacy\n\n### Information We Collect\n\nThe Software may collect certain information, including:\n\n- Device information (hardware model, operating system, unique identifiers)\n- Usage data (features used, time spent, crash reports)\n- Account information (if applicable)\n- Any data you choose to store or process through the Software\n\n### Use of Data\n\nWe use collected data to:\n\n- Provide and improve the Software\n- Analyze usage patterns and trends\n- Fix bugs and improve performance\n- Communicate with you about updates and changes\n\n### Privacy Policy\n\nFor complete information about our data practices, please review our Privacy Policy at "
      ++ website_url ++ "/privacy."
  let thirdPartyComponents :=
    "\n## Third-Party Components\n\n### Third-Party Software\n\nThe Software may include third-party software components subject to separate license terms. Your use of such components is governed by their respective licenses.\n\n### Third-Party Services\n\nThe Software may integrate with or provide access to third-party services. We are not responsible for:\n\n- The availability or functionality of third-party services\n- The content, policies, or practices of third-party services\n- Any damages arising from your use of third-party services\n\nYour use of third-party services is at your own risk and subject to their terms of service."
  let warrantySection :=
    if truthyS config.warranty_period then
      "\n## Limited Warranty\n\n" ++ company_name ++ " warrants that for a period of "
        ++ pyOr config.warranty_period ""
        ++ " from the date of purchase, the Software will perform substantially in accordance with its documentation.\n\n### Warranty Remedies\n\nIf the Software does not meet this warranty, your exclusive remedy is:\n\n- Repair or replacement of the Software, or\n- A refund of the license fee paid\n\nThis warranty does not apply to issues caused by misuse, unauthorized modification, or use with incompatible systems."
    else
      "\n## Disclaimer of Warranties\n\nTHE SOFTWARE IS PROVIDED \"AS IS\" AND \"AS AVAILABLE\" WITHOUT WARRANTY OF ANY KIND, EXPRESS OR IMPLIED.\n\n"
        ++ company_name.toUpper
        ++ " DISCLAIMS ALL WARRANTIES, INCLUDING BUT NOT LIMITED TO:\n\n- WARRANTIES OF MERCHANTABILITY\n- WARRANTIES OF FITNESS FOR A PARTICULAR PURPOSE\n- WARRANTIES OF NON-INFRINGEMENT\n- WARRANTIES REGARDING SECURITY, RELIABILITY, OR ACCURACY\n\nWE DO NOT WARRANT THAT:\n\n- The Software will meet your requirements\n- The Software will be uninterrupted, timely, secure, or error-free\n- Any defects in the Software will be corrected\n- The Software is free of viruses or other harmful components"
  let liability_cap :=
    config.liability_cap.getD "amount paid for the Software in the 12 months preceding the claim"
  let liabilitySection :=
    "\n## Limitation of Liability\n\n### Exclusion of Damages\n\nTO THE MAXIMUM EXTENT PERMITTED BY LAW, IN NO EVENT SHALL "
      ++ company_name.toUpper
      ++ " BE LIABLE FOR ANY:\n\n- Indirect, incidental, special, consequential, or punitive damages\n- Loss of profits, revenue, data, or business opportunities\n- Cost of substitute goods or services\n- Damages arising from interruption of use or loss of data\n\n### Liability Cap\n\n"
      ++ company_name.toUpper ++ "\x27S TOTAL LIABILITY SHALL NOT EXCEED THE "
      ++ liability_cap.toUpper
      ++ ".\n\n### Essential Purpose\n\nSome jurisdictions do not allow the exclusion or limitation of certain damages. In such jurisdictions, our liability is limited to the maximum extent permitted by law."
  let indemnification :=
    "\n## Indemnification\n\nYou agree to indemnify, defend, and hold harmless "
      ++ company_name
      ++ ", its officers, directors, employees, agents, and affiliates from and against any claims, damages, losses, liabilities, costs, and expenses (including reasonable attorneys\x27 fees) arising from:\n\n- Your use of the Software\n- Your violation of this Agreement\n- Your violation of any rights of another party\n- Any content you submit or transmit through the Software\n- Your violation of any applicable laws or regulations"
  let termSection :=
    "\n## Term and Termination\n\n### Term\n\nThis Agreement is effective until terminated by either party.\n\n### Termination by You\n\nYou may terminate this Agreement at any time by:\n\n- Uninstalling and destroying all copies of the Software\n- Cancelling your subscription (if applicable)\n- Notifying us in writing of your intent to terminate\n\n### Termination by Us\n\nWe may terminate this Agreement immediately if you:\n\n- Breach any term of this Agreement\n- Fail to pay applicable fees\n- Use the Software in violation of applicable laws\n- Engage in conduct that harms us or other users\n\n### Effects of Termination\n\nUpon termination:\n\n- All rights granted to you under this Agreement cease immediately\n- You must uninstall and destroy all copies of the Software\n- Any data stored within the Software may be deleted\n- Termination does not relieve you of payment obligations incurred before termination\n\n### Survival\n\nThe following sections survive termination: Intellectual Property Rights, Disclaimer of Warranties, Limitation of Liability, Indemnification, and General Provisions."
  let exportCompliance :=
    "\n## Export Compliance\n\nThe Software may be subject to export control laws and regulations. You agree to:\n\n- Comply with all applicable export and import laws\n- Not export or re-export the Software to prohibited countries or persons\n- Not use the Software for prohibited end-uses (such as nuclear, chemical, or biological weapons development)\n\nYou represent that you are not located in a country subject to embargo and are not on any prohibited party list."
  let jurisdiction := config.jurisdiction.getD "the State of Delaware"
  let dispute_resolution := config.dispute_resolution.getD "binding arbitration"
  let governingLaw :=
    "\n## Governing Law and Disputes\n\n### Governing Law\n\nThis Agreement shall be governed by and construed in accordance with the laws of "
      ++ jurisdiction
      ++ ", without regard to its conflict of law provisions.\n\n### Dispute Resolution\n\nAny dispute arising from this Agreement shall be resolved through "
      ++ dispute_resolution
      ++ ".\n\n### Class Action Waiver\n\nYou agree to resolve disputes with us on an individual basis and waive any right to participate in class action lawsuits or class-wide arbitration.\n\n### Venue\n\nAny legal proceedings shall be conducted in the courts located in "
      ++ jurisdiction ++ "."
  let generalProvisions :=
    "\n## General Provisions\n\n### Entire Agreement\n\nThis Agreement constitutes the entire agreement between you and "
      ++ company_name
      ++ " regarding the Software and supersedes all prior agreements and understandings.\n\n### Severability\n\nIf any provision of this Agreement is found to be unenforceable, the remaining provisions will continue in full force and effect.\n\n### Waiver\n\nOur failure to enforce any right or provision of this Agreement will not be deemed a waiver of such right or provision.\n\n### Assignment\n\nYou may not assign or transfer this Agreement without our prior written consent. We may assign this Agreement at any time without notice.\n\n### Notices\n\nAny notices under this Agreement shall be sent to:\n\n**"
      ++ company_name ++ "**\n"
      ++ (if !(company_address = "") then company_address else "[Company Address]")
      ++ "\nEmail: "
      ++ (if !(contact_email = "") then contact_email else "[Contact Email]")
      ++ "\n\n### Force Majeure\n\nWe shall not be liable for any failure to perform due to causes beyond our reasonable control, including natural disasters, war, terrorism, or infrastructure failures.\n\n### Headings\n\nSection headings are for convenience only and do not affect the interpretation of this Agreement."
  let contactInformation :=
    "\n## Contact Information\n\nIf you have any questions about this Agreement, please contact us:\n\n**"
      ++ company_name ++ "**\n"
      ++ (if !(company_address = "") then "Address: " ++ company_address else "")
      ++ "\n"
      ++ (if !(contact_email = "") then "Email: " ++ contact_email else "")
      ++ "\n"
      ++ (if !(website_url = "") then "Website: " ++ website_url else "")
      ++ "\n\n---\n\n**BY INSTALLING OR USING THE SOFTWARE, YOU ACKNOWLEDGE THAT YOU HAVE READ THIS AGREEMENT, UNDERSTAND IT, AND AGREE TO BE BOUND BY ITS TERMS AND CONDITIONS.**"
  let sections : List String :=
    [header, intro, licenseGrant, licenseRestrictions, intellectualProperty] ++
    (if config.requires_account then [userAccounts] else []) ++
    (if config.is_subscription then [subscriptionTerms] else []) ++
    (if config.has_free_trial then [freeTrial] else []) ++
    [updatesSection] ++
    (if config.collects_data then [dataCollection] else []) ++
    (if config.uses_third_party then [thirdPartyComponents] else []) ++
    [warrantySection, liabilitySection, indemnification, termSection] ++
    (if config.has_export_restrictions then [exportCompliance] else []) ++
    [governingLaw, generalProvisions, contactInformation]
  let content := String.intercalate "\n" sections
  if output_format = "html" then convert_to_html content ("EULA - " ++ app_name)
  else content

end Eula

/-! ## refund_generator.py -/

namespace Refund

/-- Translation of `convert_to_html` from refund_generator.py: headers, `**bold**`,
`*italic*`, the stateful numbered/bulleted list loop, the two blank-line
paragraph substitutions, and the fixed HTML shell. -/
def convert_to_html (markdown_content : String) (title : String) : String :=
  let lines0 := (splitLines markdown_content.data).map convertHeaderLine
  let lines1 := lines0.map boldConv
  let lines2 := lines1.map emConv
  let lines3 := refundListLoop lines2 false false
  let body := pClose (pOpen (joinLines lines3))
  ⟨("<!DOCTYPE html>\n<html lang=\"en\">\n<head>\n    <meta charset=\"UTF-8\">\n    <meta name=\"viewport\" content=\"width=device-width, initial-scale=1.0\">\n    <title>").data
    ++ title.data
    ++ ("</title>\n    <style>\n        body \x7b\n            font-family: -apple-system, BlinkMacSystemFont, \x27Segoe UI\x27, Roboto, Oxygen, Ubuntu, sans-serif;\n            line-height: 1.6;\n            max-width: 800px;\n            margin: 0 auto;\n            padding: 20px;\n            color: #333;\n        \x7d\n        h1 \x7b color: #2c3e50; border-bottom: 2px solid #27ae60; padding-bottom: 10px; \x7d\n        h2 \x7b color: #34495e; margin-top: 30px; border-bottom: 1px solid #bdc3c7; padding-bottom: 5px; \x7d\n        h3 \x7b color: #7f8c8d; margin-top: 20px; \x7d\n        ul, ol \x7b padding-left: 20px; \x7d\n        li \x7b margin: 5px 0; \x7d\n        strong \x7b color: #2c3e50; \x7d\n        p \x7b margin: 10px 0; text-align: justify; \x7d\n    </style>\n</head>\n<body>\n").data
    ++ body
    ++ ("\n</body>\n</html>").data⟩

/-- Translation of `generate_refund_policy` from refund_generator.py.  `now` is the
injected value of `datetime.now().strftime("%B %d, %Y")`; the sections
are joined with a single newline. -/
def generate_refund_policy (config : Config) (output_format : String) (now : String) : String :=
  let company_name := pyOr config.company_name "Company"
  let website_url := pyOr config.website_url "https://example.com"
  let website_name := pyOr config.website_name (pyOr config.app_name "Website")
  let company_address := pyOr config.company_address ""
  let contact_email := pyOr config.contact_email ""
  let effective_date := pyOr config.effective_date now
  let business_type := config.business_type.getD "services"
  let header :=
    "# Refund Policy\n\n**" ++ company_name ++ "**\n\n**Effective Date:** "
      ++ effective_date ++ "\n\n**Last Updated:** " ++ now
  let intro :=
    "\n## Introduction\n\nThank you for shopping at " ++ website_name
      ++ ". We appreciate your business and want to ensure your complete satisfaction.\n\nThis Refund Policy outlines the terms and conditions for refunds, returns, and exchanges. Please read this policy carefully before making a purchase. By placing an order with us, you agree to the terms of this policy.\n\nIf you have any questions about our refund policy, please contact us at "
      ++ (if !(contact_email = "") then contact_email else "[contact email]") ++ "."
  let guarantee_period := config.guarantee_period.getD "30 days"
  let satisfaction :=
    "\n## Satisfaction Guarantee\n\nWe stand behind our products/services with a "
      ++ guarantee_period
      ++ " satisfaction guarantee. If you are not completely satisfied with your purchase, we will work with you to make it right.\n\nOur satisfaction guarantee means:\n\n- Full refund if you\x27re not satisfied within "
      ++ guarantee_period
      ++ "\n- No questions asked returns\n- Easy and hassle-free process\n- Quick processing of refunds"
  let refund_period := config.refund_period.getD "14 days"
  let digitalSection :=
    "\n## Refund Policy for Digital Products/Services\n\n### Refund Eligibility\n\nYou may request a refund within **"
      ++ refund_period
      ++ "** of your purchase if:\n\n- The service/product does not work as described\n- You have not substantially used the service\n- Technical issues prevent you from using the product\n- The product was purchased by mistake (limited circumstances)\n\n### Non-Refundable Items\n\nThe following are generally NOT eligible for refunds:\n\n- Services that have been fully rendered or consumed\n- Custom or personalized digital products\n- Products purchased on sale or with promotional discounts (unless defective)\n- Subscriptions after the refund period has passed\n- Products where you have violated our terms of service"
  let proratedSection :=
    "\n### Pro-Rated Refunds\n\nFor subscription services cancelled mid-cycle:\n\n- We offer pro-rated refunds based on unused time\n- The refund amount is calculated from the cancellation date\n- Pro-rated refunds are processed within 5-10 business days"
  let return_period := config.return_period.getD "30 days"
  let physicalSection :=
    "\n## Return Policy for Physical Products\n\n### Return Window\n\nYou have **"
      ++ return_period
      ++ "** from the date of delivery to return eligible items for a refund or exchange.\n\n### Return Conditions\n\nTo be eligible for a return, items must:\n\n- Be unused and in the same condition that you received them\n- Be in the original packaging"
      ++ (if config.requires_original_packaging then " (required)" else " (preferred)")
      ++ "\n- "
      ++ (if config.requires_receipt then "Include the receipt or proof of purchase"
          else "Have proof of purchase available upon request")
      ++ "\n- Not be damaged due to misuse or negligence\n\n### Non-Returnable Items\n\nThe following items cannot be returned:\n\n- Perishable goods (food, flowers, etc.)\n- Personal care items (cosmetics, hygiene products)\n- Intimate or sanitary goods\n- Hazardous materials\n- Custom or personalized items\n- Gift cards\n- Downloadable software products\n- Items marked as \"Final Sale\" or \"Non-Returnable\""
  let exchangesSection :=
    "\n### Exchanges\n\nWe are happy to exchange items for a different size, color, or product of equal value. To request an exchange:\n\n1. Contact our customer service team\n2. Provide your order number and the item you wish to exchange\n3. Specify the replacement item you want\n4. Ship the original item back to us\n5. We will ship the replacement once we receive the return"
  let restockingSection :=
    "\n### Restocking Fee\n\nA restocking fee of **" ++ pyOr config.restocking_fee ""
      ++ "** may apply to:\n\n- Items returned without original packaging\n- Items returned after the standard return window (if accepted)\n- Large or specialty items\n- Electronics and appliances that have been opened"
  let who_pays_return_shipping := config.return_shipping.getD "customer"
  let returnShippingSection :=
    "\n### Return Shipping\n\n"
      ++ (if who_pays_return_shipping = "company" then
            "**We provide free return shipping** for defective or incorrectly shipped items."
          else "")
      ++ "\n"
      ++ (if who_pays_return_shipping = "customer" then
            "**Customers are responsible for return shipping costs** for standard returns."
          else "")
      ++ "\n"
      ++ (if who_pays_return_shipping = "prepaid" then
            "**We provide prepaid return labels** for all returns."
          else "")
      ++ "\n\nImportant shipping notes:\n\n- Use a trackable shipping service\n- Keep your shipping receipt as proof of return\n- We recommend insuring valuable items\n- We are not responsible for items lost in return transit"
  let subscription_refund_policy := config.subscription_refund_policy.getD "prorated"
  let subscriptionSection :=
    "\n## Subscription Refunds\n\n### Cancellation Policy\n\nYou may cancel your subscription at any time through:\n\n- Your account dashboard\n- Contacting customer support\n- Email request to "
      ++ (if !(contact_email = "") then contact_email else "our support team")
      ++ "\n\n### Refund Options\n\n"
      ++ (if subscription_refund_policy = "full" then
            "**Full Refund:** Cancel within the first billing period for a full refund."
          else "")
      ++ "\n"
      ++ (if subscription_refund_policy = "prorated" then
            "**Pro-Rated Refund:** Receive a refund for the unused portion of your subscription."
          else "")
      ++ "\n"
      ++ (if subscription_refund_policy = "none" then
            "**No Refund:** Subscription fees are non-refundable, but you retain access until the end of your billing period."
          else "")
      ++ "\n\n### Free Trial Conversions\n\nIf you signed up for a free trial:\n\n- Cancel before the trial ends to avoid charges\n- No refund for charges if you forget to cancel\n- Set a reminder before your trial expires"
  let howToRequest :=
    "\n## How to Request a Refund\n\n### Step-by-Step Process\n\n1. **Contact Us**\n   - Email: "
      ++ (if !(contact_email = "") then contact_email else "[support email]")
      ++ "\n   - Include your order number and reason for refund\n\n2. **Provide Required Information**\n   - Order number or transaction ID\n   - Date of purchase\n   - Reason for refund request\n   - Photos of damaged items (if applicable)\n\n3. **Wait for Confirmation**\n   - We will review your request within 2-3 business days\n   - You will receive an email with instructions or approval\n\n4. **Return Items (if applicable)**\n   - Ship items to the provided address\n   - Include any required documentation\n\n5. **Receive Your Refund**\n   - Refunds are processed after we receive and inspect returns\n   - Allow 5-10 business days for the refund to appear"
  let refund_processing_time := config.refund_processing_time.getD "5-10 business days"
  let processingSection :=
    "\n## Refund Processing\n\n### Processing Time\n\nOnce your refund is approved, please allow:\n\n- **Credit/Debit Cards:** "
      ++ refund_processing_time
      ++ "\n- **PayPal:** 3-5 business days\n- **Bank Transfer:** 5-10 business days\n- **Store Credit:** Immediate\n\n### Refund Method\n\nRefunds will be issued to the original payment method used for the purchase unless:\n\n- The original payment method is no longer valid\n- You request store credit instead\n- Local regulations require a different method\n\n### Partial Refunds\n\nWe may issue partial refunds in cases where:\n\n- Items are returned after the return window (at our discretion)\n- Items show signs of use or damage\n- Not all items from an order are returned\n- Restocking fees apply"
  let lateSection :=
    "\n## Late or Missing Refunds\n\nIf you haven\x27t received your refund after the expected timeframe:\n\n1. **Check Your Account**\n   - Review your bank or credit card statement\n   - Check your PayPal account (if applicable)\n\n2. **Contact Your Bank**\n   - There may be processing delays on their end\n   - Some banks take additional time to post refunds\n\n3. **Contact Your Credit Card Company**\n   - Processing times vary between providers\n   - Ask about their refund posting timeline\n\n4. **Contact Us**\n   - If you\x27ve completed all steps above and still haven\x27t received your refund\n   - Email us at "
      ++ (if !(contact_email = "") then contact_email else "[support email]")
      ++ " with your order details\n   - We will investigate and resolve the issue"
  let saleSection :=
    "\n## Sale Items and Promotions\n\n### Sale Items\n\n"
      ++ (if config.sale_items_refundable then
            "Sale items are eligible for refunds under the same terms as regular-priced items."
          else
            "Sale items and clearance items are FINAL SALE and cannot be returned or refunded unless defective.")
      ++ "\n\n### Promotional Discounts\n\n- Items purchased with promo codes follow standard refund policies\n- Refund amounts will reflect the discounted price paid\n- Free promotional items must be returned with the qualifying purchase\n\n### Bundle Deals\n\n- Returning part of a bundle may affect the refund amount\n- The full bundle discount may be deducted from partial returns\n- We recommend returning the entire bundle for a full refund"
  let damagedSection :=
    "\n## Damaged or Defective Items\n\n### Damaged in Shipping\n\nIf your item arrived damaged:\n\n1. Take photos of the packaging and damage\n2. Contact us within 48 hours of delivery\n3. Do not discard the packaging or items\n4. We will arrange a replacement or full refund\n\n### Defective Products\n\nIf your product is defective:\n\n1. Contact us with a description of the defect\n2. Provide photos or videos if possible\n3. We may request you return the item for inspection\n4. We will provide a replacement, repair, or refund\n\n### Wrong Item Received\n\nIf you received the wrong item:\n\n1. Contact us immediately\n2. Do not use or open the incorrect item\n3. We will send the correct item and arrange return pickup\n4. Return shipping is free for our errors"
  let chargebackSection :=
    "\n## Chargebacks and Disputes\n\n### Before Filing a Chargeback\n\nPlease contact us before disputing a charge with your bank or credit card company. We want to resolve any issues directly and can often do so faster than the dispute process.\n\n### Our Commitment\n\n- We respond to all refund requests within 48 hours\n- We work to find a fair resolution for all parties\n- We honor all valid refund requests within our policy\n\n### Chargeback Consequences\n\nFiling a chargeback without first contacting us may result in:\n\n- Suspension of your account\n- Inability to make future purchases\n- Additional fees if the chargeback is found to be unwarranted"
  let legalSection :=
    "\n## Your Legal Rights\n\n### Consumer Protection Laws\n\nThis refund policy does not affect your statutory rights under consumer protection laws. In some jurisdictions, you may have additional rights, including:\n\n- **European Union:** 14-day cooling-off period for online purchases\n- **United Kingdom:** Consumer Rights Act protections\n- **Australia:** Australian Consumer Law guarantees\n- **United States:** State-specific consumer protection laws\n\n### Right of Withdrawal (EU/UK)\n\nIf you are in the European Union or United Kingdom, you have the right to withdraw from your purchase within 14 days without giving any reason, subject to certain exceptions for:\n\n- Digital content after download has begun\n- Personalized or custom-made products\n- Sealed goods unsealed after delivery"
  let exceptionsSection :=
    "\n## Exceptions and Special Circumstances\n\n### Force Majeure\n\nIn cases of natural disasters, pandemics, or other events beyond our control:\n\n- Return windows may be extended\n- Shipping delays will not affect your refund eligibility\n- We will communicate any policy changes\n\n### Goodwill Exceptions\n\nAt our sole discretion, we may make exceptions to this policy in special circumstances. Please contact us to discuss your situation.\n\n### Fraud Prevention\n\nWe reserve the right to refuse refunds if we detect:\n\n- Patterns of abuse (frequent returns, \"wardrobing\")\n- Fraudulent claims\n- Violation of our terms of service"
  let changesSection :=
    "\n## Changes to This Policy\n\nWe reserve the right to modify this refund policy at any time. Changes will be effective immediately upon posting to our website.\n\n- The policy in effect at the time of your purchase applies to that transaction\n- We will notify customers of significant changes via email\n- Continued use of our services constitutes acceptance of the updated policy"
  let contactSection :=
    "\n## Contact Us\n\nIf you have any questions about our Refund Policy, please contact us:\n\n**"
      ++ company_name ++ "**\n"
      ++ (if !(company_address = "") then "Address: " ++ company_address else "")
      ++ "\n"
      ++ (if !(contact_email = "") then "Email: " ++ contact_email else "")
      ++ "\n"
      ++ (if !(website_url = "") then "Website: " ++ website_url else "")
      ++ "\n\nOur customer service team is available:\n\n- Monday - Friday: 9:00 AM - 5:00 PM\n- Response time: Within 24-48 hours\n\nWe value your business and will do our best to ensure your satisfaction."
  let sections : List String :=
    [header, intro] ++
    (if config.has_satisfaction_guarantee then [satisfaction] else []) ++
    (if business_type = "digital" ∨ business_type = "services" ∨ business_type = "subscription" then
      [digitalSection] ++ (if config.offers_prorated_refunds then [proratedSection] else [])
    else []) ++
    (if business_type = "products" then
      [physicalSection] ++
      (if config.offers_exchanges then [exchangesSection] else []) ++
      (if truthyS config.restocking_fee then [restockingSection] else []) ++
      [returnShippingSection]
    else []) ++
    (if business_type = "subscription" ∨ config.has_subscriptions then [subscriptionSection] else []) ++
    [howToRequest, processingSection, lateSection, saleSection, damagedSection,
     chargebackSection, legalSection, exceptionsSection, changesSection, contactSection]
  let content := String.intercalate "\n" sections
  if output_format = "html" then
    convert_to_html content ("Refund Policy - " ++ company_name)
  else content

end Refund

/-! ## privacy_generator.py -/

namespace Privacy

/-- Translation of `_get_platform_text` from privacy_generator.py. -/
def _get_platform_text (config : Config) : String :=
  let website :=
    if truthyS config.website_url then pyOr config.website_url ""
    else pyOr config.website_name ""
  let app := pyOr config.app_name ""
  if config.platform_type = some "both" then
    let parts : List String :=
      (if !(website = "") then ["the website " ++ website] else []) ++
      (if !(app = "") then ["the " ++ app ++ " mobile application"] else [])
    if parts.isEmpty then "our website and mobile application"
    else String.intercalate " and " parts
  else if config.platform_type = some "app" then
    if !(app = "") then "the " ++ app ++ " mobile application"
    else "our mobile application"
  else
    if !(website = "") then "the website " ++ website else "our website"

/-- Translation of `_get_service_type` from privacy_generator.py. -/
def _get_service_type (config : Config) : String :=
  if config.platform_type = some "both" then "website and application"
  else if config.platform_type = some "app" then "application"
  else "website"

/-- Translation of `_generate_header`; `now` is the injected value of
`datetime.now().strftime("%B %d, %Y")` (privacy_generator.py lines
95-106). -/
def _generate_header (config : Config) (now : String) : String :=
  let company :=
    pyOr config.company_name (pyOr config.website_name (pyOr config.app_name "Our Company"))
  let date := pyOr config.effective_date now
  "# Privacy Policy\n\n**" ++ company ++ "**\n\n**Effective Date:** " ++ date
    ++ "\n\n**Last Updated:** " ++ now

/-- Translation of `_generate_introduction`. -/
def _generate_introduction (config : Config) : String :=
  let company := pyOr config.company_name "We"
  let platform := _get_platform_text config
  "## Introduction\n\n" ++ company ++ " (\"we,\" \"us,\" or \"our\") operates " ++ platform
    ++ ". This Privacy Policy explains how we collect, use, disclose, and safeguard your information when you visit our "
    ++ _get_service_type config
    ++ ".\n\nPlease read this Privacy Policy carefully. If you do not agree with the terms of this Privacy Policy, please do not access the "
    ++ _get_service_type config
    ++ ".\n\nWe reserve the right to make changes to this Privacy Policy at any time and for any reason. We will alert you about any changes by updating the \"Last Updated\" date of this Privacy Policy. You are encouraged to periodically review this Privacy Policy to stay informed of updates."

/-- Translation of `_generate_information_collection`. -/
def _generate_information_collection (config : Config) : String :=
  let personal_data : List String :=
    (if config.collects_name then ["Name and username"] else []) ++
    (if config.collects_email then ["Email address"] else []) ++
    (if config.collects_phone then ["Phone number"] else []) ++
    (if config.collects_address then ["Mailing address"] else []) ++
    (if config.collects_billing_address then ["Billing address"] else []) ++
    (if config.collects_job_title then ["Job title and employer information"] else []) ++
    (if config.collects_payment_info then
      ["Payment information (credit card numbers, billing details)"] else []) ++
    (if config.collects_age then ["Age and date of birth"] else []) ++
    (if config.collects_password then ["Account credentials (passwords are encrypted)"] else []) ++
    (if config.collects_username then ["Username"] else [])
  let personal_list :=
    if !personal_data.isEmpty then
      String.intercalate "\n" (personal_data.map (fun item => "- " ++ item))
    else "- Basic contact information as needed"
  "## Information We Collect\n\n### Personal Data\n\nWe may collect personally identifiable information that you voluntarily provide to us when you:\n- Register on our "
    ++ _get_service_type config
    ++ "\n- Express interest in obtaining information about us or our products\n- Participate in activities on our "
    ++ _get_service_type config
    ++ "\n- Contact us\n\nThe personal information we collect may include:\n\n"
    ++ personal_list
    ++ "\n\n### Automatically Collected Information\n\nWhen you access our "
    ++ _get_service_type config
    ++ ", we may automatically collect certain information, including:\n- Your IP address\n- Browser type and version\n- Operating system\n- Access times and dates\n- Pages viewed and links clicked\n- The page you visited before navigating to our "
    ++ _get_service_type config

/-- Translation of `_uses_tracking`. -/
def _uses_tracking (config : Config) : Bool :=
  config.uses_cookies || config.uses_web_beacons || config.uses_local_storage ||
    config.uses_sessions || config.uses_google_maps

/-- Translation of `_generate_tracking_section`; each element of
`technologies` is a template whose `{service}` slots are filled by
`.format(service=service)`. -/
def _generate_tracking_section (config : Config) : String :=
  let service := _get_service_type config
  let technologies : List String :=
    (if config.uses_cookies then
      ["### Cookies\n\nWe use cookies and similar tracking technologies to track activity on our "
        ++ service
        ++ " and hold certain information. Cookies are files with a small amount of data that are sent to your browser from a website and stored on your device.\n\nYou can instruct your browser to refuse all cookies or to indicate when a cookie is being sent. However, if you do not accept cookies, you may not be able to use some portions of our "
        ++ service ++ "."]
    else []) ++
    (if config.uses_web_beacons then
      ["### Web Beacons\n\nWe may use web beacons (also known as pixel tags or clear GIFs) to track user activity and gather usage data. These are tiny graphics with a unique identifier that help us understand how you interact with our "
        ++ service ++ "."]
    else []) ++
    (if config.uses_local_storage then
      ["### Local Storage\n\nWe use local storage technologies (such as HTML5 local storage) to store content information and preferences. These are similar to cookies but can store larger amounts of data."]
    else []) ++
    (if config.uses_sessions then
      ["### Session Data\n\nWe use session cookies and tokens to maintain your session while you use our "
        ++ service
        ++ ". These are temporary and are deleted when you close your browser or log out."]
    else []) ++
    (if config.uses_google_maps then
      ["### Google Maps API\n\nWe may use Google Maps API to provide location-based features. This means Google may collect certain information about your device and location. Please refer to Google\x27s Privacy Policy for more information about how they handle data."]
    else [])
  let content := String.intercalate "\n\n" technologies
  "## Tracking Technologies\n\n" ++ content

/-- Translation of `_uses_social_login`. -/
def _uses_social_login (config : Config) : Bool :=
  config.social_login_facebook || config.social_login_google || config.social_login_twitter ||
    config.social_login_github || config.social_login_linkedin

/-- Translation of `_generate_social_login_section`. -/
def _generate_social_login_section (config : Config) : String :=
  let providers : List String :=
    (if config.social_login_facebook then ["Facebook"] else []) ++
    (if config.social_login_google then ["Google"] else []) ++
    (if config.social_login_twitter then ["Twitter/X"] else []) ++
    (if config.social_login_github then ["GitHub"] else []) ++
    (if config.social_login_linkedin then ["LinkedIn"] else [])
  let provider_list := String.intercalate ", " providers
  "## Social Media Login\n\nWe offer you the ability to register and login using your third-party social media account details (like "
    ++ provider_list
    ++ "). When you choose to do this, we will receive certain profile information about you from your social media provider.\n\nThe profile information we receive may vary depending on the social media provider concerned, but will often include:\n- Your name\n- Email address\n- Profile picture\n- Any other information you choose to make public\n\nWe will use the information we receive only for the purposes that are described in this Privacy Policy or that are otherwise made clear to you. Please note that we do not control, and are not responsible for, other uses of your personal information by your third-party social media provider. We recommend that you review their privacy policy to understand how they collect, use, and share your personal information."

/-- Translation of `_generate_use_of_information`. -/
def _generate_use_of_information (config : Config) : String :=
  "## How We Use Your Information\n\nWe may use the information we collect about you for various purposes, including to:\n\n- Provide, operate, and maintain our "
    ++ _get_service_type config
    ++ "\n- Improve, personalize, and expand our "
    ++ _get_service_type config
    ++ "\n- Understand and analyze how you use our "
    ++ _get_service_type config
    ++ "\n- Develop new products, services, features, and functionality\n- Communicate with you, including for customer service and support\n- Send you updates and other information relating to the "
    ++ _get_service_type config
    ++ "\n- Process transactions and send related information\n- Find and prevent fraud\n- Comply with legal obligations"

/-- Translation of `_has_marketing`. -/
def _has_marketing (config : Config) : Bool :=
  config.has_email_newsletter || config.uses_analytics || config.displays_ads ||
    config.uses_facebook_pixel || config.uses_retargeting

/-- Translation of `_generate_marketing_section`. -/
def _generate_marketing_section (config : Config) : String :=
  let content : List String :=
    ["## Marketing and Advertising"] ++
    (if config.has_email_newsletter then
      ["### Email Marketing\n\nWith your consent, we may send you emails about our products, services, and promotions. You can opt out of receiving marketing emails at any time by:\n- Clicking the unsubscribe link in any marketing email\n- Contacting us directly to request removal from our mailing list\n\nPlease note that even if you opt out of marketing emails, we may still send you transactional or administrative emails related to your account."]
    else []) ++
    (if config.uses_analytics then
      ["### Analytics\n\nWe use " ++ pyOr config.analytics_provider "analytics tools"
        ++ " to help us understand how our users engage with our "
        ++ _get_service_type config
        ++ ". This helps us improve our services and user experience. Analytics data collected may include:\n- Pages visited and time spent on each page\n- Links clicked\n- Search queries\n- Device and browser information\n- Geographic location (country/city level)"]
    else []) ++
    (if config.displays_ads then
      ["### Advertising\n\nWe may display advertisements on our "
        ++ _get_service_type config
        ++ ". These ads may be targeted based on your interests or browsing behavior. We work with third-party advertising partners who may use cookies and similar technologies to collect information about your activities on our site and other websites."]
    else []) ++
    (if config.uses_facebook_pixel then
      ["### Facebook Pixel\n\nWe use Facebook Pixel to measure the effectiveness of our advertising and to deliver targeted advertisements on Facebook. Facebook may collect information about your browsing behavior across websites. For more information about Facebook\x27s data practices, please review Facebook\x27s Data Policy."]
    else []) ++
    (if config.uses_retargeting then
      ["### Retargeting\n\nWe may use retargeting technologies to serve ads to you on other websites after you have visited our "
        ++ _get_service_type config
        ++ ". This is done through cookies that track your browsing activity. You can opt out of retargeting by adjusting your browser settings or visiting industry opt-out pages."]
    else [])
  String.intercalate "\n\n" content

/-- Translation of `_has_app_permissions`. -/
def _has_app_permissions (config : Config) : Bool :=
  config.requests_geolocation || config.requests_contacts || config.requests_camera ||
    config.requests_photo_gallery || config.requests_microphone ||
    config.requests_push_notifications

/-- Translation of `_generate_app_permissions_section`. -/
def _generate_app_permissions_section (config : Config) : String :=
  let permissions : List String :=
    (if config.requests_geolocation then
      ["**Location Data:** We may request access to your device\x27s location to provide location-based services and features."]
    else []) ++
    (if config.requests_contacts then
      ["**Contacts:** We may request access to your contacts to help you connect with friends or share content."]
    else []) ++
    (if config.requests_camera then
      ["**Camera:** We may request access to your camera to allow you to take photos or videos within the app."]
    else []) ++
    (if config.requests_photo_gallery then
      ["**Photo Gallery:** We may request access to your photo gallery to allow you to upload or share images."]
    else []) ++
    (if config.requests_microphone then
      ["**Microphone:** We may request access to your microphone for voice features or audio recording."]
    else []) ++
    (if config.requests_push_notifications then
      ["**Push Notifications:** We may request permission to send you push notifications about updates, messages, or promotions."]
    else [])
  let permission_list := String.intercalate "\n\n" permissions
  "## Mobile Application Permissions\n\nWhen using our mobile application, we may request certain permissions from your device:\n\n"
    ++ permission_list
    ++ "\n\nYou can revoke these permissions at any time through your device settings. Please note that revoking certain permissions may limit the functionality of our app."

/-- Translation of `_generate_payment_section`. -/
def _generate_payment_section (config : Config) : String :=
  let payment_type := pyOr config.payment_type "one-time and recurring"
  let processors :=
    if !config.payment_processors.isEmpty then config.payment_processors
    else ["third-party payment processors"]
  let processor_list := String.intercalate ", " processors
  "## Payment Processing\n\nWe may accept " ++ payment_type
    ++ " payments for our products and services. We use " ++ processor_list
    ++ " to process payments.\n\n### Payment Information\n\nWhen you make a purchase, you may be required to provide:\n- Credit or debit card information\n- Billing address\n- Contact information\n\n### Security of Payment Data\n\nWe do not store your complete payment card information on our servers. Payment data is processed directly by our payment processors, who are PCI-DSS compliant. We may store:\n- Last four digits of your card number\n- Card type and expiration date\n- Billing address\n- Transaction history\n\n### Recurring Payments\n\n"
    ++ (if payment_type = "recurring" ∨ payment_type = "both" then
          "If you subscribe to a recurring service, your payment information will be stored by our payment processor to process future charges. You can cancel your subscription at any time through your account settings or by contacting us."
        else
          "We process one-time payments only and do not store your payment information for future transactions unless you explicitly authorize us to do so.")

/-- Translation of `_generate_data_sharing_section`; the scenario list is
inserted between the heading paragraph and any sale-of-information
subsection. -/
def _generate_data_sharing_section (config : Config) : String :=
  let sharing_scenarios : List String :=
    ["**Service Providers:** We may share your information with third-party vendors, service providers, contractors, or agents who perform services for us.",
     "**Business Transfers:** We may share or transfer your information in connection with, or during negotiations of, any merger, sale of company assets, financing, or acquisition of all or a portion of our business.",
     "**Legal Requirements:** We may disclose your information where required to do so by law or in response to valid requests by public authorities.",
     "**Protection of Rights:** We may disclose your information to protect the rights, property, or safety of our company, our customers, or others."] ++
    (if config.shares_with_third_parties then
      ["**Third-Party Partners:** We may share your information with "
        ++ String.intercalate ", "
            (if !config.third_party_categories.isEmpty then config.third_party_categories
             else ["business partners"])
        ++ " for purposes described in this policy."]
    else []) ++
    (if config.sells_data then []
     else ["**No Sale of Data:** We do not sell your personal information to third parties."])
  let content : List String :=
    ["## Sharing Your Information\n\nWe may share your information in the following situations:"] ++
    [String.intercalate "\n" (sharing_scenarios.map (fun s => "- " ++ s))] ++
    (if config.sells_data then
      ["### Sale of Personal Information\n\nWe may sell certain categories of personal information to third parties. You have the right to opt out of the sale of your personal information. Please see the \"Your Rights\" section below for more information."]
    else [])
  String.intercalate "\n\n" content

/-- Translation of `_generate_data_retention_section`. -/
def _generate_data_retention_section (config : Config) : String :=
  let retention :=
    pyOr config.data_retention_period
      "as long as necessary to fulfill the purposes outlined in this Privacy Policy"
  "## Data Retention\n\nWe will retain your personal information only for as long as is necessary for the purposes set out in this Privacy Policy. We will retain and use your information to the extent necessary to:\n\n- Comply with our legal obligations\n- Resolve disputes\n- Enforce our policies\n- Fulfill the purposes for which we collected the information\n\n**Retention Period:** We retain your personal data for "
    ++ retention
    ++ ", unless a longer retention period is required or permitted by law.\n\nWhen your personal data is no longer needed, we will securely delete or anonymize it."

/-- Translation of `_generate_security_section`. -/
def _generate_security_section (config : Config) : String :=
  let measures : List String :=
    ["We use administrative, technical, and physical security measures to protect your personal information."] ++
    (if config.uses_encryption then
      ["We use encryption to protect data transmitted to and from our "
        ++ _get_service_type config ++ "."]
    else []) ++
    (if config.uses_ssl then
      ["Our " ++ _get_service_type config
        ++ " uses SSL/TLS encryption to secure data transmission."]
    else []) ++
    (if config.has_security_measures then
      ["We implement industry-standard security measures including firewalls, intrusion detection systems, and regular security audits."]
    else [])
  let security_content := String.intercalate " " measures
  "## Data Security\n\n" ++ security_content
    ++ "\n\nWhile we strive to use commercially acceptable means to protect your personal information, no method of transmission over the Internet or electronic storage is 100% secure. We cannot guarantee absolute security, but we are committed to protecting your information to the best of our ability.\n\nIf you have reason to believe that your interaction with us is no longer secure, please contact us immediately."

/-- Translation of `_generate_user_rights_section`. -/
def _generate_user_rights_section (config : Config) : String :=
  let rights : List String :=
    (if config.allows_data_access then
      ["**Right to Access:** You have the right to request copies of your personal data."]
    else []) ++
    (if config.allows_data_deletion then
      ["**Right to Deletion:** You have the right to request that we delete your personal data, under certain conditions."]
    else []) ++
    (if config.allows_data_portability then
      ["**Right to Data Portability:** You have the right to request that we transfer the data we have collected to another organization, or directly to you, under certain conditions."]
    else []) ++
    (if config.allows_opt_out then
      ["**Right to Opt Out:** You have the right to opt out of certain data processing activities, including marketing communications."]
    else []) ++
    ["**Right to Rectification:** You have the right to request that we correct any information you believe is inaccurate.",
     "**Right to Restrict Processing:** You have the right to request that we restrict the processing of your personal data, under certain conditions."]
  let rights_list := String.intercalate "\n" (rights.map (fun r => "- " ++ r))
  "## Your Privacy Rights\n\nDepending on your location, you may have certain rights regarding your personal information:\n\n"
    ++ rights_list
    ++ "\n\n### Exercising Your Rights\n\nTo exercise any of these rights, please contact us using the contact information provided below. We will respond to your request within a reasonable timeframe and in accordance with applicable law.\n\nWe may need to verify your identity before processing your request. In some cases, we may be unable to fulfill your request if it would infringe on the rights of others, if there is a legal obligation to retain the data, or if the request is unfounded or excessive."

/-- Translation of `_generate_children_privacy_section`. -/
def _generate_children_privacy_section (config : Config) : String :=
  if config.allows_children_under_13 || config.coppa_compliant then
    "## Children\x27s Privacy\n\nWe are committed to protecting the privacy of children. Our "
      ++ _get_service_type config
      ++ " may be used by children under the age of 13 with parental consent.\n\n### Parental Consent\n\nIf your child is under 13, we require verifiable parental consent before collecting any personal information. Parents or guardians can:\n- Review their child\x27s personal information\n- Request deletion of their child\x27s data\n- Refuse to allow further collection of their child\x27s data\n\n### Contact for Parents\n\nIf you are a parent or guardian and believe that your child has provided us with personal information without your consent, please contact us immediately so that we can take appropriate action.\n\nWe comply with the Children\x27s Online Privacy Protection Act (COPPA) and other applicable laws regarding children\x27s privacy."
  else
    "## Children\x27s Privacy\n\nOur "
      ++ _get_service_type config
      ++ " is not intended for children under the age of 13. We do not knowingly collect personal information from children under 13. If you are a parent or guardian and believe that your child has provided us with personal information, please contact us immediately.\n\nIf we become aware that we have collected personal information from a child under 13 without verification of parental consent, we will take steps to remove that information from our servers."

/-- Translation of `_generate_gdpr_section` (a constant text). -/
def _generate_gdpr_section (config : Config) : String :=
  "## GDPR Privacy Rights (European Economic Area)\n\nIf you are a resident of the European Economic Area (EEA), you have certain data protection rights under the General Data Protection Regulation (GDPR):\n\n### Legal Basis for Processing\n\nWe process your personal data based on one or more of the following legal grounds:\n- **Consent:** You have given us permission to process your data for specific purposes\n- **Contract:** Processing is necessary to fulfill a contract with you\n- **Legal Obligation:** Processing is necessary to comply with the law\n- **Legitimate Interests:** Processing is necessary for our legitimate interests, provided those interests are not overridden by your rights\n\n### Your GDPR Rights\n\nIn addition to the rights listed above, under GDPR you also have:\n- The right to lodge a complaint with a supervisory authority\n- The right to withdraw consent at any time\n- The right to object to processing based on legitimate interests\n- The right not to be subject to automated decision-making\n\n### Data Transfers\n\nIf we transfer your data outside the EEA, we ensure appropriate safeguards are in place, such as Standard Contractual Clauses approved by the European Commission.\n\n### Data Protection Officer\n\nFor any questions about our data practices or to exercise your rights, you may contact us using the information provided below."

/-- Translation of `_generate_ccpa_section`. -/
def _generate_ccpa_section (config : Config) : String :=
  "## CCPA Privacy Rights (California Residents)\n\nIf you are a California resident, you have specific rights under the California Consumer Privacy Act (CCPA):\n\n### Your CCPA Rights\n\n- **Right to Know:** You can request information about the categories and specific pieces of personal information we have collected about you\n- **Right to Delete:** You can request deletion of your personal information\n- **Right to Opt-Out:** You can opt out of the sale of your personal information\n- **Right to Non-Discrimination:** We will not discriminate against you for exercising your CCPA rights\n\n### Categories of Information Collected\n\nWe may collect the following categories of personal information:\n- Identifiers (name, email, phone number)\n- Commercial information (purchase history)\n- Internet or network activity (browsing history, search history)\n- Geolocation data\n- Professional or employment-related information\n\n### How to Exercise Your Rights\n\nTo exercise your CCPA rights, you can:\n- Submit a request through our contact form\n- Email us at the address provided below\n- Call our toll-free number (if applicable)\n\nWe will verify your identity before processing your request. You may designate an authorized agent to make a request on your behalf.\n\n### Do Not Sell My Personal Information\n\n"
    ++ (if config.sells_data then
          "We may sell certain categories of personal information. To opt out of the sale of your personal information, please contact us or use the \x27Do Not Sell My Personal Information\x27 link on our website."
        else "We do not sell your personal information.")

/-- Translation of `_generate_caloppa_section`. -/
def _generate_caloppa_section (config : Config) : String :=
  "## CalOPPA Compliance (California Online Privacy Protection Act)\n\nIn accordance with CalOPPA, we agree to the following:\n\n- Users can visit our "
    ++ _get_service_type config
    ++ " anonymously\n- This Privacy Policy link is clearly accessible on our home page\n- Our Privacy Policy link includes the word \x27Privacy\x27 and can be easily found on our website\n- Users will be notified of any privacy policy changes on this Privacy Policy page\n- Users can change their personal information by logging into their account or contacting us\n\n### Do Not Track Signals\n\nWe honor Do Not Track signals. When we detect a Do Not Track signal, we will not track, plant cookies, or use advertising."

/-- Translation of `_generate_updates_section`. -/
def _generate_updates_section (config : Config) : String :=
  "## Changes to This Privacy Policy\n\nWe may update our Privacy Policy from time to time. We will notify you of any changes by:\n- Posting the new Privacy Policy on this page\n- Updating the \"Last Updated\" date at the top of this Privacy Policy\n- Sending you an email notification (for significant changes)\n\nYou are advised to review this Privacy Policy periodically for any changes. Changes to this Privacy Policy are effective when they are posted on this page.\n\nYour continued use of our "
    ++ _get_service_type config
    ++ " after any modifications to this Privacy Policy constitutes your acceptance of those changes."

/-- Translation of `_generate_contact_section`. -/
def _generate_contact_section (config : Config) : String :=
  let company :=
    pyOr config.company_name (pyOr config.website_name (pyOr config.app_name "Us"))
  let contact_info : List String :=
    (if truthyS config.contact_email then
      ["**Email:** " ++ pyOr config.contact_email ""] else []) ++
    (if truthyS config.contact_phone then
      ["**Phone:** " ++ pyOr config.contact_phone ""] else []) ++
    (if truthyS config.company_address then
      ["**Address:** " ++ pyOr config.company_address ""] else []) ++
    (if truthyS config.website_url then
      ["**Website:** " ++ pyOr config.website_url ""] else [])
  let contact_list :=
    if !contact_info.isEmpty then String.intercalate "\n" contact_info
    else "Please visit our website for contact information."
  "## Contact Us\n\nIf you have any questions about this Privacy Policy or our data practices, please contact us:\n\n**"
    ++ company ++ "**\n\n" ++ contact_list
    ++ "\n\nWe will respond to your inquiry as soon as possible, typically within 30 days."

/-- Leading part of the privacy HTML shell, up to the interpolated
company name in the `<title>`. -/
def shellHead : String :=
  "<!DOCTYPE html>\n<html lang=\"en\">\n<head>\n    <meta charset=\"UTF-8\">\n    <meta name=\"viewport\" content=\"width=device-width, initial-scale=1.0\">\n    <title>Privacy Policy - "

/-- Middle part of the privacy HTML shell: from after the company name to
the opening of `<body>` (the inline stylesheet). -/
def shellMid : String :=
  "</title>\n    <style>\n        body \x7b\n            font-family: -apple-system, BlinkMacSystemFont, \x27Segoe UI\x27, Roboto, Oxygen, Ubuntu, Cantarell, sans-serif;\n            line-height: 1.6;\n            max-width: 800px;\n            margin: 0 auto;\n            padding: 20px;\n            color: #333;\n        \x7d\n        h1 \x7b\n            color: #1a1a1a;\n            border-bottom: 2px solid #eee;\n            padding-bottom: 10px;\n        \x7d\n        h2 \x7b\n            color: #2a2a2a;\n            margin-top: 30px;\n            border-bottom: 1px solid #eee;\n            padding-bottom: 5px;\n        \x7d\n        h3 \x7b\n            color: #3a3a3a;\n            margin-top: 20px;\n        \x7d\n        ul \x7b\n            padding-left: 20px;\n        \x7d\n        li \x7b\n            margin-bottom: 8px;\n        \x7d\n        strong \x7b\n            color: #1a1a1a;\n        \x7d\n        p \x7b\n            margin-bottom: 15px;\n        \x7d\n        @media (prefers-color-scheme: dark) \x7b\n            body \x7b\n                background-color: #1a1a1a;\n                color: #e0e0e0;\n            \x7d\n            h1, h2, h3, strong \x7b\n                color: #fff;\n            \x7d\n            h1, h2 \x7b\n                border-color: #444;\n            \x7d\n        \x7d\n    </style>\n</head>\n<body>\n"

/-- Trailing part of the privacy HTML shell. -/
def shellTail : String := "\n</body>\n</html>"

/-- The body transformation of `_convert_to_html` from
privacy_generator.py: headers, `**bold**` and list items per line, the
ul-wrapping substitution over the whole text, and the paragraph loop. -/
def convertBody (text : List Char) : List Char :=
  joinLines
    ((wrapLiRuns
      ((((splitLines text).map convertHeaderLine).map boldConv).map convertListLine)).map
        pline)

/-- Translation of `_convert_to_html` from privacy_generator.py. -/
def _convert_to_html (markdown_text : String) (config : Config) : String :=
  let company :=
    pyOr config.company_name
      (pyOr config.website_name (pyOr config.app_name "Privacy Policy"))
  ⟨shellHead.data ++ company.data ++ shellMid.data ++ convertBody markdown_text.data
    ++ shellTail.data⟩

/-- Translation of `generate_policy` from privacy_generator.py; the
included sections, in source order, are joined with a blank line. -/
def generate_policy (config : Config) (output_format : String) (now : String) : String :=
  let sections : List String :=
    [_generate_header config now, _generate_introduction config,
     _generate_information_collection config] ++
    (if _uses_tracking config then [_generate_tracking_section config] else []) ++
    (if _uses_social_login config then [_generate_social_login_section config] else []) ++
    [_generate_use_of_information config] ++
    (if _has_marketing config then [_generate_marketing_section config] else []) ++
    (if (config.platform_type = some "app" ∨ config.platform_type = some "both")
        ∧ _has_app_permissions config then
      [_generate_app_permissions_section config]
    else []) ++
    (if config.accepts_payments then [_generate_payment_section config] else []) ++
    [_generate_data_sharing_section config, _generate_data_retention_section config,
     _generate_security_section config, _generate_user_rights_section config,
     _generate_children_privacy_section config] ++
    (if config.gdpr_compliant then [_generate_gdpr_section config] else []) ++
    (if config.ccpa_compliant then [_generate_ccpa_section config] else []) ++
    (if config.caloppa_compliant then [_generate_caloppa_section config] else []) ++
    [_generate_updates_section config, _generate_contact_section config]
  let policy_text := String.intercalate "\n\n" sections
  if output_format = "html" then _convert_to_html policy_text config
  else policy_text

end Privacy

/-! ## tos_generator.py -/

namespace Tos

/-- Translation of `_get_service_type` from tos_generator.py. -/
def _get_service_type (config : Config) : String :=
  if config.platform_type = some "both" then "website and mobile application"
  else if config.platform_type = some "app" then "mobile application"
  else "website"

/-- Translation of `_generate_header` from tos_generator.py. -/
def _generate_header (config : Config) (now : String) : String :=
  let company :=
    pyOr config.company_name (pyOr config.website_name (pyOr config.app_name "Our Company"))
  let date := pyOr config.effective_date now
  "# Terms of Service\n\n**" ++ company ++ "**\n\n**Effective Date:** " ++ date
    ++ "\n\n**Last Updated:** " ++ now

/-- Translation of `_generate_agreement_section`. -/
def _generate_agreement_section (config : Config) : String :=
  let company := pyOr config.company_name "We"
  let service := _get_service_type config
  let ageText :=
    match config.minimum_age with
    | some n =>
      if !(n = 0) then
        "You must be at least " ++ toString n ++ " years old to use this Service."
      else
        "You must be at least 18 years old to use this Service. If you are under 18, you may use the Service only with the involvement of a parent or guardian."
    | none =>
      "You must be at least 18 years old to use this Service. If you are under 18, you may use the Service only with the involvement of a parent or guardian."
  "## Agreement to Terms\n\nWelcome to " ++ company
    ++ ". These Terms of Service (\"Terms\", \"Terms of Service\") govern your use of our "
    ++ service ++ " and any related services provided by " ++ company
    ++ " (collectively, the \"Service\").\n\nBy accessing or using our Service, you agree to be bound by these Terms. If you disagree with any part of the terms, then you may not access the Service.\n\n"
    ++ ageText
    ++ "\n\nBy using this Service, you represent and warrant that you meet all of the eligibility requirements outlined in these Terms. If you do not meet these requirements, you must not access or use the Service."

/-- Translation of `_generate_definitions`. -/
def _generate_definitions (config : Config) : String :=
  let company := pyOr config.company_name "Company"
  let service := _get_service_type config
  "## Definitions\n\nFor the purposes of these Terms of Service:\n\n- **\"Company\"** (referred to as either \"the Company\", \"We\", \"Us\" or \"Our\" in this Agreement) refers to "
    ++ company
    ++ (if truthyS config.company_address then
          ", located at " ++ pyOr config.company_address ""
        else "")
    ++ ".\n\n- **\"Service\"** refers to the " ++ service
    ++ ".\n\n- **\"Terms\"** (also referred to as \"Terms of Service\") means these Terms of Service that form the entire agreement between You and the Company regarding the use of the Service.\n\n- **\"User\"**, **\"You\"**, and **\"Your\"** refers to the individual accessing or using the Service, or the company, or other legal entity on behalf of which such individual is accessing or using the Service.\n\n- **\"Account\"** means a unique account created for You to access our Service or parts of our Service.\n\n- **\"Content\"** refers to text, images, videos, audio, or other material that can be posted, uploaded, linked to, or otherwise made available through the Service.\n\n- **\"User Content\"** means any Content that You or other users submit, post, or transmit through the Service."

/-- Translation of `_generate_account_terms` (a constant text). -/
def _generate_account_terms (config : Config) : String :=
  "## Account Registration and Security\n\n### Creating an Account\n\nTo access certain features of our Service, you may be required to register for an account. When you register, you agree to:\n\n- Provide accurate, current, and complete information during the registration process\n- Maintain and promptly update your account information to keep it accurate, current, and complete\n- Maintain the security and confidentiality of your login credentials\n- Accept all responsibility for all activities that occur under your account\n- Notify us immediately of any unauthorized use of your account or any other breach of security\n\n### Account Responsibilities\n\nYou are responsible for:\n\n- All activities that occur under your account\n- Maintaining the confidentiality of your account password\n- Restricting access to your account\n- Ensuring that all use of your account complies with these Terms\n\n### Account Termination\n\nWe reserve the right to:\n\n- Refuse service to anyone for any reason at any time\n- Terminate or suspend your account immediately, without prior notice or liability, for any reason whatsoever, including without limitation if you breach the Terms\n- Remove or refuse to post any User Content for any or no reason"

/-- Translation of `_generate_payment_terms`; its internal section list is
joined with a single newline. -/
def _generate_payment_terms (config : Config) : String :=
  let processors :=
    if truthyL config.payment_processors then config.payment_processors
    else ["major credit cards"]
  let sections : List String :=
    ["## Payments and Subscriptions",
     "### Fees and Payment\n\nCertain features of the Service may be offered for a fee. Before you pay any fees, you will have an opportunity to review and accept the fees that you will be charged. All fees are in US dollars and are non-refundable unless otherwise stated.\n\n### Payment Methods\n\nWe accept the following payment methods:"] ++
    processors.map (fun p => "- " ++ p) ++
    (if config.has_subscriptions then
      ["\n### Subscription Terms\n\nSome parts of the Service are billed on a subscription basis. You will be billed in advance on a recurring basis (monthly or annually, depending on your subscription plan).\n\n**Automatic Renewal:** Your subscription will automatically renew at the end of each billing period unless you cancel it before the renewal date.\n\n**Cancellation:** You may cancel your subscription at any time. Cancellation will take effect at the end of the current billing period. You will retain access to the Service until the end of your current billing period.\n\n**Price Changes:** We reserve the right to modify subscription fees at any time. We will provide you with reasonable prior notice of any change in fees."]
    else []) ++
    (if config.has_free_trial then
      ["\n### Free Trial\n\nWe may offer a free trial period for certain subscription plans. At the end of the free trial, you will be automatically charged for the subscription unless you cancel before the trial ends. We reserve the right to modify or cancel free trial offers at any time."]
    else []) ++
    (if config.offers_refunds then
      ["\n### Refund Policy\n\nIf you are not satisfied with the Service, you may request a refund within "
        ++ pyOr config.refund_period "30 days"
        ++ " of your purchase. Refund requests should be submitted to our support team. Refunds are issued at our sole discretion and may be prorated based on usage."]
    else
      ["\n### No Refunds\n\nAll fees are non-refundable. This includes subscription fees, one-time purchases, and any other charges. By using the Service, you agree to this no-refund policy."])
  String.intercalate "\n" sections

/-- Translation of `_generate_user_content_section` (a constant text). -/
def _generate_user_content_section (config : Config) : String :=
  "## User Content\n\n### Your Content\n\nOur Service may allow you to post, link, store, share, and otherwise make available certain information, text, graphics, videos, or other material (\"User Content\"). You are responsible for the User Content that you post on or through the Service, including its legality, reliability, and appropriateness.\n\n### Rights You Grant Us\n\nBy posting User Content on or through the Service, you grant us a worldwide, non-exclusive, royalty-free, sublicensable, and transferable license to use, reproduce, modify, adapt, publish, translate, create derivative works from, distribute, perform, and display such User Content in connection with operating and providing the Service.\n\n### Content Standards\n\nYou agree that your User Content will not:\n\n- Contain any material that is defamatory, obscene, indecent, abusive, offensive, harassing, violent, hateful, inflammatory, or otherwise objectionable\n- Promote sexually explicit or pornographic material, violence, or discrimination\n- Infringe any patent, trademark, trade secret, copyright, or other intellectual property rights\n- Violate the legal rights (including rights of publicity and privacy) of others\n- Contain any material that could give rise to criminal or civil liability\n- Be likely to deceive any person\n- Promote any illegal activity or advocate, promote, or assist any unlawful act\n- Impersonate any person or misrepresent your identity or affiliation with any person or organization\n- Involve commercial activities or sales without our prior written consent\n\n### Content Moderation\n\nWe reserve the right, but not the obligation, to:\n\n- Monitor User Content\n- Remove or refuse to post any User Content for any or no reason\n- Take any action with respect to any User Content that we deem necessary or appropriate"

/-- Translation of `_generate_acceptable_use` (a constant text). -/
def _generate_acceptable_use (config : Config) : String :=
  "## Acceptable Use Policy\n\nYou agree not to use the Service in any way that:\n\n### Prohibited Activities\n\n- Violates any applicable federal, state, local, or international law or regulation\n- Exploits, harms, or attempts to exploit or harm minors in any way\n- Sends, knowingly receives, uploads, downloads, uses, or re-uses any material that does not comply with these Terms\n- Transmits any advertising or promotional material without our prior written consent\n- Impersonates or attempts to impersonate the Company, a Company employee, another user, or any other person or entity\n- Engages in any other conduct that restricts or inhibits anyone\x27s use or enjoyment of the Service\n- Uses the Service in any manner that could disable, overburden, damage, or impair the site\n- Uses any robot, spider, or other automatic device, process, or means to access the Service for any purpose\n- Introduces any viruses, Trojan horses, worms, logic bombs, or other malicious or technologically harmful material\n- Attempts to gain unauthorized access to, interfere with, damage, or disrupt any parts of the Service\n\n### Consequences of Violation\n\nViolation of this Acceptable Use Policy may result in:\n\n- Termination or suspension of your access to the Service\n- Legal action against you\n- Cooperation with law enforcement authorities"

/-- Translation of `_generate_intellectual_property`. -/
def _generate_intellectual_property (config : Config) : String :=
  let company := pyOr config.company_name "the Company"
  "## Intellectual Property Rights\n\n### Our Intellectual Property\n\nThe Service and its original content (excluding User Content), features, and functionality are and will remain the exclusive property of "
    ++ company
    ++ " and its licensors. The Service is protected by copyright, trademark, and other laws of both the United States and foreign countries. Our trademarks and trade dress may not be used in connection with any product or service without the prior written consent of "
    ++ company
    ++ ".\n\n### Copyright and Trademarks\n\nAll text, graphics, user interfaces, visual interfaces, photographs, trademarks, logos, sounds, music, artwork, and computer code (collectively, \"Content\"), including but not limited to the design, structure, selection, coordination, expression, and arrangement of such Content, is owned, controlled, or licensed by or to "
    ++ company
    ++ ", and is protected by trade dress, copyright, patent and trademark laws, and various other intellectual property rights.\n\n### Your License to Use the Service\n\nSubject to your compliance with these Terms, we grant you a limited, non-exclusive, non-transferable, non-sublicensable license to access and use the Service for your personal, non-commercial purposes.\n\n### Restrictions\n\nYou may not:\n\n- Copy, modify, or distribute the Service or any Content\n- Use the Service or any Content for any commercial purpose without our express written consent\n- Reverse engineer, decompile, or disassemble any software contained in the Service\n- Remove any copyright, trademark, or other proprietary notices from any Content\n- Transfer the Content to another person or \"mirror\" the Content on any other server"

/-- Translation of `_generate_third_party_section` (a constant text). -/
def _generate_third_party_section (config : Config) : String :=
  "## Third-Party Links and Services\n\n### Third-Party Websites\n\nOur Service may contain links to third-party websites or services that are not owned or controlled by us. We have no control over, and assume no responsibility for, the content, privacy policies, or practices of any third-party websites or services.\n\nYou acknowledge and agree that we shall not be responsible or liable, directly or indirectly, for any damage or loss caused or alleged to be caused by or in connection with the use of or reliance on any such content, goods, or services available on or through any such websites or services.\n\n### Third-Party Services\n\nWe may use third-party services to provide certain features of our Service. Your use of such third-party services may be subject to their own terms and conditions and privacy policies.\n\nWe strongly advise you to read the terms and conditions and privacy policies of any third-party websites or services that you visit or use."

/-- Translation of `_generate_api_terms` (a constant text). -/
def _generate_api_terms (config : Config) : String :=
  "## API Terms\n\n### API Access\n\nWe may provide access to our Application Programming Interface (\"API\") to allow you to build applications and services that interact with our Service. Your use of the API is subject to these Terms and any additional API terms we may provide.\n\n### API License\n\nSubject to your compliance with these Terms, we grant you a limited, non-exclusive, non-transferable, revocable license to access and use the API solely to develop, test, and operate your applications.\n\n### API Restrictions\n\nWhen using the API, you agree not to:\n\n- Use the API in any way that could harm the Service or impair others\x27 use of it\n- Use the API to create a product or service that competes with the Service\n- Exceed any rate limits or usage restrictions we impose\n- Use the API in a manner that violates any applicable laws or regulations\n- Sell, lease, or sublicense access to the API\n\n### API Changes and Discontinuation\n\nWe reserve the right to modify, suspend, or discontinue the API at any time without notice. We will not be liable to you or any third party for any modification, suspension, or discontinuation of the API."

/-- Translation of `_generate_disclaimers` (a constant text). -/
def _generate_disclaimers (config : Config) : String :=
  "## Disclaimers and Warranties\n\n### \"As Is\" and \"As Available\"\n\nTHE SERVICE IS PROVIDED ON AN \"AS IS\" AND \"AS AVAILABLE\" BASIS, WITHOUT ANY WARRANTIES OF ANY KIND, EITHER EXPRESS OR IMPLIED, INCLUDING BUT NOT LIMITED TO IMPLIED WARRANTIES OF MERCHANTABILITY, FITNESS FOR A PARTICULAR PURPOSE, NON-INFRINGEMENT, OR COURSE OF PERFORMANCE.\n\n### No Warranty\n\nWe do not warrant that:\n\n- The Service will function uninterrupted, secure, or available at any particular time or location\n- Any errors or defects will be corrected\n- The Service is free of viruses or other harmful components\n- The results of using the Service will meet your requirements\n\n### Professional Advice Disclaimer\n\nThe information provided through the Service is for general informational purposes only and should not be considered professional advice. You should consult with appropriate professionals before taking any actions based on information obtained through the Service.\n\n### Jurisdictional Limitations\n\nSome jurisdictions do not allow the exclusion of certain warranties or the limitation or exclusion of liability for certain damages. Accordingly, some of the above limitations may not apply to you."

/-- Translation of `_generate_liability_limitation`. -/
def _generate_liability_limitation (config : Config) : String :=
  let company := pyOr config.company_name "THE COMPANY"
  "## Limitation of Liability\n\n### Exclusion of Damages\n\nTO THE MAXIMUM EXTENT PERMITTED BY APPLICABLE LAW, IN NO EVENT SHALL "
    ++ company.toUpper
    ++ ", ITS AFFILIATES, DIRECTORS, EMPLOYEES, AGENTS, PARTNERS, SUPPLIERS, OR LICENSORS BE LIABLE FOR ANY INDIRECT, INCIDENTAL, SPECIAL, CONSEQUENTIAL, OR PUNITIVE DAMAGES, INCLUDING WITHOUT LIMITATION, LOSS OF PROFITS, DATA, USE, GOODWILL, OR OTHER INTANGIBLE LOSSES, RESULTING FROM:\n\n- Your access to or use of or inability to access or use the Service\n- Any conduct or content of any third party on the Service\n- Any content obtained from the Service\n- Unauthorized access, use, or alteration of your transmissions or content\n\n### Liability Cap\n\nIN NO EVENT SHALL OUR TOTAL LIABILITY TO YOU FOR ALL DAMAGES, LOSSES, OR CAUSES OF ACTION EXCEED THE AMOUNT YOU HAVE PAID US IN THE LAST TWELVE (12) MONTHS, OR ONE HUNDRED DOLLARS ($100), WHICHEVER IS GREATER.\n\n### Basis of the Bargain\n\nTHE LIMITATIONS OF DAMAGES SET FORTH ABOVE ARE FUNDAMENTAL ELEMENTS OF THE BASIS OF THE BARGAIN BETWEEN US AND YOU."

/-- Translation of `_generate_indemnification`. -/
def _generate_indemnification (config : Config) : String :=
  let company := pyOr config.company_name "the Company"
  "## Indemnification\n\nYou agree to defend, indemnify, and hold harmless "
    ++ company
    ++ ", its affiliates, licensors, and service providers, and its and their respective officers, directors, employees, contractors, agents, licensors, suppliers, successors, and assigns from and against any claims, liabilities, damages, judgments, awards, losses, costs, expenses, or fees (including reasonable attorneys\x27 fees) arising out of or relating to:\n\n- Your violation of these Terms\n- Your use of the Service\n- Your User Content\n- Your violation of any third-party rights, including intellectual property rights or privacy rights\n- Any claim that your User Content caused damage to a third party\n\nThis indemnification obligation will survive the termination of these Terms and your use of the Service."

/-- Translation of `_generate_termination` (a constant text). -/
def _generate_termination (config : Config) : String :=
  "## Termination\n\n### Termination by You\n\nYou may terminate your account at any time by contacting us or using the account deletion feature in your account settings, if available.\n\n### Termination by Us\n\nWe may terminate or suspend your account and access to the Service immediately, without prior notice or liability, for any reason whatsoever, including without limitation if you breach these Terms.\n\n### Effect of Termination\n\nUpon termination:\n\n- Your right to use the Service will immediately cease\n- We may delete your account and all associated data\n- Any provisions of these Terms which by their nature should survive termination shall survive, including ownership provisions, warranty disclaimers, indemnity, and limitations of liability\n\n### No Refunds on Termination\n\nIf we terminate your account for breach of these Terms, you will not be entitled to any refund of fees paid."

/-- Translation of `_generate_governing_law`. -/
def _generate_governing_law (config : Config) : String :=
  let jurisdiction :=
    pyOr config.jurisdiction (pyOr config.country "the United States")
  let state := pyOr config.governing_state "California"
  "## Governing Law\n\nThese Terms shall be governed and construed in accordance with the laws of "
    ++ state ++ ", " ++ jurisdiction
    ++ ", without regard to its conflict of law provisions.\n\nOur failure to enforce any right or provision of these Terms will not be considered a waiver of those rights. If any provision of these Terms is held to be invalid or unenforceable by a court, the remaining provisions of these Terms will remain in effect.\n\nThese Terms constitute the entire agreement between us regarding our Service and supersede and replace any prior agreements we might have had between us regarding the Service."

/-- Translation of `_generate_dispute_resolution`; its two parts are
joined with a blank line. -/
def _generate_dispute_resolution (config : Config) : String :=
  let sections : List String :=
    ["## Dispute Resolution"] ++
    (if config.has_arbitration then
      ["### Binding Arbitration\n\nAny dispute arising out of or relating to these Terms or the Service shall be resolved by binding arbitration in accordance with the rules of the American Arbitration Association. The arbitration shall be conducted in English and the arbitrator\x27s decision shall be final and binding.\n\n### Class Action Waiver\n\nYOU AND THE COMPANY AGREE THAT EACH MAY BRING CLAIMS AGAINST THE OTHER ONLY IN YOUR OR ITS INDIVIDUAL CAPACITY AND NOT AS A PLAINTIFF OR CLASS MEMBER IN ANY PURPORTED CLASS OR REPRESENTATIVE PROCEEDING.\n\n### Exceptions to Arbitration\n\nNotwithstanding the above, either party may seek injunctive or other equitable relief in any court of competent jurisdiction."]
    else
      ["### Informal Resolution\n\nBefore filing a claim, you agree to try to resolve the dispute informally by contacting us. We\x27ll try to resolve the dispute informally by contacting you via email. If a dispute is not resolved within 30 days of submission, you or we may bring a formal proceeding.\n\n### Judicial Forum\n\nAny legal action or proceeding arising out of or relating to these Terms or the Service shall be instituted in the courts of the jurisdiction specified in the Governing Law section."])
  String.intercalate "\n\n" sections

/-- Translation of `_generate_changes_section` (a constant text). -/
def _generate_changes_section (config : Config) : String :=
  "## Changes to Terms\n\nWe reserve the right, at our sole discretion, to modify or replace these Terms at any time. If a revision is material, we will provide at least 30 days\x27 notice prior to any new terms taking effect. What constitutes a material change will be determined at our sole discretion.\n\nBy continuing to access or use our Service after those revisions become effective, you agree to be bound by the revised terms. If you do not agree to the new terms, please stop using the Service.\n\nWe encourage you to review these Terms periodically for any changes."

/-- Translation of `_generate_severability` (a constant text). -/
def _generate_severability (config : Config) : String :=
  "## Severability and Waiver\n\n### Severability\n\nIf any provision of these Terms is held to be unenforceable or invalid, such provision will be changed and interpreted to accomplish the objectives of such provision to the greatest extent possible under applicable law, and the remaining provisions will continue in full force and effect.\n\n### Waiver\n\nOur failure to exercise or enforce any right or provision of these Terms shall not operate as a waiver of such right or provision. Any waiver of any provision of these Terms will be effective only if in writing and signed by an authorized representative of the Company.\n\n### Entire Agreement\n\nThese Terms, together with the Privacy Policy and any other legal notices published by us on the Service, shall constitute the entire agreement between you and us concerning the Service."

/-- Translation of `_generate_contact_section` from tos_generator.py. -/
def _generate_contact_section (config : Config) : String :=
  let company :=
    pyOr config.company_name (pyOr config.website_name (pyOr config.app_name "Us"))
  let contact_info : List String :=
    (if truthyS config.contact_email then
      ["**Email:** " ++ pyOr config.contact_email ""] else []) ++
    (if truthyS config.contact_phone then
      ["**Phone:** " ++ pyOr config.contact_phone ""] else []) ++
    (if truthyS config.company_address then
      ["**Address:** " ++ pyOr config.company_address ""] else []) ++
    (if truthyS config.website_url then
      ["**Website:** " ++ pyOr config.website_url ""] else [])
  let contact_list :=
    if !contact_info.isEmpty then String.intercalate "\n" contact_info
    else "Please visit our website for contact information."
  "## Contact Us\n\nIf you have any questions about these Terms of Service, please contact us:\n\n**"
    ++ company ++ "**\n\n" ++ contact_list
    ++ "\n\nWe will respond to your inquiry as soon as possible."

/-- Translation of `_convert_to_html` from tos_generator.py; the body
pipeline and stylesheet are identical to the privacy converter, only the
title line differs. -/
def _convert_to_html (markdown_text : String) (config : Config) : String :=
  let company :=
    pyOr config.company_name
      (pyOr config.website_name (pyOr config.app_name "Terms of Service"))
  ⟨("<!DOCTYPE html>\n<html lang=\"en\">\n<head>\n    <meta charset=\"UTF-8\">\n    <meta name=\"viewport\" content=\"width=device-width, initial-scale=1.0\">\n    <title>Terms of Service - ").data
    ++ company.data ++ Privacy.shellMid.data ++ Privacy.convertBody markdown_text.data
    ++ Privacy.shellTail.data⟩

/-- Translation of `generate_tos` from tos_generator.py; the included
sections, in source order, are joined with a blank line. -/
def generate_tos (config : Config) (output_format : String) (now : String) : String :=
  let sections : List String :=
    [_generate_header config now, _generate_agreement_section config,
     _generate_definitions config] ++
    (if config.requires_account then [_generate_account_terms config] else []) ++
    (if config.has_paid_services then [_generate_payment_terms config] else []) ++
    (if config.allows_user_content then [_generate_user_content_section config] else []) ++
    [_generate_acceptable_use config, _generate_intellectual_property config] ++
    (if config.has_third_party_links then [_generate_third_party_section config] else []) ++
    (if config.provides_api then [_generate_api_terms config] else []) ++
    [_generate_disclaimers config, _generate_liability_limitation config,
     _generate_indemnification config, _generate_termination config,
     _generate_governing_law config] ++
    (if config.has_arbitration || truthyS config.dispute_resolution then
      [_generate_dispute_resolution config]
    else []) ++
    [_generate_changes_section config, _generate_severability config,
     _generate_contact_section config]
  let tos_text := String.intercalate "\n\n" sections
  if output_format = "html" then _convert_to_html tos_text config
  else tos_text

end Tos

/-! ## cookie_generator.py -/

namespace Cookie

/-- Translation of `_generate_header` from cookie_generator.py. -/
def _generate_header (config : Config) (now : String) : String :=
  let company := pyOr config.company_name (pyOr config.website_name "Our Company")
  let date := pyOr config.effective_date now
  "# Cookie Policy\n\n**" ++ company ++ "**\n\n**Effective Date:** " ++ date
    ++ "\n\n**Last Updated:** " ++ now

/-- Translation of `_generate_introduction` from cookie_generator.py. -/
def _generate_introduction (config : Config) : String :=
  let company := pyOr config.company_name "We"
  let website := pyOr config.website_url "our website"
  "## Introduction\n\nThis Cookie Policy explains how " ++ company
    ++ " (\"we\", \"us\", or \"our\") uses cookies and similar technologies when you visit "
    ++ website
    ++ ". It explains what these technologies are and why we use them, as well as your rights to control our use of them.\n\nBy using our website, you consent to the use of cookies in accordance with this Cookie Policy. If you do not agree to our use of cookies, you should set your browser settings accordingly or not use our website."

/-- Translation of `_generate_what_are_cookies` (a constant text). -/
def _generate_what_are_cookies (config : Config) : String :=
  "## What Are Cookies?\n\nCookies are small text files that are stored on your computer or mobile device when you visit a website. They are widely used to make websites work more efficiently and provide information to website owners.\n\nCookies can be \"persistent\" or \"session\" cookies:\n- **Persistent cookies** remain on your device for a set period of time or until you delete them\n- **Session cookies** are deleted when you close your web browser\n\nCookies can also be \"first-party\" or \"third-party\" cookies:\n- **First-party cookies** are set by the website you are visiting\n- **Third-party cookies** are set by a third party, such as an analytics or advertising partner\n\n### Similar Technologies\n\nIn addition to cookies, we may use similar technologies such as:\n- **Web beacons** (also known as pixel tags or clear GIFs) - Small graphic images that track user behavior\n- **Local storage** - Allows websites to store data locally on your device\n- **Session storage** - Similar to local storage but data is cleared when the browser session ends\n- **Fingerprinting** - Collecting information about your device configuration"

/-- Translation of `_generate_how_we_use_cookies`; the purpose bullets are
gated by the same flags that gate other sections. -/
def _generate_how_we_use_cookies (config : Config) : String :=
  let purposes : List String :=
    (if config.uses_essential_cookies then
      ["- **Essential operations** - To make our website function properly"] else []) ++
    (if config.uses_functional_cookies then
      ["- **Functionality** - To remember your preferences and settings"] else []) ++
    (if config.uses_analytics then
      ["- **Analytics** - To understand how visitors use our website"] else []) ++
    (if config.uses_advertising_cookies then
      ["- **Advertising** - To deliver relevant advertisements"] else []) ++
    (if config.uses_social_cookies then
      ["- **Social media** - To enable social sharing and integration"] else []) ++
    (if config.uses_performance_cookies then
      ["- **Performance** - To improve website speed and performance"] else [])
  let purpose_list :=
    if !purposes.isEmpty then String.intercalate "\n" purposes
    else "- To provide and improve our services"
  "## How We Use Cookies\n\nWe use cookies and similar technologies for several purposes, including:\n\n"
    ++ purpose_list
    ++ "\n\nCookies help us:\n- Keep you signed in to your account\n- Remember your preferences and settings\n- Understand how you use our website\n- Improve your experience on our website\n- Deliver content relevant to your interests\n- Measure the effectiveness of our marketing campaigns"

/-- Translation of `_generate_cookie_types`; the subsections are joined
with a blank line. -/
def _generate_cookie_types (config : Config) : String :=
  let sections : List String :=
    ["## Types of Cookies We Use"] ++
    (if config.uses_essential_cookies then
      ["### Essential Cookies\n\nThese cookies are necessary for the website to function properly and cannot be switched off in our systems. They are usually only set in response to actions made by you, such as:\n- Setting your privacy preferences\n- Logging in to your account\n- Filling in forms\n- Using the shopping cart\n\nYou can set your browser to block or alert you about these cookies, but some parts of the website may not work properly without them.\n\n**Duration:** Session or up to 1 year\n**Type:** First-party"]
    else []) ++
    (if config.uses_functional_cookies then
      ["### Functional Cookies\n\nThese cookies enable the website to provide enhanced functionality and personalization. They may be set by us or by third-party providers whose services we have added to our pages.\n\nExamples include:\n- Remembering your language preference\n- Remembering your region or location\n- Remembering your display preferences (e.g., dark mode)\n- Providing live chat support\n\nIf you do not allow these cookies, some or all of these features may not function properly.\n\n**Duration:** Up to 1 year\n**Type:** First-party and third-party"]
    else []) ++
    (if config.uses_performance_cookies then
      ["### Performance Cookies\n\nThese cookies allow us to count visits and traffic sources so we can measure and improve the performance of our website. They help us understand:\n- Which pages are the most and least popular\n- How visitors move around the site\n- If users encounter error messages\n\nAll information these cookies collect is aggregated and anonymous. If you do not allow these cookies, we will not be able to monitor our website\x27s performance.\n\n**Duration:** Up to 2 years\n**Type:** First-party and third-party"]
    else []) ++
    (if config.uses_analytics then
      ["### Analytics Cookies\n\nThese cookies help us understand how visitors interact with our website by collecting and reporting information anonymously. We use this data to:\n- Improve our website and services\n- Understand user behavior and preferences\n- Measure the effectiveness of our content\n\n**Duration:** Up to 2 years\n**Type:** First-party and third-party"]
    else []) ++
    (if config.uses_advertising_cookies then
      ["### Advertising/Targeting Cookies\n\nThese cookies may be set through our website by our advertising partners. They may be used to:\n- Build a profile of your interests\n- Show you relevant advertisements on other websites\n- Measure the effectiveness of advertising campaigns\n- Limit the number of times you see an advertisement\n\nThey do not directly store personal information but are based on uniquely identifying your browser and device.\n\n**Duration:** Up to 2 years\n**Type:** Third-party"]
    else []) ++
    (if config.uses_social_cookies then
      ["### Social Media Cookies\n\nThese cookies are set by social media services that we have added to the website to enable you to share our content with your friends and networks. They are capable of:\n- Tracking your browser across other sites\n- Building a profile of your interests\n- Affecting the content and messages you see on other websites\n\n**Duration:** Varies by platform\n**Type:** Third-party"]
    else [])
  String.intercalate "\n\n" sections

/-- Translation of `_generate_cookie_details`: the specific-cookies table,
one row per entry of `cookie_details`. -/
def _generate_cookie_details (config : Config) : String :=
  let cookies := config.cookie_details
  if cookies.isEmpty then ""
  else
    cookies.foldl
      (fun table cookie =>
        table ++ "\n| " ++ cookie.name.getD "Unknown" ++ " | "
          ++ cookie.provider.getD "First-party" ++ " | "
          ++ cookie.purpose.getD "Functionality" ++ " | "
          ++ cookie.duration.getD "Session" ++ " | "
          ++ cookie.ctype.getD "Essential" ++ " |")
      "## Specific Cookies Used\n\nThe following table lists the specific cookies used on our website:\n\n| Cookie Name | Provider | Purpose | Duration | Type |\n|-------------|----------|---------|----------|------|"

/-- Translation of `_has_third_party_cookies` (cookie_generator.py lines
283-293): the disjunction over the five provider flags, the advertising
flag, and a non-empty `third_party_cookies` list. -/
def _has_third_party_cookies (config : Config) : Bool :=
  config.uses_google_analytics || config.uses_facebook_pixel || config.uses_hotjar ||
    config.uses_hubspot || config.uses_intercom || config.uses_advertising_cookies ||
    !config.third_party_cookies.isEmpty

/-- Translation of `_generate_third_party_cookies`; one descriptive block
per enabled provider, in the declared order, with a generic fallback when
no specific provider flag is set. -/
def _generate_third_party_cookies (config : Config) : String :=
  let services : List String :=
    (if config.uses_google_analytics then
      ["**Google Analytics**\n- Purpose: Website analytics and performance measurement\n- Privacy Policy: https://policies.google.com/privacy\n- Opt-out: https://tools.google.com/dlpage/gaoptout"]
    else []) ++
    (if config.uses_facebook_pixel then
      ["**Facebook Pixel**\n- Purpose: Advertising measurement and optimization\n- Privacy Policy: https://www.facebook.com/privacy/explanation\n- Opt-out: https://www.facebook.com/settings?tab=ads"]
    else []) ++
    (if config.uses_google_ads then
      ["**Google Ads**\n- Purpose: Advertising and remarketing\n- Privacy Policy: https://policies.google.com/privacy\n- Opt-out: https://adssettings.google.com"]
    else []) ++
    (if config.uses_hotjar then
      ["**Hotjar**\n- Purpose: User behavior analytics (heatmaps, recordings)\n- Privacy Policy: https://www.hotjar.com/legal/policies/privacy/\n- Opt-out: https://www.hotjar.com/policies/do-not-track/"]
    else []) ++
    (if config.uses_hubspot then
      ["**HubSpot**\n- Purpose: Marketing automation and CRM\n- Privacy Policy: https://legal.hubspot.com/privacy-policy"]
    else []) ++
    (if config.uses_intercom then
      ["**Intercom**\n- Purpose: Customer messaging and support\n- Privacy Policy: https://www.intercom.com/legal/privacy"]
    else []) ++
    (if config.uses_linkedin_insight then
      ["**LinkedIn Insight Tag**\n- Purpose: Advertising and analytics\n- Privacy Policy: https://www.linkedin.com/legal/privacy-policy\n- Opt-out: https://www.linkedin.com/psettings/guest-controls/retargeting-opt-out"]
    else []) ++
    (if config.uses_twitter_pixel then
      ["**Twitter/X Pixel**\n- Purpose: Advertising measurement\n- Privacy Policy: https://twitter.com/en/privacy"]
    else []) ++
    (if config.uses_tiktok_pixel then
      ["**TikTok Pixel**\n- Purpose: Advertising measurement\n- Privacy Policy: https://www.tiktok.com/legal/privacy-policy"]
    else [])
  let sections : List String :=
    ["## Third-Party Cookies",
     "We use cookies from third-party services on our website. These cookies are controlled by third parties, and you should refer to their privacy policies to understand how they use your data.\n\n### Third-Party Services We Use"] ++
    (if !services.isEmpty then [String.intercalate "\n\n" services]
     else
      ["We work with various third-party service providers. Please contact us for a complete list of third-party cookies used on our website."])
  String.intercalate "\n\n" sections

/-- Translation of `_generate_analytics_section` (cookie_generator.py
lines 364-387); note that it also reads `uses_advertising_cookies`. -/
def _generate_analytics_section (config : Config) : String :=
  let provider := pyOr config.analytics_provider "analytics services"
  "## Analytics\n\nWe use " ++ provider
    ++ " to analyze how visitors use our website. These services use cookies to collect information such as:\n\n- How often users visit our website\n- What pages they visit\n- What other sites they used prior to coming to our website\n- How long they spend on each page\n- Technical information about their device and browser\n\nThis information is used to improve our website and understand our audience better. The data collected is aggregated and anonymous.\n\n### Google Analytics (if applicable)\n\nIf we use Google Analytics, we have implemented the following privacy-enhancing measures:\n- IP anonymization is enabled\n- Data sharing with Google is limited\n- Advertising features are "
    ++ (if config.uses_advertising_cookies then "enabled" else "disabled")
    ++ "\n\nYou can opt out of Google Analytics by installing the Google Analytics opt-out browser add-on: https://tools.google.com/dlpage/gaoptout"

/-- Translation of `_generate_advertising_section` (a constant text). -/
def _generate_advertising_section (config : Config) : String :=
  "## Advertising and Targeting\n\nWe use advertising cookies to:\n- Deliver advertisements relevant to your interests\n- Limit the number of times you see an advertisement\n- Measure the effectiveness of advertising campaigns\n- Understand how you interact with advertisements\n\n### How Targeted Advertising Works\n\nWhen you visit our website, advertising partners may place cookies on your device to:\n1. Collect information about your browsing behavior\n2. Create a profile of your interests\n3. Show you relevant ads on other websites you visit\n\n### Remarketing\n\nWe may use remarketing services to show you advertisements on third-party websites after you have visited our website. This is based on cookies that track your previous visits.\n\n### Opting Out of Targeted Advertising\n\nYou can opt out of targeted advertising through:\n- **Your browser settings** - Block third-party cookies\n- **Industry opt-out tools:**\n  - Digital Advertising Alliance: https://optout.aboutads.info\n  - Network Advertising Initiative: https://optout.networkadvertising.org\n  - European Interactive Digital Advertising Alliance: https://www.youronlinechoices.eu\n- **Platform-specific settings** - Adjust ad preferences on Google, Facebook, etc."

/-- Translation of `_has_social_cookies`. -/
def _has_social_cookies (config : Config) : Bool :=
  config.uses_facebook_cookies || config.uses_twitter_cookies ||
    config.uses_linkedin_cookies || config.uses_instagram_cookies ||
    config.uses_youtube_cookies || config.uses_social_cookies ||
    config.social_sharing_enabled

/-- Translation of `_generate_social_media_section`. -/
def _generate_social_media_section (config : Config) : String :=
  let platforms : List String :=
    (if config.uses_facebook_cookies || config.social_sharing_enabled then
      ["- **Facebook** - Social sharing, like buttons, and login"] else []) ++
    (if config.uses_twitter_cookies || config.social_sharing_enabled then
      ["- **Twitter/X** - Tweet buttons and embedded content"] else []) ++
    (if config.uses_linkedin_cookies then
      ["- **LinkedIn** - Share buttons and professional networking"] else []) ++
    (if config.uses_instagram_cookies then
      ["- **Instagram** - Embedded posts and sharing"] else []) ++
    (if config.uses_youtube_cookies then
      ["- **YouTube** - Embedded videos and watch history"] else []) ++
    (if config.uses_pinterest_cookies then
      ["- **Pinterest** - Pin buttons and embedded content"] else [])
  let platform_list :=
    if !platforms.isEmpty then String.intercalate "\n" platforms
    else "- Various social media platforms"
  "## Social Media Cookies\n\nWe integrate with social media platforms to allow you to share our content and connect with us. These platforms may set cookies when you:\n- Use social sharing buttons on our website\n- Log in using social media credentials\n- View embedded social media content\n\n### Platforms We Integrate With\n\n"
    ++ platform_list
    ++ "\n\n### What These Cookies Do\n\nSocial media cookies allow the respective platforms to:\n- Recognize that you have an account with them\n- Track your browsing activity across websites\n- Personalize advertisements shown to you\n- Measure the effectiveness of their advertising\n\n### Managing Social Media Cookies\n\nTo control social media cookies, you should adjust your privacy settings directly on each platform:\n- Facebook: https://www.facebook.com/settings?tab=privacy\n- Twitter: https://twitter.com/settings/privacy\n- LinkedIn: https://www.linkedin.com/psettings/\n- Google: https://myaccount.google.com/privacy"

/-- Translation of `_generate_managing_cookies`; reads
`has_cookie_consent` and `honors_dnt` for two inline sentences. -/
def _generate_managing_cookies (config : Config) : String :=
  "## Managing Cookies\n\nYou have the right to decide whether to accept or reject cookies. You can manage your cookie preferences in several ways:\n\n### Browser Settings\n\nMost web browsers allow you to control cookies through their settings. You can:\n- **View cookies** stored on your device\n- **Delete cookies** individually or all at once\n- **Block cookies** from being set\n- **Allow cookies** from specific websites only\n\nHere\x27s how to manage cookies in popular browsers:\n- **Chrome**: Settings > Privacy and Security > Cookies\n- **Firefox**: Options > Privacy & Security > Cookies\n- **Safari**: Preferences > Privacy > Cookies\n- **Edge**: Settings > Privacy & Security > Cookies\n\n### Cookie Consent Tool\n\n"
    ++ (if config.has_cookie_consent then
          "We provide a cookie consent banner when you first visit our website. You can change your preferences at any time by clicking the \x27Cookie Settings\x27 link in the footer of our website."
        else "You can manage cookies through your browser settings.")
    ++ "\n\n### Do Not Track\n\nSome browsers have a \"Do Not Track\" feature that signals to websites that you do not want to be tracked. "
    ++ (if config.honors_dnt then "We honor Do Not Track signals."
        else
          "Please note that we may not respond to Do Not Track signals, but you can still manage cookies through other methods.")
    ++ "\n\n### Impact of Disabling Cookies\n\nIf you choose to disable cookies, please be aware that:\n- Some features of our website may not function properly\n- You may not be able to stay logged in to your account\n- Your preferences may not be remembered\n- You may still see advertisements, but they will be less relevant"

/-- Translation of `_generate_cookie_consent`; reads `allows_children`
for the final paragraph. -/
def _generate_cookie_consent (config : Config) : String :=
  "## Cookie Consent\n\nWhen you first visit our website, we display a cookie consent banner that allows you to:\n- **Accept all cookies** - Allow all types of cookies\n- **Reject non-essential cookies** - Only allow essential cookies\n- **Customize preferences** - Choose which categories of cookies to allow\n\n### Your Consent Choices\n\nYour consent choices are stored in a cookie on your device. If you clear your cookies, you will be asked for consent again on your next visit.\n\n### Withdrawing Consent\n\nYou can withdraw your consent at any time by:\n- Clicking the \"Cookie Settings\" link in our website footer\n- Clearing cookies from your browser\n- Contacting us to request that we delete your data\n\n### Consent for Children\n\n"
    ++ (if !config.allows_children then
          "We do not knowingly collect data from children under 13. If you believe a child has provided consent, please contact us."
        else
          "Our website may be used by children with parental consent. Parents can manage cookie preferences on behalf of their children.")

/-- Translation of `_generate_gdpr_section` from cookie_generator.py (a
constant text; the flag `gdpr_compliant` is read only by the assembler's
inclusion test). -/
def _generate_gdpr_section (config : Config) : String :=
  "## EU/GDPR Cookie Compliance\n\nIf you are located in the European Economic Area (EEA), United Kingdom, or Switzerland, you have specific rights regarding cookies under the General Data Protection Regulation (GDPR) and ePrivacy Directive.\n\n### Legal Basis for Cookies\n\nWe use cookies based on the following legal grounds:\n- **Consent** - For non-essential cookies (analytics, advertising, etc.)\n- **Legitimate interest** - For essential cookies required for website functionality\n\n### Your Rights\n\nUnder GDPR, you have the right to:\n- **Be informed** - Know what cookies we use and why\n- **Give or withdraw consent** - Choose which non-essential cookies to allow\n- **Access** - Request information about cookies that identify you\n- **Erasure** - Request deletion of cookie data we hold about you\n\n### Cookie Consent Requirements\n\nIn accordance with EU law:\n- We obtain consent before placing non-essential cookies\n- Consent is freely given, specific, informed, and unambiguous\n- You can withdraw consent as easily as you gave it\n- We do not use pre-ticked consent boxes\n\n### Contact Your Data Protection Authority\n\nIf you have concerns about our use of cookies, you can contact your local data protection authority. A list of EU data protection authorities is available at: https://edpb.europa.eu/about-edpb/about-edpb/members_en"

/-- Translation of `_generate_changes_section` from cookie_generator.py
(a constant text). -/
def _generate_changes_section (config : Config) : String :=
  "## Changes to This Cookie Policy\n\nWe may update this Cookie Policy from time to time to reflect:\n- Changes in the cookies we use\n- Changes in applicable laws or regulations\n- Changes in our data practices\n\nWhen we make changes, we will:\n- Update the \"Last Updated\" date at the top of this policy\n- Post a notice on our website for significant changes\n- Obtain new consent if required by law\n\nWe encourage you to review this Cookie Policy periodically to stay informed about our use of cookies."

/-- Translation of `_generate_contact_section` from cookie_generator.py. -/
def _generate_contact_section (config : Config) : String :=
  let company := pyOr config.company_name (pyOr config.website_name "Us")
  let contact_info : List String :=
    (if truthyS config.contact_email then
      ["**Email:** " ++ pyOr config.contact_email ""] else []) ++
    (if truthyS config.privacy_email then
      ["**Privacy Email:** " ++ pyOr config.privacy_email ""] else []) ++
    (if truthyS config.company_address then
      ["**Address:** " ++ pyOr config.company_address ""] else []) ++
    (if truthyS config.website_url then
      ["**Website:** " ++ pyOr config.website_url ""] else [])
  let contact_list :=
    if !contact_info.isEmpty then String.intercalate "\n" contact_info
    else "Please visit our website for contact information."
  "## Contact Us\n\nIf you have any questions about this Cookie Policy or our use of cookies, please contact us:\n\n**"
    ++ company ++ "**\n\n" ++ contact_list
    ++ "\n\nFor privacy-related inquiries, you can also refer to our Privacy Policy for more information about how we handle your personal data."

/-- Translation of `_convert_to_html` from cookie_generator.py: headers,
`**bold**` and list items per line, the ul-wrapping substitution, the
table-row substitution, and the paragraph loop that also skips lines
starting with `|`. -/
def _convert_to_html (markdown_text : String) (config : Config) : String :=
  let company := pyOr config.company_name (pyOr config.website_name "Cookie Policy")
  let body :=
    joinLines
      (((wrapLiRuns
        ((((splitLines markdown_text.data).map convertHeaderLine).map boldConv).map
          convertListLine)).map tableLine).map plineCookie)
  ⟨("<!DOCTYPE html>\n<html lang=\"en\">\n<head>\n    <meta charset=\"UTF-8\">\n    <meta name=\"viewport\" content=\"width=device-width, initial-scale=1.0\">\n    <title>Cookie Policy - ").data
    ++ company.data
    ++ ("</title>\n    <style>\n        body \x7b\n            font-family: -apple-system, BlinkMacSystemFont, \x27Segoe UI\x27, Roboto, Oxygen, Ubuntu, Cantarell, sans-serif;\n            line-height: 1.6;\n            max-width: 800px;\n            margin: 0 auto;\n            padding: 20px;\n            color: #333;\n        \x7d\n        h1 \x7b\n            color: #1a1a1a;\n            border-bottom: 2px solid #eee;\n            padding-bottom: 10px;\n        \x7d\n        h2 \x7b\n            color: #2a2a2a;\n            margin-top: 30px;\n            border-bottom: 1px solid #eee;\n            padding-bottom: 5px;\n        \x7d\n        h3 \x7b\n            color: #3a3a3a;\n            margin-top: 20px;\n        \x7d\n        ul \x7b\n            padding-left: 20px;\n        \x7d\n        li \x7b\n            margin-bottom: 8px;\n        \x7d\n        strong \x7b\n            color: #1a1a1a;\n        \x7d\n        p \x7b\n            margin-bottom: 15px;\n        \x7d\n        table \x7b\n            width: 100%;\n            border-collapse: collapse;\n            margin: 20px 0;\n        \x7d\n        th, td \x7b\n            border: 1px solid #ddd;\n            padding: 10px;\n            text-align: left;\n        \x7d\n        th \x7b\n            background-color: #f5f5f5;\n        \x7d\n        @media (prefers-color-scheme: dark) \x7b\n            body \x7b\n                background-color: #1a1a1a;\n                color: #e0e0e0;\n            \x7d\n            h1, h2, h3, strong \x7b\n                color: #fff;\n            \x7d\n            h1, h2 \x7b\n                border-color: #444;\n            \x7d\n            th \x7b\n                background-color: #333;\n            \x7d\n            th, td \x7b\n                border-color: #444;\n            \x7d\n        \x7d\n    </style>\n</head>\n<body>\n").data
    ++ body
    ++ ("\n</body>\n</html>").data⟩

/-- The assembled section list of `generate_cookie_policy`
(cookie_generator.py lines 21-73), in source order. -/
def cookieSections (config : Config) (now : String) : List String :=
  [_generate_header config now, _generate_introduction config,
   _generate_what_are_cookies config, _generate_how_we_use_cookies config,
   _generate_cookie_types config] ++
  (if !config.cookie_details.isEmpty then [_generate_cookie_details config] else []) ++
  (if _has_third_party_cookies config then [_generate_third_party_cookies config] else []) ++
  (if config.uses_analytics then [_generate_analytics_section config] else []) ++
  (if config.uses_advertising_cookies then [_generate_advertising_section config] else []) ++
  (if _has_social_cookies config then [_generate_social_media_section config] else []) ++
  [_generate_managing_cookies config] ++
  (if config.has_cookie_consent then [_generate_cookie_consent config] else []) ++
  (if config.gdpr_compliant then [_generate_gdpr_section config] else []) ++
  [_generate_changes_section config, _generate_contact_section config]

/-- Translation of `generate_cookie_policy` from cookie_generator.py; the
included sections are joined with a blank line. -/
def generate_cookie_policy (config : Config) (output_format : String) (now : String) : String :=
  let policy_text := String.intercalate "\n\n" (cookieSections config now)
  if output_format = "html" then _convert_to_html policy_text config
  else policy_text

end Cookie

/-! ## app.py: the generation entry point

The REST handlers `preview_document_v1` and `generate_documents_v1` share
one generation procedure: validate the document type (the only hard
error), dispatch to the five generators, and derive the suggested
filename from the company slug.  `ts` is the injected value of
`datetime.now().strftime("%Y%m%d_%H%M%S")`. -/

/-- The only hard error of the engine: the document type is not one of
the five recognized values (app.py `preview_document_v1`). -/
inductive GenError where
  | UnknownDocumentType
deriving DecidableEq, Repr

/-- The five recognized document types (`valid_types` in app.py). -/
def validDocTypes : List String := ["privacy", "tos", "cookie", "eula", "refund"]

/-- Model of `"html" if request.output_format == "html" else "md"`. -/
def extOf (output_format : String) : String :=
  if output_format = "html" then "html" else "md"

/-- Model of `(config.get("company_name") or
"document").lower().replace(" ", "_")[:20]` from `generate_documents_v1`.
All three Python operations act character by character (the replaced
pattern is the single character `" "`), so they are modelled on the
character list. -/
def companySlug (config : Config) : String :=
  ⟨((((pyOr config.company_name "document").data).map Char.toLower).map
      (fun c => if c = ' ' then '_' else c)).take 20⟩

/-- The five filename branches of `generate_documents_v1` (app.py lines
395-410). -/
def suggestedFilename (config : Config) (doc_type output_format ts : String) : String :=
  let company_slug := companySlug config
  let ext := extOf output_format
  if doc_type = "privacy" then company_slug ++ "_privacy_policy_" ++ ts ++ "." ++ ext
  else if doc_type = "tos" then company_slug ++ "_terms_of_service_" ++ ts ++ "." ++ ext
  else if doc_type = "cookie" then company_slug ++ "_cookie_policy_" ++ ts ++ "." ++ ext
  else if doc_type = "eula" then company_slug ++ "_eula_" ++ ts ++ "." ++ ext
  else company_slug ++ "_refund_policy_" ++ ts ++ "." ++ ext

/-- The generation procedure `generate(docType, config, format) ->
{text, suggestedFilename}`: the document-type validation of
`preview_document_v1` (app.py lines 437-439), the generator dispatch
shared by both handlers, and the filename derivation of
`generate_documents_v1`.  The final dispatch branch is `refund`, the
last of the five validated values. -/
def generate (doc_type : String) (config : Config) (output_format now ts : String) :
    Except GenError (String × String) :=
  if doc_type ∈ validDocTypes then
    let content :=
      if doc_type = "privacy" then Privacy.generate_policy config output_format now
      else if doc_type = "tos" then Tos.generate_tos config output_format now
      else if doc_type = "cookie" then Cookie.generate_cookie_policy config output_format now
      else if doc_type = "eula" then Eula.generate_eula config output_format now
      else Refund.generate_refund_policy config output_format now
    .ok (content, suggestedFilename config doc_type output_format ts)
  else .error GenError.UnknownDocumentType

/-! ## Dictionary-level operations: mergeConfig and field propagation

`update_config_v1` in app.py and the pre-generation merge loops in
main.py operate on the raw Python dictionaries, where key membership
matters, so they are modelled over a string-keyed partial map rather
than over the `Config` structure. -/

/-- A Python configuration-dictionary value. -/
inductive Value where
  | str (s : String)
  | bool (b : Bool)
  | nat (n : Nat)
  | list (l : List String)
deriving DecidableEq, Repr

/-- A Python dictionary: a partial map from key to value. -/
def DictConfig := String → Option Value

/-- Python truthiness of `d.get(k)`: absent keys, empty strings, `False`,
`0` and empty lists are falsy. -/
def truthy : Option Value → Bool
  | none => false
  | some (.str s) => !(s = "")
  | some (.bool b) => b
  | some (.nat n) => !(n = 0)
  | some (.list l) => !l.isEmpty

/-- Assignment `d[k] = v`. -/
def setKey (c : DictConfig) (k : String) (v : Value) : DictConfig :=
  fun q => if q = k then some v else c q

/-- Translation of the merge loop of `update_config_v1` (app.py lines
364-368): `for key, value in request.config.items(): if key in
current_config: current_config[key] = value`.  The loop never adds or
removes keys, so the membership test against the mutating dictionary
equals the test against the original. -/
def mergeConfig (existing : DictConfig) (patch : List (String × Value)) : DictConfig :=
  patch.foldl
    (fun acc kv => if (acc kv.1).isSome then setKey acc kv.1 kv.2 else acc) existing

/-- The value the merge loop leaves at key `k`: the last patch entry for
`k`, if any. -/
def lookupLast (p : List (String × Value)) (k : String) : Option Value :=
  match p with
  | [] => none
  | kv :: rest =>
    match lookupLast rest k with
    | some v => some v
    | none => if kv.1 = k then some kv.2 else none

/-- The propagated identity-field list of `generate_all_documents`
(main.py lines 1612-1613). -/
def sharedFieldKeys : List String :=
  ["platform_type", "website_url", "website_name", "app_name",
   "company_name", "company_address", "country", "contact_email"]

/-- One step of the propagation loop of `generate_all_documents` (main.py
lines 1611-1622): `if policy_config.get(key): if key in target and not
target.get(key): target[key] = policy_config[key]`. -/
def propStep (primary : DictConfig) (t : DictConfig) (k : String) : DictConfig :=
  match primary k with
  | some v =>
    if truthy (some v) && ((t k).isSome && !truthy (t k)) then setKey t k v else t
  | none => t

/-- Translation of the pre-generation propagation loop
(`propagateSharedFields` in the specification): copy each of the eight
identity fields from the primary record into the target, only when the
primary value is truthy, the key exists in the target, and the target
value is falsy. -/
def propagateSharedFields (primary target : DictConfig) : DictConfig :=
  sharedFieldKeys.foldl (propStep primary) target

/-! ## Call wrappers

A generator call receives the session's configuration dictionary and
returns the rendered text; the five generator bodies contain no
assignment to the dictionary (only `.get` reads), so a call is modelled
as returning the document together with the configuration state after
the call. -/

/-- A call to `generate_policy`: rendered text and final configuration. -/
def generate_policy_call (config : Config) (output_format now : String) : String × Config :=
  (Privacy.generate_policy config output_format now, config)

/-- A call to `generate_tos`. -/
def generate_tos_call (config : Config) (output_format now : String) : String × Config :=
  (Tos.generate_tos config output_format now, config)

/-- A call to `generate_cookie_policy`. -/
def generate_cookie_policy_call (config : Config) (output_format now : String) :
    String × Config :=
  (Cookie.generate_cookie_policy config output_format now, config)

/-- A call to `generate_eula`. -/
def generate_eula_call (config : Config) (output_format now : String) : String × Config :=
  (Eula.generate_eula config output_format now, config)

/-- A call to `generate_refund_policy`. -/
def generate_refund_policy_call (config : Config) (output_format now : String) :
    String × Config :=
  (Refund.generate_refund_policy config output_format now, config)

/-! ## Lemmas about mergeConfig and propagation -/

theorem setKey_same (c : DictConfig) (k : String) (v : Value) : setKey c k v k = some v := by
  simp [setKey]

theorem setKey_other (c : DictConfig) (k q : String) (v : Value) (h : q ≠ k) :
    setKey c k v q = c q := by
  simp [setKey, h]

theorem mergeConfig_go (p : List (String × Value)) :
    ∀ (acc : DictConfig) (k : String),
      (acc k = none → mergeConfig acc p k = none) ∧
      ((acc k).isSome →
        mergeConfig acc p k =
          match lookupLast p k with
          | some v => some v
          | none => acc k) := by
  induction p with
  | nil =>
    intro acc k
    constructor
    · intro h; simpa [mergeConfig] using h
    · intro h; simp [mergeConfig, lookupLast]
  | cons kv p ih =>
    intro acc k
    have hstep : mergeConfig acc (kv :: p) =
        mergeConfig (if (acc kv.1).isSome then setKey acc kv.1 kv.2 else acc) p := by
      simp [mergeConfig, List.foldl]
    constructor
    · intro hnone
      rw [hstep]
      by_cases hk : k = kv.1
      · have hns : ¬ (acc kv.1).isSome = true := by rw [← hk, hnone]; simp
        rw [if_neg hns]
        exact (ih acc k).1 hnone
      · by_cases hs : (acc kv.1).isSome
        · rw [if_pos hs]
          refine (ih _ k).1 ?_
          rw [setKey_other _ _ _ _ hk]
          exact hnone
        · rw [if_neg hs]
          exact (ih acc k).1 hnone
    · intro hsome
      rw [hstep]
      by_cases hk : k = kv.1
      · subst hk
        rw [if_pos hsome]
        have hset : setKey acc kv.1 kv.2 kv.1 = some kv.2 := by simp [setKey]
        have h2 : (setKey acc kv.1 kv.2 kv.1).isSome := by rw [hset]; rfl
        rw [(ih _ kv.1).2 h2, hset]
        cases hval : lookupLast p kv.1 with
        | some v => simp [lookupLast, hval]
        | none => simp [lookupLast, hval]
      · have hacc : (if (acc kv.1).isSome then setKey acc kv.1 kv.2 else acc) k = acc k := by
          by_cases hs : (acc kv.1).isSome
          · rw [if_pos hs, setKey_other _ _ _ _ hk]
          · rw [if_neg hs]
        have h2 : ((if (acc kv.1).isSome then setKey acc kv.1 kv.2 else acc) k).isSome := by
          rw [hacc]; exact hsome
        rw [(ih _ k).2 h2, hacc]
        cases hval : lookupLast p k with
        | some v => simp [lookupLast, hval]
        | none =>
          simp only [lookupLast, hval]
          rw [if_neg (fun h => hk h.symm)]

/-- The value the propagation loop leaves at a shared key `k`. -/
def propRes (primary t : DictConfig) (k : String) : Option Value :=
  match primary k with
  | some v =>
    if truthy (some v) && ((t k).isSome && !truthy (t k)) then some v else t k
  | none => t k

theorem propStep_other (primary : DictConfig) (t : DictConfig) (k q : String) (h : q ≠ k) :
    propStep primary t k q = t q := by
  rcases hpk : primary k with _ | v
  · simp [propStep, hpk]
  · simp only [propStep, hpk]
    split
    · exact setKey_other _ _ _ _ h
    · rfl

theorem propStep_same (primary : DictConfig) (t : DictConfig) (k : String) :
    propStep primary t k k = propRes primary t k := by
  rcases hpk : primary k with _ | v
  · simp [propStep, propRes, hpk]
  · simp only [propStep, propRes, hpk]
    split
    · rw [setKey_same]
    · rfl

theorem propagate_go (ks : List String) (hnd : ks.Nodup) (primary : DictConfig) :
    ∀ (t : DictConfig) (k : String),
      (k ∉ ks → ks.foldl (propStep primary) t k = t k) ∧
      (k ∈ ks → ks.foldl (propStep primary) t k = propRes primary t k) := by
  induction ks with
  | nil =>
    intro t k
    exact ⟨fun _ => rfl, fun h => absurd h (List.not_mem_nil k)⟩
  | cons k0 ks ih =>
    intro t k
    obtain ⟨hk0, hnd'⟩ := List.nodup_cons.mp hnd
    have hfold : (k0 :: ks).foldl (propStep primary) t =
        ks.foldl (propStep primary) (propStep primary t k0) := rfl
    constructor
    · intro hnot
      have hne : k ≠ k0 := fun h => hnot (h ▸ List.mem_cons_self k0 ks)
      have hnotin : k ∉ ks := fun h => hnot (List.mem_cons_of_mem k0 h)
      rw [hfold, (ih hnd' _ k).1 hnotin, propStep_other _ _ _ _ hne]
    · intro hmem
      rcases List.mem_cons.mp hmem with hk | hk
      · subst hk
        rw [hfold, (ih hnd' _ k).1 hk0, propStep_same]
      · have hne : k ≠ k0 := fun h => hk0 (h ▸ hk)
        rw [hfold, (ih hnd' _ k).2 hk]
        unfold propRes
        rw [propStep_other _ _ _ _ hne]

/-! ## Claim theorems -/

/-- C1: with the ambient clock injected as the `now` and `ts` parameters,
the five generators and the `generate` entry point are pure: two calls
with identical `(docType, config, format, nowTimestamp)` yield identical
output; no randomness or external input enters the computation. -/
theorem generators_deterministic (d : String) (c c' : Config)
    (f f' n n' ts ts' : String) (hc : c = c') (hf : f = f') (hn : n = n')
    (ht : ts = ts') :
    Privacy.generate_policy c f n = Privacy.generate_policy c' f' n' ∧
    Tos.generate_tos c f n = Tos.generate_tos c' f' n' ∧
    Cookie.generate_cookie_policy c f n = Cookie.generate_cookie_policy c' f' n' ∧
    Eula.generate_eula c f n = Eula.generate_eula c' f' n' ∧
    Refund.generate_refund_policy c f n = Refund.generate_refund_policy c' f' n' ∧
    generate d c f n ts = generate d c' f' n' ts' := by
  subst hc; subst hf; subst hn; subst ht
  exact ⟨rfl, rfl, rfl, rfl, rfl, rfl⟩

theorem generators_deterministic_witness :
    Privacy.generate_policy defaultConfig "markdown" "January 01, 2025" =
      Privacy.generate_policy defaultConfig "markdown" "January 01, 2025" ∧
    Tos.generate_tos defaultConfig "markdown" "January 01, 2025" =
      Tos.generate_tos defaultConfig "markdown" "January 01, 2025" ∧
    Cookie.generate_cookie_policy defaultConfig "markdown" "January 01, 2025" =
      Cookie.generate_cookie_policy defaultConfig "markdown" "January 01, 2025" ∧
    Eula.generate_eula defaultConfig "markdown" "January 01, 2025" =
      Eula.generate_eula defaultConfig "markdown" "January 01, 2025" ∧
    Refund.generate_refund_policy defaultConfig "markdown" "January 01, 2025" =
      Refund.generate_refund_policy defaultConfig "markdown" "January 01, 2025" ∧
    generate "privacy" defaultConfig "markdown" "January 01, 2025" "20250101_000000" =
      generate "privacy" defaultConfig "markdown" "January 01, 2025" "20250101_000000" :=
  generators_deterministic "privacy" defaultConfig defaultConfig "markdown" "markdown"
    "January 01, 2025" "January 01, 2025" "20250101_000000" "20250101_000000" rfl rfl rfl rfl

/-- C2: generation fails exactly on an unrecognized document type.  For
every `docType` outside the five recognized values `generate` returns the
`UnknownDocumentType` error and no output; for every recognized
`docType`, with any configuration and any format, it returns a document
(all configuration gaps are absorbed by defaulting, never surfaced). -/
theorem generate_error_spec (d : String) (c : Config) (f now ts : String) :
    (d ∉ validDocTypes →
      generate d c f now ts = Except.error GenError.UnknownDocumentType) ∧
    (d ∈ validDocTypes → ∃ out, generate d c f now ts = Except.ok out) := by
  constructor
  · intro h
    unfold generate
    rw [if_neg h]
  · intro h
    unfold generate
    rw [if_pos h]
    exact ⟨_, rfl⟩

theorem generate_error_spec_witness :
    generate "bogus" defaultConfig "markdown" "January 01, 2025" "20250101_000000" =
      Except.error GenError.UnknownDocumentType ∧
    (generate "privacy" defaultConfig "markdown" "January 01, 2025"
      "20250101_000000").isOk = true := by
  constructor
  · exact (generate_error_spec "bogus" defaultConfig "markdown" "January 01, 2025"
      "20250101_000000").1 (by decide)
  · obtain ⟨out, h⟩ := (generate_error_spec "privacy" defaultConfig "markdown"
      "January 01, 2025" "20250101_000000").2 (by decide)
    rw [h]
    rfl

/-- C3: the pre-generation propagation step touches exactly the eight
identity fields; a target field holding a truthy value is never
overwritten, while a target field that is present but falsy receives the
primary's (truthy) value. -/
theorem propagateSharedFields_spec (primary target : DictConfig) (k : String) :
    (k ∉ sharedFieldKeys → propagateSharedFields primary target k = target k) ∧
    (k ∈ sharedFieldKeys → truthy (target k) = true →
      propagateSharedFields primary target k = target k) ∧
    (k ∈ sharedFieldKeys → truthy (primary k) = true → (target k).isSome →
      truthy (target k) = false → propagateSharedFields primary target k = primary k) := by
  have hnd : sharedFieldKeys.Nodup := by decide
  have hgo := propagate_go sharedFieldKeys hnd primary target k
  refine ⟨hgo.1, ?_, ?_⟩
  · intro hmem htruthy
    rw [propagateSharedFields, hgo.2 hmem]
    unfold propRes
    rcases hpk : primary k with _ | v
    · rfl
    · simp [htruthy]
  · intro hmem hp hsome hfalse
    rw [propagateSharedFields, hgo.2 hmem]
    unfold propRes
    rcases hpk : primary k with _ | v
    · rw [hpk] at hp
      exact absurd hp (by simp [truthy])
    · rw [hpk] at hp
      simp [hp, hsome, hfalse]

/-- Concrete copy-on-first-write scenario: `company_name = "Acme"` in the
primary; a falsy target value receives it, `"Beta"` is preserved. -/
def acmePrimary : DictConfig :=
  fun k => if k = "company_name" then some (Value.str "Acme") else none

/-- A target record whose `company_name` is present but unset (empty). -/
def unsetTarget : DictConfig :=
  fun k => if k = "company_name" then some (Value.str "") else none

/-- A target record with `company_name = "Beta"`. -/
def betaTarget : DictConfig :=
  fun k => if k = "company_name" then some (Value.str "Beta") else none

theorem propagateSharedFields_spec_witness :
    propagateSharedFields acmePrimary unsetTarget "company_name" = some (Value.str "Acme") ∧
    propagateSharedFields acmePrimary betaTarget "company_name" = some (Value.str "Beta") ∧
    propagateSharedFields acmePrimary betaTarget "sells_data" = betaTarget "sells_data" := by
  refine ⟨?_, ?_, ?_⟩
  · exact ((propagateSharedFields_spec acmePrimary unsetTarget "company_name").2.2
      (by decide) (by decide) (by decide) (by decide)).trans rfl
  · exact ((propagateSharedFields_spec acmePrimary betaTarget "company_name").2.1
      (by decide) (by decide)).trans rfl
  · exact (propagateSharedFields_spec acmePrimary betaTarget "sells_data").1 (by decide)

/-- C7: the configuration merge sets exactly the patch keys present in
the existing record (last patch entry winning, as in the dict loop),
silently drops unknown keys and adds no new keys, leaves unmentioned
fields unchanged, and is total. -/
theorem mergeConfig_spec (existing : DictConfig) (patch : List (String × Value))
    (k : String) :
    (existing k = none → mergeConfig existing patch k = none) ∧
    ((existing k).isSome →
      mergeConfig existing patch k =
        match lookupLast patch k with
        | some v => some v
        | none => existing k) ∧
    (lookupLast patch k = none → mergeConfig existing patch k = existing k) := by
  have hgo := mergeConfig_go patch existing k
  refine ⟨hgo.1, hgo.2, ?_⟩
  intro hnone
  rcases hex : existing k with _ | v
  · exact hgo.1 hex
  · have : (existing k).isSome := by rw [hex]; rfl
    rw [hgo.2 this, hnone]
    exact hex

/-- A session record holding only `company_name` and `country`. -/
def sessionDict : DictConfig :=
  fun k =>
    if k = "company_name" then some (Value.str "Old")
    else if k = "country" then some (Value.str "US") else none

theorem mergeConfig_spec_witness :
    mergeConfig sessionDict
        [("company_name", Value.str "Acme"), ("bogus_key", Value.str "x")]
        "company_name" = some (Value.str "Acme") ∧
    mergeConfig sessionDict
        [("company_name", Value.str "Acme"), ("bogus_key", Value.str "x")]
        "bogus_key" = none ∧
    mergeConfig sessionDict
        [("company_name", Value.str "Acme"), ("bogus_key", Value.str "x")]
        "country" = some (Value.str "US") := by
  refine ⟨?_, ?_, ?_⟩
  · exact ((mergeConfig_spec sessionDict _ "company_name").2.1 (by decide)).trans (by decide)
  · exact (mergeConfig_spec sessionDict _ "bogus_key").1 (by decide)
  · exact ((mergeConfig_spec sessionDict _ "country").2.2 (by decide)).trans (by decide)

/-- C10: no generator mutates its input configuration; the configuration
after each call is exactly the configuration passed in. -/
theorem generators_no_mutation (c : Config) (f now : String) :
    (generate_policy_call c f now).2 = c ∧
    (generate_tos_call c f now).2 = c ∧
    (generate_cookie_policy_call c f now).2 = c ∧
    (generate_eula_call c f now).2 = c ∧
    (generate_refund_policy_call c f now).2 = c :=
  ⟨rfl, rfl, rfl, rfl, rfl⟩

/-- C9 counterexample: with `license_type` absent (unset),
`config.get("license_type", "subscription")` yields `"subscription"`, so
the grant-of-license section uses the subscription phrasing, not the
general fall-through phrasing the claim asserts. -/
theorem eula_license_unset_counterexample :
    Eula.licenseText { defaultConfig with license_type := none } =
      "a limited, non-exclusive, subscription-based license" ∧
    ¬ Eula.licenseText { defaultConfig with license_type := none } =
      "a limited, non-exclusive license" := by
  constructor
  · rfl
  · decide

/-- C9 amended: `"perpetual"` and `"subscription"` select their dedicated
sentences, an unrecognized value falls through to the general phrasing,
an absent (unset) value defaults to `"subscription"` and hence the
subscription phrasing, and the selection always produces one of the
three sentences (never an error). -/
theorem eula_license_selection (c : Config) (s : String) :
    (c.license_type = some "perpetual" →
      Eula.licenseText c = "a perpetual, non-exclusive license") ∧
    ((c.license_type = some "subscription" ∨ c.license_type = none) →
      Eula.licenseText c = "a limited, non-exclusive, subscription-based license") ∧
    (c.license_type = some s → ¬ s = "perpetual" → ¬ s = "subscription" →
      Eula.licenseText c = "a limited, non-exclusive license") ∧
    (Eula.licenseText c = "a perpetual, non-exclusive license" ∨
      Eula.licenseText c = "a limited, non-exclusive, subscription-based license" ∨
      Eula.licenseText c = "a limited, non-exclusive license") := by
  refine ⟨?_, ?_, ?_, ?_⟩
  · intro h
    unfold Eula.licenseText
    rw [h]
    decide
  · rintro (h | h) <;> (unfold Eula.licenseText; rw [h]) <;> decide
  · intro h h1 h2
    unfold Eula.licenseText
    rw [h]
    show (if s = "perpetual" then "a perpetual, non-exclusive license"
      else if s = "subscription" then "a limited, non-exclusive, subscription-based license"
      else "a limited, non-exclusive license") = "a limited, non-exclusive license"
    rw [if_neg h1, if_neg h2]
  · unfold Eula.licenseText
    show (if c.license_type.getD "subscription" = "perpetual" then
        "a perpetual, non-exclusive license"
      else if c.license_type.getD "subscription" = "subscription" then
        "a limited, non-exclusive, subscription-based license"
      else "a limited, non-exclusive license") = "a perpetual, non-exclusive license" ∨
      (if c.license_type.getD "subscription" = "perpetual" then
        "a perpetual, non-exclusive license"
      else if c.license_type.getD "subscription" = "subscription" then
        "a limited, non-exclusive, subscription-based license"
      else "a limited, non-exclusive license") =
        "a limited, non-exclusive, subscription-based license" ∨
      (if c.license_type.getD "subscription" = "perpetual" then
        "a perpetual, non-exclusive license"
      else if c.license_type.getD "subscription" = "subscription" then
        "a limited, non-exclusive, subscription-based license"
      else "a limited, non-exclusive license") = "a limited, non-exclusive license"
    by_cases h1 : c.license_type.getD "subscription" = "perpetual"
    · left
      rw [if_pos h1]
    · by_cases h2 : c.license_type.getD "subscription" = "subscription"
      · right; left
        rw [if_neg h1, if_pos h2]
      · right; right
        rw [if_neg h1, if_neg h2]

theorem eula_license_selection_witness :
    Eula.licenseText { defaultConfig with license_type := some "perpetual" } =
      "a perpetual, non-exclusive license" ∧
    Eula.licenseText defaultConfig =
      "a limited, non-exclusive, subscription-based license" ∧
    Eula.licenseText { defaultConfig with license_type := some "site" } =
      "a limited, non-exclusive license" := by
  refine ⟨?_, ?_, ?_⟩
  · exact (eula_license_selection { defaultConfig with license_type := some "perpetual" }
      "site").1 rfl
  · exact (eula_license_selection defaultConfig "site").2.1 (Or.inl rfl)
  · exact (eula_license_selection { defaultConfig with license_type := some "site" }
      "site").2.2.1 rfl (by decide) (by decide)

/-! ## C4: filename derivation -/

/-- Strings are equal when their character lists are. -/
theorem string_data_ext (a b : String) (h : a.data = b.data) : a = b := by
  cases a; cases b; exact congrArg String.mk h

/-- Appending strings concatenates their character lists. -/
theorem data_append (a b : String) : (a ++ b).data = a.data ++ b.data := rfl

/-- The slug exactly as the specification words it: `company_name` (or
`"document"` when unset), lowercased, spaces replaced by underscores,
truncated to at most 20 characters. -/
def specSlug (config : Config) : String :=
  ⟨((((pyOr config.company_name "document").data).map Char.toLower).map
      (fun c => if c = ' ' then '_' else c)).take 20⟩

/-- The per-type label named `docTypeLabel` by the specification. -/
def docTypeLabel (doc_type : String) : String :=
  if doc_type = "privacy" then "privacy_policy"
  else if doc_type = "tos" then "terms_of_service"
  else if doc_type = "cookie" then "cookie_policy"
  else if doc_type = "eula" then "eula"
  else "refund_policy"

/-- The extension as the specification words it: a function of the output
format, `.html` for html and `.md` otherwise. -/
def specExtension (output_format : String) : String :=
  if output_format = "html" then ".html" else ".md"

/-- The specification formula `slug + "_" + docTypeLabel + "_" + timestamp
+ extension(format)`. -/
def specSuggestedFilename (config : Config) (doc_type output_format ts : String) : String :=
  specSlug config ++ "_" ++ docTypeLabel doc_type ++ "_" ++ ts ++ specExtension output_format

theorem specExtension_data (f : String) :
    (specExtension f).data = ".".data ++ (extOf f).data := by
  by_cases h : f = "html"
  · simp only [specExtension, extOf, if_pos h]; decide
  · simp only [specExtension, extOf, if_neg h]; decide

theorem filename_branch (slug ts f lit us label : String)
    (hlit : lit.data = us.data ++ (label.data ++ us.data)) :
    slug ++ lit ++ ts ++ "." ++ extOf f =
      slug ++ us ++ label ++ us ++ ts ++ specExtension f := by
  apply string_data_ext
  simp only [data_append, List.append_assoc, specExtension_data, hlit]

/-- C4 counterexample: the specification's worked example is wrong — the
slug replaces only spaces, leaving other punctuation intact, so
`company_name = "Acme Corp!!"` yields a filename starting
`acme_corp!!_`, not `acme_corp___`. -/
theorem filename_example_counterexample :
    suggestedFilename { defaultConfig with company_name := some "Acme Corp!!" }
        "privacy" "text" "20250101_000000" =
      "acme_corp!!_privacy_policy_20250101_000000.md" ∧
    ("acme_corp___privacy_policy_".data.isPrefixOf
      (suggestedFilename { defaultConfig with company_name := some "Acme Corp!!" }
        "privacy" "text" "20250101_000000").data) = false := by
  constructor
  · decide
  · decide

/-- C4 amended: the general filename formula of the specification holds
for every configuration, document type, format and timestamp (the slug
lowercases, replaces spaces by underscores and truncates to 20
characters, leaving all other punctuation intact); in particular the
`"Acme Corp!!"` example yields `acme_corp!!_privacy_policy_<ts>.md`. -/
theorem suggestedFilename_formula (c : Config) (d f ts : String) :
    suggestedFilename c d f ts = specSuggestedFilename c d f ts ∧
    suggestedFilename { defaultConfig with company_name := some "Acme Corp!!" }
        "privacy" "text" ts =
      "acme_corp!!_privacy_policy_" ++ ts ++ ".md" := by
  constructor
  · simp only [suggestedFilename, specSuggestedFilename, docTypeLabel]
    rw [show specSlug c = companySlug c from rfl]
    by_cases h1 : d = "privacy"
    · simp only [if_pos h1]
      exact filename_branch (companySlug c) ts f _ "_" "privacy_policy" (by decide)
    · simp only [if_neg h1]
      by_cases h2 : d = "tos"
      · simp only [if_pos h2]
        exact filename_branch (companySlug c) ts f _ "_" "terms_of_service" (by decide)
      · simp only [if_neg h2]
        by_cases h3 : d = "cookie"
        · simp only [if_pos h3]
          exact filename_branch (companySlug c) ts f _ "_" "cookie_policy" (by decide)
        · simp only [if_neg h3]
          by_cases h4 : d = "eula"
          · simp only [if_pos h4]
            exact filename_branch (companySlug c) ts f _ "_" "eula" (by decide)
          · simp only [if_neg h4]
            exact filename_branch (companySlug c) ts f _ "_" "refund_policy" (by decide)
  · simp only [suggestedFilename]
    rw [if_pos trivial]
    apply string_data_ext
    simp only [data_append, List.append_assoc]
    rw [show (companySlug { defaultConfig with company_name := some "Acme Corp!!" }).data =
      "acme_corp!!".data from by decide]
    rw [show (extOf "text").data = "md".data from by decide]
    rw [show (['a', 'c', 'm', 'e', '_', 'c', 'o', 'r', 'p', '!', '!', '_', 'p', 'r',
        'i', 'v', 'a', 'c', 'y', '_', 'p', 'o', 'l', 'i', 'c', 'y', '_'] : List Char) =
      "acme_corp!!".data ++ ['_', 'p', 'r', 'i', 'v', 'a', 'c', 'y', '_', 'p', 'o',
        'l', 'i', 'c', 'y', '_'] from by decide]
    rw [show (['.'] ++ "md".data : List Char) = ['.', 'm', 'd'] from by decide]
    simp only [List.append_assoc]


/-! ## C5: inclusion of the third-party-cookies section -/

theorem prefix_append_left (l : List Char) (a b : String) (h : l <+: a.data) :
    l <+: (a ++ b).data := by
  rw [data_append]
  exact h.trans (List.prefix_append a.data b.data)

theorem intercalate_go_prefix (l : List String) (acc s : String) (pre : List Char)
    (h : pre <+: acc.data) : pre <+: (String.intercalate.go acc s l).data := by
  induction l generalizing acc with
  | nil => exact h
  | cons a as ih =>
    exact ih ((acc ++ s) ++ a) (prefix_append_left _ _ _ (prefix_append_left _ _ _ h))

theorem intercalate_head_prefix (a : String) (l : List String) (s : String)
    (pre : List Char) (h : pre <+: a.data) :
    pre <+: (String.intercalate s (a :: l)).data :=
  intercalate_go_prefix l a s pre h

theorem foldl_prefix {α : Type} (f : String → α → String)
    (hf : ∀ acc x, acc.data <+: (f acc x).data) (l : List α) :
    ∀ (acc : String) (pre : List Char), pre <+: acc.data →
      pre <+: (l.foldl f acc).data := by
  induction l with
  | nil => intro acc pre h; exact h
  | cons x xs ih => intro acc pre h; exact ih (f acc x) pre (h.trans (hf acc x))

theorem ne_of_distinct_prefixes (s t : String) (l1 l2 : List Char)
    (h1 : l1 <+: s.data) (h2 : l2 <+: t.data) (hlen : l1.length = l2.length)
    (hne : l1 ≠ l2) : s ≠ t := by
  intro he
  subst he
  rcases List.prefix_or_prefix_of_prefix h1 h2 with h | h
  · exact hne (List.IsPrefix.eq_of_length h hlen)
  · exact hne (List.IsPrefix.eq_of_length h hlen.symm).symm

theorem mem_ite_singleton (x y : String) (p : Prop) [Decidable p]
    (h : x ∈ (if p then [y] else ([] : List String))) : p ∧ x = y := by
  split at h
  · next hp => exact ⟨hp, List.mem_singleton.mp h⟩
  · exact absurd h (List.not_mem_nil x)

namespace Cookie

theorem header_pre (c : Config) (now : String) :
    "# Cookie".data <+: (_generate_header c now).data := by
  unfold _generate_header
  repeat apply prefix_append_left
  decide

theorem introduction_pre (c : Config) :
    "## Intro".data <+: (_generate_introduction c).data := by
  unfold _generate_introduction
  repeat apply prefix_append_left
  decide

theorem what_are_cookies_pre (c : Config) :
    "## What ".data <+: (_generate_what_are_cookies c).data := by
  unfold _generate_what_are_cookies
  decide

theorem how_we_use_pre (c : Config) :
    "## How W".data <+: (_generate_how_we_use_cookies c).data := by
  unfold _generate_how_we_use_cookies
  repeat apply prefix_append_left
  decide

theorem cookie_types_pre (c : Config) :
    "## Types".data <+: (_generate_cookie_types c).data := by
  unfold _generate_cookie_types
  apply intercalate_head_prefix
  decide

theorem cookie_details_pre (c : Config) (h : c.cookie_details.isEmpty = false) :
    "## Speci".data <+: (_generate_cookie_details c).data := by
  unfold _generate_cookie_details
  rw [if_neg (by simp [h])]
  apply foldl_prefix
  · intro acc x
    repeat apply prefix_append_left
    exact List.prefix_refl _
  · decide

theorem third_party_pre (c : Config) :
    "## Third".data <+: (_generate_third_party_cookies c).data := by
  unfold _generate_third_party_cookies
  apply intercalate_head_prefix
  decide

theorem analytics_pre (c : Config) :
    "## Analy".data <+: (_generate_analytics_section c).data := by
  unfold _generate_analytics_section
  repeat apply prefix_append_left
  decide

theorem advertising_pre (c : Config) :
    "## Adver".data <+: (_generate_advertising_section c).data := by
  unfold _generate_advertising_section
  decide

theorem social_media_pre (c : Config) :
    "## Socia".data <+: (_generate_social_media_section c).data := by
  unfold _generate_social_media_section
  repeat apply prefix_append_left
  decide

theorem managing_pre (c : Config) :
    "## Manag".data <+: (_generate_managing_cookies c).data := by
  unfold _generate_managing_cookies
  repeat apply prefix_append_left
  decide

theorem consent_pre (c : Config) :
    "## Cooki".data <+: (_generate_cookie_consent c).data := by
  unfold _generate_cookie_consent
  repeat apply prefix_append_left
  decide

theorem gdpr_pre (c : Config) :
    "## EU/GD".data <+: (_generate_gdpr_section c).data := by
  unfold _generate_gdpr_section
  decide

theorem changes_pre (c : Config) :
    "## Chang".data <+: (_generate_changes_section c).data := by
  unfold _generate_changes_section
  decide

theorem contact_pre (c : Config) :
    "## Conta".data <+: (_generate_contact_section c).data := by
  unfold _generate_contact_section
  repeat apply prefix_append_left
  decide

end Cookie

/-- C5: the third-party-cookies section appears among the assembled
sections of the cookie policy iff at least one of the six flags
`uses_google_analytics`, `uses_facebook_pixel`, `uses_hotjar`,
`uses_hubspot`, `uses_intercom`, `uses_advertising_cookies` is set or
the `third_party_cookies` list is non-empty. -/
theorem third_party_section_iff (c : Config) (now : String) :
    Cookie._generate_third_party_cookies c ∈ Cookie.cookieSections c now ↔
      (c.uses_google_analytics || c.uses_facebook_pixel || c.uses_hotjar ||
       c.uses_hubspot || c.uses_intercom || c.uses_advertising_cookies ||
       !c.third_party_cookies.isEmpty) = true := by
  have hthird := Cookie.third_party_pre c
  constructor
  · intro h
    simp only [Cookie.cookieSections, List.append_assoc, List.mem_append,
      List.mem_cons, List.not_mem_nil, or_false, false_or] at h
    rcases h with (h | h | h | h | h) | h | h | h | h | h | h | h | h | h | h
    · exact absurd h (ne_of_distinct_prefixes _ _ _ _ hthird
        (Cookie.header_pre c now) (by decide) (by decide))
    · exact absurd h (ne_of_distinct_prefixes _ _ _ _ hthird
        (Cookie.introduction_pre c) (by decide) (by decide))
    · exact absurd h (ne_of_distinct_prefixes _ _ _ _ hthird
        (Cookie.what_are_cookies_pre c) (by decide) (by decide))
    · exact absurd h (ne_of_distinct_prefixes _ _ _ _ hthird
        (Cookie.how_we_use_pre c) (by decide) (by decide))
    · exact absurd h (ne_of_distinct_prefixes _ _ _ _ hthird
        (Cookie.cookie_types_pre c) (by decide) (by decide))
    · obtain ⟨hp, heq⟩ := mem_ite_singleton _ _ _ h
      exact absurd heq (ne_of_distinct_prefixes _ _ _ _ hthird
        (Cookie.cookie_details_pre c (by simpa using hp)) (by decide) (by decide))
    · exact (mem_ite_singleton _ _ _ h).1
    · obtain ⟨hp, heq⟩ := mem_ite_singleton _ _ _ h
      exact absurd heq (ne_of_distinct_prefixes _ _ _ _ hthird
        (Cookie.analytics_pre c) (by decide) (by decide))
    · obtain ⟨hp, heq⟩ := mem_ite_singleton _ _ _ h
      simp [hp]
    · obtain ⟨hp, heq⟩ := mem_ite_singleton _ _ _ h
      exact absurd heq (ne_of_distinct_prefixes _ _ _ _ hthird
        (Cookie.social_media_pre c) (by decide) (by decide))
    · exact absurd h (ne_of_distinct_prefixes _ _ _ _ hthird
        (Cookie.managing_pre c) (by decide) (by decide))
    · obtain ⟨hp, heq⟩ := mem_ite_singleton _ _ _ h
      exact absurd heq (ne_of_distinct_prefixes _ _ _ _ hthird
        (Cookie.consent_pre c) (by decide) (by decide))
    · obtain ⟨hp, heq⟩ := mem_ite_singleton _ _ _ h
      exact absurd heq (ne_of_distinct_prefixes _ _ _ _ hthird
        (Cookie.gdpr_pre c) (by decide) (by decide))
    · exact absurd h (ne_of_distinct_prefixes _ _ _ _ hthird
        (Cookie.changes_pre c) (by decide) (by decide))
    · exact absurd h (ne_of_distinct_prefixes _ _ _ _ hthird
        (Cookie.contact_pre c) (by decide) (by decide))
  · intro h
    have hh : Cookie._has_third_party_cookies c = true := h
    simp [Cookie.cookieSections, hh]

/-! ## C6: section gating -/

/-- C6 counterexample: `uses_analytics` gates the `## Analytics` section,
but toggling it also rewrites the purposes bullet list inside the
`## How We Use Cookies` section, so the text of another section changes
— the claimed frame property fails for this flag. -/
theorem gating_frame_counterexample :
    Cookie._generate_how_we_use_cookies { defaultConfig with uses_analytics := true } ≠
      Cookie._generate_how_we_use_cookies { defaultConfig with uses_analytics := false } := by
  decide

/-- The cookie-policy sections preceding the GDPR slot, as assembled by
`generate_cookie_policy`. -/
def cookiePre (c : Config) (now : String) : List String :=
  [Cookie._generate_header c now, Cookie._generate_introduction c,
   Cookie._generate_what_are_cookies c, Cookie._generate_how_we_use_cookies c,
   Cookie._generate_cookie_types c] ++
  (if !c.cookie_details.isEmpty then [Cookie._generate_cookie_details c] else []) ++
  (if Cookie._has_third_party_cookies c then [Cookie._generate_third_party_cookies c] else []) ++
  (if c.uses_analytics then [Cookie._generate_analytics_section c] else []) ++
  (if c.uses_advertising_cookies then [Cookie._generate_advertising_section c] else []) ++
  (if Cookie._has_social_cookies c then [Cookie._generate_social_media_section c] else []) ++
  [Cookie._generate_managing_cookies c] ++
  (if c.has_cookie_consent then [Cookie._generate_cookie_consent c] else [])

/-- The cookie-policy sections following the GDPR slot. -/
def cookiePost (c : Config) : List String :=
  [Cookie._generate_changes_section c, Cookie._generate_contact_section c]

/-- C6 amended: for the `gdpr_compliant` flag (which is read only by the
assembler's inclusion test), toggling true/false while holding every
other field fixed adds or removes exactly the GDPR section — including
its `## EU/GDPR Cookie Compliance` heading — between the same unchanged
surrounding sections. -/
theorem gdpr_gating (c : Config) (now : String) :
    Cookie.cookieSections { c with gdpr_compliant := true } now =
      cookiePre { c with gdpr_compliant := true } now ++
        Cookie._generate_gdpr_section { c with gdpr_compliant := true } ::
          cookiePost { c with gdpr_compliant := true } ∧
    Cookie.cookieSections { c with gdpr_compliant := false } now =
      cookiePre { c with gdpr_compliant := false } now ++
        cookiePost { c with gdpr_compliant := false } ∧
    cookiePre { c with gdpr_compliant := true } now =
      cookiePre { c with gdpr_compliant := false } now ∧
    cookiePost { c with gdpr_compliant := true } =
      cookiePost { c with gdpr_compliant := false } ∧
    "## EU/GDPR Cookie Compliance".data <+:
      (Cookie._generate_gdpr_section { c with gdpr_compliant := true }).data := by
  refine ⟨?_, ?_, rfl, rfl, ?_⟩
  · simp [Cookie.cookieSections, cookiePre, cookiePost, List.append_assoc]
  · simp [Cookie.cookieSections, cookiePre, cookiePost, List.append_assoc]
  · unfold Cookie._generate_gdpr_section
    decide

/-! ## C8: well-formedness of the privacy HTML rendering

The output of `Privacy._convert_to_html` is analysed through an atom
decomposition: the character list splits into plain characters (never
`<`) and complete tag strings, so substring occurrence counts of the
prefix-free tag vocabulary can be computed structurally. -/

/-- Number of positions of `l` at which `pat` occurs as a substring. -/
def occs (pat : List Char) : List Char → Nat
  | [] => 0
  | c :: rest => (if pat.isPrefixOf (c :: rest) then 1 else 0) + occs pat rest

/-- The tags emitted by the markdown pipeline of `_convert_to_html`. -/
def bodyTags : List (List Char) :=
  ["<h1>".data, "</h1>".data, "<h2>".data, "</h2>".data, "<h3>".data, "</h3>".data,
   "<strong>".data, "</strong>".data, "<ul>".data, "</ul>".data, "<li>".data,
   "</li>".data, "<p>".data, "</p>".data, "<em>".data, "</em>".data,
   "<tr>".data, "</tr>".data, "<td>".data, "</td>".data]

/-- The tag markers occurring in the fixed HTML shell of
`_convert_to_html`. -/
def shellTags : List (List Char) :=
  ["<!DOCTYPE html>".data, "<html ".data, "<head>".data, "</head>".data, "<meta ".data,
   "<title>".data, "</title>".data, "<style>".data, "</style>".data, "<body>".data,
   "</body>".data, "</html>".data]

/-- The combined prefix-free tag vocabulary. -/
def allTags : List (List Char) := bodyTags ++ shellTags

/-- Some member of `T` starts at the head of `l`. -/
def anyPrefix (T : List (List Char)) (l : List Char) : Bool :=
  T.any (fun t => t.isPrefixOf l)

/-- Every `<` in the list starts a complete marker from `T`. -/
def clean (T : List (List Char)) : List Char → Bool
  | [] => true
  | c :: rest => ((c != '<') || anyPrefix T (c :: rest)) && clean T rest

/-- Decomposition of a character list into plain characters and complete
body tags, recording the tag sequence. -/
inductive Atoms : List Char → List (List Char) → Prop where
  | nil : Atoms [] []
  | ch {c : Char} {l : List Char} {ts : List (List Char)} :
      c ≠ '<' → Atoms l ts → Atoms (c :: l) ts
  | tag {t : List Char} {l : List Char} {ts : List (List Char)} :
      t ∈ bodyTags → Atoms l ts → Atoms (t ++ l) (t :: ts)

theorem allTags_start : ∀ t ∈ allTags, t = '<' :: t.tail := by decide

theorem allTags_tail_no_lt : ∀ t ∈ allTags, ∀ c ∈ t.tail, c ≠ '<' := by decide

theorem allTags_free : ∀ t1 ∈ allTags, ∀ t2 ∈ allTags, t1 <+: t2 → t1 = t2 := by decide

theorem bodyTags_sub : ∀ t ∈ bodyTags, t ∈ allTags := by decide

theorem bodyTags_no_ws : ∀ t ∈ bodyTags, ∀ c ∈ t, c.isWhitespace = false := by decide

theorem occs_cons_ne (pat : List Char) (c : Char) (l : List Char)
    (hpat : pat = '<' :: pat.tail) (hc : c ≠ '<') :
    occs pat (c :: l) = occs pat l := by
  simp only [occs]
  rw [if_neg, Nat.zero_add]
  intro hpre
  have hp := List.isPrefixOf_iff_prefix.mp hpre
  rw [hpat] at hp
  exact hc ((List.cons_prefix_cons.mp hp).1.symm)

theorem occs_skip (pat m l : List Char) (hpat : pat = '<' :: pat.tail)
    (hm : ∀ c ∈ m, c ≠ '<') : occs pat (m ++ l) = occs pat l := by
  induction m with
  | nil => rfl
  | cons c m' ih =>
    rw [List.cons_append, occs_cons_ne pat c _ hpat (hm c (by simp))]
    exact ih (fun d hd => hm d (by simp [hd]))

theorem occs_no_lt (pat l : List Char) (hpat : pat = '<' :: pat.tail)
    (hl : ∀ c ∈ l, c ≠ '<') : occs pat l = 0 := by
  have := occs_skip pat l [] hpat hl
  simpa using this

theorem occs_tag (pat t l : List Char) (hpat : pat ∈ allTags) (ht : t ∈ allTags) :
    occs pat (t ++ l) = (if pat = t then 1 else 0) + occs pat l := by
  have hsh := allTags_start t ht
  have htail : occs pat (t.tail ++ l) = occs pat l :=
    occs_skip pat t.tail l (allTags_start pat hpat) (allTags_tail_no_lt t ht)
  conv_lhs => rw [hsh]
  simp only [List.cons_append, occs, List.append_eq]
  rw [htail]
  congr 1
  by_cases hpt : pat = t
  · subst hpt
    have hpre : pat.isPrefixOf ('<' :: (pat.tail ++ l)) = true := by
      refine List.isPrefixOf_iff_prefix.mpr ?_
      have hre : ('<' : Char) :: (pat.tail ++ l) = pat ++ l := by
        conv_rhs => rw [hsh]
        rfl
      rw [hre]
      exact List.prefix_append _ _
    rw [if_pos hpre, if_pos rfl]
  · rw [if_neg hpt, if_neg]
    intro hpre
    have hp := List.isPrefixOf_iff_prefix.mp hpre
    have hre : ('<' : Char) :: (t.tail ++ l) = t ++ l := by
      conv_rhs => rw [hsh]
      rfl
    rw [hre] at hp
    have htp : t <+: t ++ l := List.prefix_append _ _
    rcases List.prefix_or_prefix_of_prefix hp htp with h | h
    · exact hpt (allTags_free pat hpat t ht h)
    · exact hpt (allTags_free t ht pat hpat h).symm

theorem atoms_count (pat l ts) (hpat : pat ∈ allTags) (h : Atoms l ts) :
    occs pat l = ts.count pat := by
  induction h with
  | nil => rfl
  | ch hc _ ih => rw [occs_cons_ne pat _ _ (allTags_start pat hpat) hc, ih]
  | tag htm hprev ih =>
    rename_i t l2 ts2
    rw [occs_tag pat _ _ hpat (bodyTags_sub _ htm), ih]
    by_cases hpt : pat = t
    · subst hpt
      rw [if_pos rfl]
      simp only [List.count_cons]
      simp
      omega
    · rw [if_neg hpt]
      simp [List.count_cons, Ne.symm hpt]

theorem atoms_append {a b : List Char} {ta tb : List (List Char)}
    (ha : Atoms a ta) (hb : Atoms b tb) : Atoms (a ++ b) (ta ++ tb) := by
  induction ha with
  | nil => simpa using hb
  | ch hc _ ih => exact Atoms.ch hc ih
  | tag htm _ ih =>
    rw [List.append_assoc]
    exact Atoms.tag htm ih

theorem atoms_tags_mem {l : List Char} {ts : List (List Char)}
    (h : Atoms l ts) : ∀ t ∈ ts, t ∈ bodyTags := by
  induction h with
  | nil => simp
  | ch _ _ ih => exact ih
  | tag htm _ ih =>
    intro t ht
    rcases List.mem_cons.mp ht with rfl | ht
    · assumption
    · exact ih t ht

theorem clean_skip {T : List (List Char)} (m l : List Char)
    (hm : ∀ c ∈ m, c ≠ '<') (hl : clean T l = true) : clean T (m ++ l) = true := by
  induction m with
  | nil => simpa using hl
  | cons c m' ih =>
    rw [List.cons_append]
    simp only [clean, Bool.and_eq_true]
    constructor
    · have : (c != '<') = true := by
        simp [bne_iff_ne]
        exact hm c (by simp)
      simp [this]
    · exact ih (fun d hd => hm d (by simp [hd]))

theorem clean_of_no_lt {T : List (List Char)} (l : List Char)
    (hl : ∀ c ∈ l, c ≠ '<') : clean T l = true := by
  have := clean_skip (T := T) l [] hl rfl
  simpa using this

theorem atoms_clean {l : List Char} {ts : List (List Char)}
    (h : Atoms l ts) : clean allTags l = true := by
  induction h with
  | nil => rfl
  | ch hc hprev ih =>
    rename_i c l2 ts2
    simp only [clean, Bool.and_eq_true]
    refine ⟨?_, ih⟩
    have hcb : (c != '<') = true := by simpa [bne_iff_ne] using hc
    simp [hcb]
  | tag htm hrest ih =>
    rename_i t l' ts'
    have ht : t ∈ allTags := bodyTags_sub _ htm
    have hsh := allTags_start t ht
    conv_lhs => rw [hsh, List.cons_append]
    simp only [clean, Bool.and_eq_true]
    constructor
    · have : anyPrefix allTags ('<' :: (t.tail ++ l')) = true := by
        rw [← List.cons_append, ← hsh]
        simp only [anyPrefix, List.any_eq_true]
        exact ⟨t, ht, List.isPrefixOf_iff_prefix.mpr (List.prefix_append _ _)⟩
      simp [this]
    · exact clean_skip t.tail l' (allTags_tail_no_lt t ht) ih

theorem occs_append_clean (pat a b : List Char) (hpat : pat ∈ allTags)
    (ha : clean allTags a = true) :
    occs pat (a ++ b) = occs pat a + occs pat b := by
  induction a with
  | nil => simp [occs]
  | cons c a' ih =>
    simp only [clean, Bool.and_eq_true] at ha
    obtain ⟨h1, h2⟩ := ha
    simp only [List.cons_append, occs, List.append_eq]
    rw [ih h2]
    have heq : (if pat.isPrefixOf (c :: (a' ++ b)) then 1 else 0) =
        (if pat.isPrefixOf (c :: a') then 1 else 0) := by
      by_cases hp : pat.isPrefixOf (c :: a') = true
      · rw [if_pos hp, if_pos]
        have := (List.isPrefixOf_iff_prefix.mp hp).trans
          (List.prefix_append (c :: a') b)
        exact List.isPrefixOf_iff_prefix.mpr (by simpa using this)
      · rw [if_neg hp, if_neg]
        intro hq
        have hqp := List.isPrefixOf_iff_prefix.mp hq
        by_cases hc : c = '<'
        · have h1' : anyPrefix allTags (c :: a') = true := by
            rcases Bool.or_eq_true _ _ |>.mp h1 with h | h
            · exact absurd (by simpa [bne_iff_ne] using h) (by simp [hc])
            · exact h
          simp only [anyPrefix, List.any_eq_true] at h1'
          obtain ⟨t, htmem, htpre⟩ := h1'
          have htp := (List.isPrefixOf_iff_prefix.mp htpre).trans
            (List.prefix_append (c :: a') b)
          rcases List.prefix_or_prefix_of_prefix hqp htp with h | h
          · have := allTags_free pat hpat t htmem h
            subst this
            exact hp htpre
          · have := allTags_free t htmem pat hpat h
            subst this
            exact hp htpre
        · have hsh := allTags_start pat hpat
          rw [hsh] at hqp
          exact hc (List.cons_prefix_cons.mp hqp).1.symm
    rw [heq, Nat.add_assoc]

theorem atoms_chs (l : List Char) (hl : ∀ c ∈ l, c ≠ '<') : Atoms l [] := by
  induction l with
  | nil => exact Atoms.nil
  | cons c rest ih =>
    exact Atoms.ch (hl c (by simp)) (ih (fun d hd => hl d (by simp [hd])))

theorem boldConv_cons_ne (c : Char) (rest : List Char) (hc : c ≠ '*') :
    boldConv (c :: rest) = c :: boldConv rest := by
  rw [boldConv.eq_def]
  split
  · simp_all
  · next heq => simp_all
  · next heq =>
    obtain ⟨rfl, rfl⟩ := List.cons.inj heq
    rfl

theorem boldConv_star_one (rest : List Char) (h : rest.head? ≠ some '*') :
    boldConv ('*' :: rest) = '*' :: boldConv rest := by
  rw [boldConv.eq_def]
  split
  · simp_all
  · next heq =>
    obtain ⟨-, rfl⟩ := List.cons.inj heq
    exact absurd rfl h
  · next heq =>
    obtain ⟨rfl, rfl⟩ := List.cons.inj heq
    rfl

theorem boldConv_star_some (rest p) (h : findClose rest = some p) :
    boldConv ('*' :: '*' :: rest) =
      "<strong>".data ++ p.1 ++ "</strong>".data ++ boldConv p.2 := by
  rw [boldConv.eq_def]
  split
  · rename_i hp'
    simp at hp'
  · rename_i l2 rest2 hn
    obtain ⟨-, h2⟩ := List.cons.inj hn
    obtain ⟨-, h3⟩ := List.cons.inj h2
    subst h3
    split
    · rename_i p' hp'
      rw [h] at hp'
      obtain rfl := Option.some.inj hp'
      simp
    · rename_i hn2
      rw [h] at hn2
      simp at hn2
  · rename_i l2 c2 rest2 x heq
    obtain ⟨h1, h2⟩ := List.cons.inj heq
    exact ((x rest h1.symm h2.symm).elim)

theorem boldConv_star_none (rest) (h : findClose rest = none) :
    boldConv ('*' :: '*' :: rest) = '*' :: boldConv ('*' :: rest) := by
  rw [boldConv.eq_def]
  split
  · rename_i hp'
    simp at hp'
  · rename_i l2 rest2 hn
    obtain ⟨-, h2⟩ := List.cons.inj hn
    obtain ⟨-, h3⟩ := List.cons.inj h2
    subst h3
    split
    · rename_i p' hp'
      rw [h] at hp'
      simp at hp'
    · rfl
  · rename_i l2 c2 rest2 x heq
    obtain ⟨h1, h2⟩ := List.cons.inj heq
    exact ((x rest h1.symm h2.symm).elim)

theorem boldConv_starFree (l : List Char) (hl : ∀ c ∈ l, c ≠ '*') :
    boldConv l = l := by
  induction l with
  | nil => rw [boldConv.eq_def]
  | cons c rest ih =>
    rw [boldConv_cons_ne c rest (hl c (by simp)),
      ih (fun d hd => hl d (by simp [hd]))]

theorem boldConv_starFree_prefix (x r : List Char) (hx : ∀ c ∈ x, c ≠ '*') :
    boldConv (x ++ r) = x ++ boldConv r := by
  induction x with
  | nil => rfl
  | cons c x' ih =>
    rw [List.cons_append, boldConv_cons_ne c _ (hx c (by simp)),
      ih (fun d hd => hx d (by simp [hd]))]
    rfl

theorem bold_decomp : ∀ (n : Nat) (m y : List Char), m.length ≤ n →
    (∀ c ∈ m, c ≠ '<') → (∀ c ∈ y, c ≠ '*') →
    ∃ out ts, boldConv (m ++ y) = out ++ y ∧ Atoms out ts ∧
      ts.count "<strong>".data = ts.count "</strong>".data ∧
      ∀ t ∈ ts, t = "<strong>".data ∨ t = "</strong>".data := by
  intro n
  induction n with
  | zero =>
    intro m y hlen hm hy
    have hme : m = [] := List.length_eq_zero.mp (Nat.le_zero.mp hlen)
    subst hme
    exact ⟨[], [], by simpa using boldConv_starFree y hy, Atoms.nil, rfl, by simp⟩
  | succ n ihn =>
    intro m y hlen hm hy
    rcases m with _ | ⟨c, m1⟩
    · exact ⟨[], [], by simpa using boldConv_starFree y hy, Atoms.nil, rfl, by simp⟩
    · by_cases hc : c = '*'
      · subst hc
        rcases m1 with _ | ⟨c2, m2⟩
        · have hhead : y.head? ≠ some '*' := by
            cases y with
            | nil => simp
            | cons d ys =>
              simp only [List.head?]
              intro hcon
              exact hy d (by simp) (by simpa using hcon)
          refine ⟨['*'], [], ?_, Atoms.ch (by decide) Atoms.nil, rfl, by simp⟩
          rw [show (['*'] : List Char) ++ y = '*' :: y from rfl,
            boldConv_star_one y hhead, boldConv_starFree y hy]
        · by_cases hc2 : c2 = '*'
          · subst hc2
            rcases hfc : findClose (m2 ++ y) with _ | p
            · obtain ⟨out, ts, heq, hat, hbal, hmem⟩ :=
                ihn ('*' :: m2) y
                  (by simp only [List.length_cons] at hlen ⊢; omega)
                  (fun d hd => hm d (by
                    rcases List.mem_cons.mp hd with rfl | hd2
                    · simp
                    · simp [hd2]))
                  hy
              refine ⟨'*' :: out, ts, ?_, Atoms.ch (by decide) hat, hbal, hmem⟩
              rw [show ('*' :: '*' :: m2) ++ y = '*' :: '*' :: (m2 ++ y) from rfl,
                boldConv_star_none _ hfc,
                show ('*' :: (m2 ++ y)) = ('*' :: m2) ++ y from rfl, heq]
              rfl
            · obtain ⟨hdec, hne⟩ := findClose_eq _ p hfc
              have hkm : p.1.length + 2 ≤ m2.length := by
                by_contra hcon
                push_neg at hcon
                rcases Nat.lt_or_ge m2.length (p.1.length + 1) with h1 | h1
                · have hdrop := congrArg (List.drop m2.length) hdec
                  rw [List.drop_left] at hdrop
                  rw [List.drop_append_of_le_length (by omega)] at hdrop
                  have : '*' ∈ y := by rw [hdrop]; simp
                  exact hy '*' this rfl
                · have h2 : m2.length = p.1.length + 1 := by omega
                  have hdrop := congrArg (List.drop (p.1.length + 1)) hdec
                  rw [← h2, List.drop_left, h2, List.drop_append 1] at hdrop
                  have : '*' ∈ y := by rw [hdrop]; simp
                  exact hy '*' this rfl
              have hp1 : p.1 = m2.take p.1.length := by
                have h3 := congrArg (List.take p.1.length) hdec
                rw [List.take_append_of_le_length (by omega),
                  List.take_append_of_le_length (Nat.le_refl _),
                  List.take_length] at h3
                exact h3.symm
              have hp2 : p.2 = m2.drop (p.1.length + 2) ++ y := by
                have h3 := congrArg (List.drop (p.1.length + 2)) hdec
                rw [List.drop_append_of_le_length (by omega),
                  List.drop_append 2] at h3
                simpa using h3.symm
              obtain ⟨out, ts, heq, hat, hbal, hmem⟩ :=
                ihn (m2.drop (p.1.length + 2)) y
                  (by
                    have hd := List.length_drop (p.1.length + 2) m2
                    simp only [List.length_cons] at hlen
                    omega)
                  (fun d hd => hm d (by
                    have := List.mem_of_mem_drop hd
                    simp [this]))
                  hy
              refine ⟨"<strong>".data ++ p.1 ++ "</strong>".data ++ out,
                "<strong>".data :: "</strong>".data :: ts, ?_, ?_, ?_, ?_⟩
              · rw [show ('*' :: '*' :: m2) ++ y = '*' :: '*' :: (m2 ++ y) from rfl,
                  boldConv_star_some _ _ hfc, hp2, heq]
                simp [List.append_assoc]
              · have hchars : ∀ d ∈ p.1, d ≠ '<' := by
                  intro d hd
                  rw [hp1] at hd
                  exact hm d (by simp [List.mem_of_mem_take hd])
                have hA1 : Atoms ("</strong>".data ++ out) ("</strong>".data :: ts) :=
                  Atoms.tag (by decide) hat
                have hA2 := atoms_append (atoms_chs p.1 hchars) hA1
                have hA3 : Atoms ("<strong>".data ++ (p.1 ++ ("</strong>".data ++ out)))
                    ("<strong>".data :: "</strong>".data :: ts) := by
                  have := Atoms.tag (t := "<strong>".data) (by decide) hA2
                  simpa using this
                simpa [List.append_assoc] using hA3
              · have e2 : ("<strong>".data == "</strong>".data) = false := by decide
                have e3 : ("</strong>".data == "<strong>".data) = false := by decide
                simp [List.count_cons, e2, e3]
                simp at hbal
                omega
              · intro t ht
                rcases List.mem_cons.mp ht with rfl | ht2
                · exact Or.inl rfl
                · rcases List.mem_cons.mp ht2 with rfl | ht3
                  · exact Or.inr rfl
                  · exact hmem t ht3
          · obtain ⟨out, ts, heq, hat, hbal, hmem⟩ :=
              ihn (c2 :: m2) y
                (by simp only [List.length_cons] at hlen ⊢; omega)
                (fun d hd => hm d (by
                  rcases List.mem_cons.mp hd with rfl | hd2
                  · simp
                  · simp [hd2]))
                hy
            refine ⟨'*' :: out, ts, ?_, Atoms.ch (by decide) hat, hbal, hmem⟩
            rw [show ('*' :: c2 :: m2) ++ y = '*' :: ((c2 :: m2) ++ y) from rfl,
              boldConv_star_one _ (by simp [hc2]), heq]
            rfl
      · obtain ⟨out, ts, heq, hat, hbal, hmem⟩ :=
          ihn m1 y
            (by simp only [List.length_cons] at hlen; omega)
            (fun d hd => hm d (by simp [hd]))
            hy
        refine ⟨c :: out, ts, ?_, Atoms.ch (hm c (by simp)) hat, hbal, hmem⟩
        rw [show (c :: m1) ++ y = c :: (m1 ++ y) from rfl, boldConv_cons_ne c _ hc, heq]
        rfl

/-- The six open/close balance equations of the claim, over a tag
sequence. -/
def BalTs (ts : List (List Char)) : Prop :=
  ts.count "<h1>".data = ts.count "</h1>".data ∧
  ts.count "<h2>".data = ts.count "</h2>".data ∧
  ts.count "<h3>".data = ts.count "</h3>".data ∧
  ts.count "<strong>".data = ts.count "</strong>".data ∧
  ts.count "<ul>".data = ts.count "</ul>".data ∧
  ts.count "<li>".data = ts.count "</li>".data

/-- A line that decomposes into atoms with balanced tags. -/
def GoodLine (l : List Char) : Prop := ∃ ts, Atoms l ts ∧ BalTs ts

theorem BalTs_nil : BalTs [] := by simp [BalTs]

theorem BalTs_append {a b : List (List Char)} (ha : BalTs a) (hb : BalTs b) :
    BalTs (a ++ b) := by
  simp only [BalTs, List.count_append] at *
  omega

theorem strongOnly_bal (ts : List (List Char))
    (hbal : ts.count "<strong>".data = ts.count "</strong>".data)
    (hmem : ∀ t ∈ ts, t = "<strong>".data ∨ t = "</strong>".data) : BalTs ts := by
  have z : ∀ pat : List Char, pat ≠ "<strong>".data → pat ≠ "</strong>".data →
      ts.count pat = 0 := by
    intro pat h1 h2
    refine List.count_eq_zero.mpr ?_
    intro hmem2
    rcases hmem pat hmem2 with rfl | rfl
    · exact h1 rfl
    · exact h2 rfl
  refine ⟨?_, ?_, ?_, hbal, ?_, ?_⟩ <;>
    rw [z _ (by decide) (by decide), z _ (by decide) (by decide)]

theorem BalTs_wrap (o c : List Char) (ts : List (List Char)) (hts : BalTs ts)
    (hoc : (o = "<h1>".data ∧ c = "</h1>".data) ∨ (o = "<h2>".data ∧ c = "</h2>".data) ∨
      (o = "<h3>".data ∧ c = "</h3>".data) ∨ (o = "<li>".data ∧ c = "</li>".data) ∨
      (o = "<p>".data ∧ c = "</p>".data)) :
    BalTs (o :: ts ++ [c]) := by
  rcases hoc with ⟨rfl, rfl⟩ | ⟨rfl, rfl⟩ | ⟨rfl, rfl⟩ | ⟨rfl, rfl⟩ | ⟨rfl, rfl⟩ <;>
    (simp [BalTs, List.count_cons, List.count_append] at hts ⊢; omega)

theorem atoms_inv_aux {L : List Char} {ts : List (List Char)} (h : Atoms L ts) :
    ∀ c l, L = c :: l → c ≠ '<' → Atoms l ts := by
  cases h with
  | nil =>
    intro c l hL hc
    exact absurd hL (by simp)
  | ch hc2 h2 =>
    intro c l hL hc
    obtain ⟨-, rfl⟩ := List.cons.inj hL
    exact h2
  | tag htm h2 =>
    intro c l hL hc
    rename_i t l' ts'
    have hsh := allTags_start t (bodyTags_sub t htm)
    rw [hsh] at hL
    have hhd := (List.cons.inj (by simpa using hL)).1
    exact absurd hhd.symm hc

theorem atoms_cons_inv (c : Char) (l : List Char) (ts : List (List Char))
    (h : Atoms (c :: l) ts) (hc : c ≠ '<') : Atoms l ts :=
  atoms_inv_aux h c l rfl hc

theorem plain_bold_good (m : List Char) (hm : ∀ c ∈ m, c ≠ '<') :
    GoodLine (boldConv m) := by
  obtain ⟨out, ts, heq, hat, hbal, hmem⟩ :=
    bold_decomp m.length m [] (Nat.le_refl _) hm (by simp)
  have heq2 : boldConv m = out := by simpa using heq
  rw [heq2]
  exact ⟨ts, hat, strongOnly_bal ts hbal hmem⟩

theorem header_wrap_good (rest o c : List Char)
    (hrest : ∀ d ∈ rest, d ≠ '<')
    (ho : o ∈ bodyTags) (hc : c ∈ bodyTags)
    (hostar : ∀ d ∈ o, d ≠ '*') (hcstar : ∀ d ∈ c, d ≠ '*')
    (hoc : (o = "<h1>".data ∧ c = "</h1>".data) ∨ (o = "<h2>".data ∧ c = "</h2>".data) ∨
      (o = "<h3>".data ∧ c = "</h3>".data) ∨ (o = "<li>".data ∧ c = "</li>".data) ∨
      (o = "<p>".data ∧ c = "</p>".data)) :
    GoodLine (boldConv (o ++ rest ++ c)) := by
  rw [List.append_assoc, boldConv_starFree_prefix o _ hostar]
  obtain ⟨out, ts, heq, hat, hbal, hmem⟩ :=
    bold_decomp rest.length rest c (Nat.le_refl _) hrest hcstar
  rw [heq]
  refine ⟨o :: (ts ++ [c]), ?_, ?_⟩
  · have hA1 : Atoms c [c] := by
      have := Atoms.tag (t := c) hc Atoms.nil
      simpa using this
    exact Atoms.tag ho (atoms_append hat hA1)
  · exact BalTs_wrap o c ts (strongOnly_bal ts hbal hmem) hoc

theorem header_bold_good (l : List Char) (hl : ∀ c ∈ l, c ≠ '<') :
    GoodLine (boldConv (convertHeaderLine l)) := by
  unfold convertHeaderLine
  split
  · rename_i rest
    split
    · exact plain_bold_good _ hl
    · exact header_wrap_good rest _ _ (fun d hd => hl d (by simp [hd]))
        (by decide) (by decide) (by decide) (by decide)
        (Or.inr (Or.inr (Or.inl ⟨rfl, rfl⟩)))
  · rename_i rest
    split
    · exact plain_bold_good _ hl
    · exact header_wrap_good rest _ _ (fun d hd => hl d (by simp [hd]))
        (by decide) (by decide) (by decide) (by decide)
        (Or.inr (Or.inl ⟨rfl, rfl⟩))
  · rename_i rest
    split
    · exact plain_bold_good _ hl
    · exact header_wrap_good rest _ _ (fun d hd => hl d (by simp [hd]))
        (by decide) (by decide) (by decide) (by decide)
        (Or.inl ⟨rfl, rfl⟩)
  · exact plain_bold_good _ hl

theorem convertListLine_good (L : List Char) (h : GoodLine L) :
    GoodLine (convertListLine L) := by
  obtain ⟨ts, hat, hbal⟩ := h
  unfold convertListLine
  split
  · rename_i rest
    split
    · exact ⟨ts, hat, hbal⟩
    · have h1 := atoms_cons_inv _ _ _ hat (by decide)
      have h2 := atoms_cons_inv _ _ _ h1 (by decide)
      refine ⟨"<li>".data :: (ts ++ ["</li>".data]), ?_, ?_⟩
      · have hA1 : Atoms "</li>".data ["</li>".data] := by
          have := Atoms.tag (t := "</li>".data) (by decide) Atoms.nil
          simpa using this
        have := Atoms.tag (t := "<li>".data) (by decide) (atoms_append h2 hA1)
        simpa [List.append_assoc] using this
      · exact BalTs_wrap _ _ ts hbal (Or.inr (Or.inr (Or.inr (Or.inl ⟨rfl, rfl⟩))))
  · exact ⟨ts, hat, hbal⟩

theorem atoms_dropWhile {l : List Char} {ts : List (List Char)} (h : Atoms l ts) :
    Atoms (l.dropWhile Char.isWhitespace) ts := by
  induction h with
  | nil => exact Atoms.nil
  | ch hc h2 ih =>
    rw [List.dropWhile_cons]
    split
    · exact ih
    · exact Atoms.ch hc h2
  | tag htm h2 ih =>
    rename_i t l' ts'
    have hsh := allTags_start t (bodyTags_sub t htm)
    have hred : (t ++ l').dropWhile Char.isWhitespace = t ++ l' := by
      conv_lhs => rw [hsh, List.cons_append, List.dropWhile_cons]
      have hws : ('<' : Char).isWhitespace = false := by decide
      rw [hws]
      simp only [Bool.false_eq_true, if_false]
      conv_rhs => rw [hsh]
      rfl
    rw [hred]
    exact Atoms.tag htm h2

theorem atoms_ws_suffix_aux {L : List Char} {ts : List (List Char)} (h : Atoms L ts) :
    ∀ a s, L = a ++ s → (∀ c ∈ s, c.isWhitespace = true) → Atoms a ts := by
  induction h with
  | nil =>
    intro a s hL hs
    obtain ⟨rfl, rfl⟩ := List.append_eq_nil.mp hL.symm
    exact Atoms.nil
  | ch hc h2 ih =>
    rename_i c l' ts'
    intro a s hL hs
    rcases a with _ | ⟨d, a'⟩
    · have hseq : s = c :: l' := by simpa using hL.symm
      subst hseq
      exact ih [] l' rfl (fun e he => hs e (by simp [he]))
    · rw [List.cons_append] at hL
      obtain ⟨rfl, h3⟩ := List.cons.inj hL
      exact Atoms.ch hc (ih a' s h3 hs)
  | tag htm h2 ih =>
    rename_i t l' ts'
    intro a s hL hs
    rcases a with _ | ⟨d, a'⟩
    · exfalso
      have hsh := allTags_start t (bodyTags_sub t htm)
      have hmem : '<' ∈ s := by
        have hseq : s = t ++ l' := by simpa using hL.symm
        rw [hseq, hsh]
        simp
      exact absurd (hs '<' hmem) (by decide)
    · by_cases hlen : t.length ≤ (d :: a').length
      · have h3 := congrArg (List.take t.length) hL
        rw [List.take_left, List.take_append_of_le_length hlen] at h3
        have h4 := congrArg (List.drop t.length) hL
        rw [List.drop_left, List.drop_append_of_le_length hlen] at h4
        have h5 : d :: a' = t ++ (d :: a').drop t.length := by
          conv_lhs => rw [← List.take_append_drop t.length (d :: a')]
          rw [← h3]
        rw [h5]
        exact Atoms.tag htm (ih ((d :: a').drop t.length) s h4 hs)
      · exfalso
        push_neg at hlen
        have hslen : 1 ≤ s.length := by
          have := congrArg List.length hL
          simp only [List.length_append] at this
          omega
        rcases s with _ | ⟨c0, s'⟩
        · simp at hslen
        · have hta : t = (d :: a') ++ (c0 :: s').take (t.length - (d :: a').length) := by
            have h6 := congrArg (List.take t.length) hL
            rw [List.take_left, List.take_append_eq_append_take,
              List.take_of_length_le (by omega)] at h6
            exact h6
          have hmem : c0 ∈ t := by
            rw [hta]
            have hpos : 1 ≤ t.length - (d :: a').length := by omega
            rcases Nat.exists_eq_add_of_le hpos with ⟨k, hk⟩
            rw [hk, Nat.add_comm 1 k, List.take_succ_cons]
            simp
          exact absurd (hs c0 (by simp)) (by
            rw [bodyTags_no_ws t htm c0 hmem]
            simp)
  
theorem stripChars_atoms {l : List Char} {ts : List (List Char)} (h : Atoms l ts) :
    Atoms (stripChars l) ts := by
  unfold stripChars
  have h1 := atoms_dropWhile h
  set m := l.dropWhile Char.isWhitespace with hm
  have hsplit : m = (m.reverse.dropWhile Char.isWhitespace).reverse ++
      (m.reverse.takeWhile Char.isWhitespace).reverse := by
    rw [← List.reverse_append, ← List.takeWhile_append_dropWhile (p := Char.isWhitespace)
      (l := m.reverse)]
    simp
  have hws : ∀ c ∈ (m.reverse.takeWhile Char.isWhitespace).reverse,
      c.isWhitespace = true := by
    intro c hc
    rw [List.mem_reverse] at hc
    exact List.mem_takeWhile_imp hc
  exact atoms_ws_suffix_aux h1 _ _ hsplit hws

theorem pline_good (l : List Char) (h : GoodLine l) : GoodLine (pline l) := by
  obtain ⟨ts, hat, hbal⟩ := h
  have hstrip := stripChars_atoms hat
  simp only [pline]
  split
  · refine ⟨"<p>".data :: (ts ++ ["</p>".data]), ?_, ?_⟩
    · have hA1 : Atoms "</p>".data ["</p>".data] := by
        have := Atoms.tag (t := "</p>".data) (by decide) Atoms.nil
        simpa using this
      have := Atoms.tag (t := "<p>".data) (by decide) (atoms_append hstrip hA1)
      simpa [List.append_assoc] using this
    · exact BalTs_wrap _ _ ts hbal (Or.inr (Or.inr (Or.inr (Or.inr ⟨rfl, rfl⟩))))
  · exact ⟨ts, hstrip, hbal⟩

/-- Per-line atom decompositions for a list of lines. -/
inductive LA : List (List Char) → List (List (List Char)) → Prop where
  | nil : LA [] []
  | cons {l : List Char} {ls : List (List Char)} {ts : List (List Char)}
      {tss : List (List (List Char))} :
      Atoms l ts → LA ls tss → LA (l :: ls) (ts :: tss)

theorem LA_append {xs ys : List (List Char)} {tss uss : List (List (List Char))}
    (hx : LA xs tss) (hy : LA ys uss) : LA (xs ++ ys) (tss ++ uss) := by
  induction hx with
  | nil => simpa using hy
  | cons hA _ ih => exact LA.cons hA ih

theorem join_LA {ls : List (List Char)} {tss : List (List (List Char))}
    (h : LA ls tss) : Atoms (joinLines ls) tss.flatten := by
  induction h with
  | nil => exact Atoms.nil
  | cons hA hrest ih =>
    rename_i l ls' ts tss'
    rcases ls' with _ | ⟨l2, ls''⟩
    · cases hrest
      simpa using hA
    · have hstep := atoms_append hA (Atoms.ch (c := '\n') (by decide) ih)
      simpa using hstep

theorem plines_LA : ∀ ls : List (List Char), (∀ l ∈ ls, GoodLine l) →
    ∃ tss, LA (ls.map pline) tss ∧ BalTs tss.flatten := by
  intro ls
  induction ls with
  | nil => exact fun _ => ⟨[], LA.nil, BalTs_nil⟩
  | cons l ls' ih =>
    intro h
    obtain ⟨ts, hA, hB⟩ := pline_good l (h l (by simp))
    obtain ⟨tss, hLA, hBB⟩ := ih (fun x hx => h x (by simp [hx]))
    exact ⟨ts :: tss, LA.cons hA hLA, by simpa using BalTs_append hB hBB⟩

theorem takeLiRun_append (ls : List (List Char)) :
    (takeLiRun ls).1 ++ (takeLiRun ls).2 = ls := by
  induction ls with
  | nil => rfl
  | cons l rest ih =>
    rw [takeLiRun]
    split
    · simpa using ih
    · simp

theorem wrapLA : ∀ (n : Nat) (ls : List (List Char)), ls.length ≤ n →
    (∀ l ∈ ls, GoodLine l) →
    ∃ tss, LA ((wrapLiRuns ls).map pline) tss ∧ BalTs tss.flatten := by
  intro n
  induction n with
  | zero =>
    intro ls hlen h
    have : ls = [] := List.length_eq_zero.mp (Nat.le_zero.mp hlen)
    subst this
    have hred : wrapLiRuns [] = [] := by rw [wrapLiRuns.eq_def]
    rw [hred]
    exact ⟨[], LA.nil, BalTs_nil⟩
  | succ n ihn =>
    intro ls hlen h
    rcases ls with _ | ⟨l, rest⟩
    · have hred : wrapLiRuns [] = [] := by rw [wrapLiRuns.eq_def]
      rw [hred]
      exact ⟨[], LA.nil, BalTs_nil⟩
    · by_cases hcond : (isLiLine l && !rest.isEmpty) = true
      · have hred : wrapLiRuns (l :: rest) = "<ul>".data :: l ::
            ((takeLiRun rest).1 ++ "</ul>".data :: wrapLiRuns (takeLiRun rest).2) := by
          rw [wrapLiRuns.eq_def]
          dsimp only
          rw [if_pos hcond]
        have hrun_sub : ∀ x ∈ (takeLiRun rest).1, x ∈ rest := by
          intro x hx
          have hsplit := takeLiRun_append rest
          rw [← hsplit]
          exact List.mem_append.mpr (Or.inl hx)
        have hrem_sub : ∀ x ∈ (takeLiRun rest).2, x ∈ rest := by
          intro x hx
          have hsplit := takeLiRun_append rest
          rw [← hsplit]
          exact List.mem_append.mpr (Or.inr hx)
        obtain ⟨ts_l, hA_l, hB_l⟩ := pline_good l (h l (by simp))
        obtain ⟨tssRun, hLARun, hBRun⟩ :=
          plines_LA (takeLiRun rest).1 (fun x hx => h x (by simp [hrun_sub x hx]))
        obtain ⟨tssRem, hLARem, hBRem⟩ :=
          ihn (takeLiRun rest).2
            (by
              have := takeLiRun_len rest
              simp only [List.length_cons] at hlen
              omega)
            (fun x hx => h x (by simp [hrem_sub x hx]))
        have hUL : Atoms "<ul>".data ["<ul>".data] := by
          have := Atoms.tag (t := "<ul>".data) (by decide) Atoms.nil
          simpa using this
        have hULc : Atoms "</ul>".data ["</ul>".data] := by
          have := Atoms.tag (t := "</ul>".data) (by decide) Atoms.nil
          simpa using this
        refine ⟨["<ul>".data] :: ts_l :: (tssRun ++ ["</ul>".data] :: tssRem), ?_, ?_⟩
        · rw [hred]
          simp only [List.map_cons, List.map_append]
          rw [show pline "<ul>".data = "<ul>".data from rfl,
            show pline "</ul>".data = "</ul>".data from rfl]
          exact LA.cons (by simpa using hUL) (LA.cons hA_l
            (LA_append hLARun (LA.cons (by simpa using hULc) hLARem)))
        · simp only [List.flatten_cons, List.flatten_append]
          simp only [BalTs, List.count_append, List.count_cons, List.count_nil] at hB_l hBRun hBRem ⊢
          simp at hB_l hBRun hBRem ⊢
          omega
      · have hred : wrapLiRuns (l :: rest) = l :: wrapLiRuns rest := by
          rw [wrapLiRuns.eq_def]
          dsimp only
          rw [if_neg hcond]
        obtain ⟨ts_l, hA_l, hB_l⟩ := pline_good l (h l (by simp))
        obtain ⟨tss, hLA, hB⟩ :=
          ihn rest (by simp only [List.length_cons] at hlen; omega)
            (fun x hx => h x (by simp [hx]))
        refine ⟨ts_l :: tss, ?_, ?_⟩
        · rw [hred]
          simp only [List.map_cons]
          exact LA.cons hA_l hLA
        · simpa using BalTs_append hB_l hB

theorem splitLines_cons_ne (a : Char) (r : List Char) (ha : a ≠ '\n') :
    splitLines (a :: r) = match splitLines r with
      | [] => [[a]]
      | x :: xs => (a :: x) :: xs := by
  rw [splitLines.eq_def]
  split
  · rename_i heq
    exact absurd heq (by simp)
  · rename_i r2 heq
    obtain ⟨h1, -⟩ := List.cons.inj heq
    exact absurd h1 ha
  · rename_i c r2 hno heq
    obtain ⟨rfl, rfl⟩ := List.cons.inj heq
    rfl

theorem splitLines_no_lt : ∀ (t : List Char), (∀ c ∈ t, c ≠ '<') →
    ∀ l ∈ splitLines t, ∀ c ∈ l, c ≠ '<' := by
  intro t
  induction t with
  | nil =>
    intro ht l hl c hc
    simp [splitLines] at hl
    subst hl
    simp at hc
  | cons a r ih =>
    intro ht l hl c hc
    by_cases ha : a = '\n'
    · subst ha
      have hred : splitLines ('\n' :: r) = [] :: splitLines r := rfl
      rw [hred] at hl
      rcases List.mem_cons.mp hl with rfl | hl2
      · simp at hc
      · exact ih (fun d hd => ht d (by simp [hd])) l hl2 c hc
    · rw [splitLines_cons_ne a r ha] at hl
      rcases hsp : splitLines r with _ | ⟨x, xs⟩
      · rw [hsp] at hl
        simp at hl
        subst hl
        simp at hc
        subst hc
        exact ht _ (by simp)
      · rw [hsp] at hl
        rcases List.mem_cons.mp hl with rfl | hl2
        · rcases List.mem_cons.mp hc with rfl | hc2
          · exact ht c (by simp)
          · have hx : x ∈ splitLines r := by rw [hsp]; simp
            exact ih (fun d hd => ht d (by simp [hd])) x hx c hc2
        · have hxs : l ∈ splitLines r := by rw [hsp]; simp [hl2]
          exact ih (fun d hd => ht d (by simp [hd])) l hxs c hc

theorem convertBody_good (t : List Char) (ht : ∀ c ∈ t, c ≠ '<') :
    ∃ ts, Atoms (Privacy.convertBody t) ts ∧ BalTs ts := by
  unfold Privacy.convertBody
  have hgl : ∀ l ∈ (((splitLines t).map convertHeaderLine).map boldConv).map
      convertListLine, GoodLine l := by
    intro l hl
    simp only [List.mem_map] at hl
    obtain ⟨l1, ⟨l0, hl0, rfl⟩, rfl⟩ := hl
    obtain ⟨lz, hlz, rfl⟩ := hl0
    exact convertListLine_good _ (header_bold_good lz (splitLines_no_lt t ht lz hlz))
  obtain ⟨tss, hLA, hB⟩ := wrapLA
    ((((splitLines t).map convertHeaderLine).map boldConv).map convertListLine).length
    _ (Nat.le_refl _) hgl
  exact ⟨tss.flatten, join_LA hLA, hB⟩

theorem anyPrefix_mono {T : List (List Char)} (s b : List Char)
    (h : anyPrefix T s = true) : anyPrefix T (s ++ b) = true := by
  simp only [anyPrefix, List.any_eq_true] at h ⊢
  obtain ⟨t, ht, hp⟩ := h
  exact ⟨t, ht, List.isPrefixOf_iff_prefix.mpr
    ((List.isPrefixOf_iff_prefix.mp hp).trans (List.prefix_append s b))⟩

theorem clean_append {T : List (List Char)} (a b : List Char)
    (ha : clean T a = true) (hb : clean T b = true) : clean T (a ++ b) = true := by
  induction a with
  | nil => simpa using hb
  | cons c a2 ih =>
    simp only [clean, Bool.and_eq_true] at ha
    obtain ⟨h1, h2⟩ := ha
    rw [List.cons_append]
    simp only [clean, Bool.and_eq_true]
    refine ⟨?_, ih h2⟩
    rcases Bool.or_eq_true _ _ |>.mp h1 with h | h
    · simp [h]
    · have := anyPrefix_mono (c :: a2) b h
      simp only [List.cons_append] at this
      simp [this]

/-! ## C8 continued: the cookie and EULA converters

The same atom decomposition is extended to the cookie pipeline (table
rows, `|`-aware paragraph wrap) and the EULA pipeline (`*italic*`
emphasis, the stateful bullet loop, the blank-line paragraph
substitutions). -/

/-- The twelve tag strings of the six claimed open/close pairs. -/
def sixPairTags : List (List Char) :=
  ["<h1>".data, "</h1>".data, "<h2>".data, "</h2>".data, "<h3>".data, "</h3>".data,
   "<strong>".data, "</strong>".data, "<ul>".data, "</ul>".data, "<li>".data,
   "</li>".data]

/-- Two tag sequences with identical counts of the six claimed pairs. -/
def TagEq (ts2 ts : List (List Char)) : Prop :=
  ∀ pat ∈ sixPairTags, ts2.count pat = ts.count pat

theorem TagEq_refl (ts : List (List Char)) : TagEq ts ts := fun _ _ => rfl

theorem TagEq_trans {a b c : List (List Char)} (h1 : TagEq a b) (h2 : TagEq b c) :
    TagEq a c := fun pat hp => (h1 pat hp).trans (h2 pat hp)

theorem TagEq_bal {ts2 ts : List (List Char)} (he : TagEq ts2 ts) (hb : BalTs ts) :
    BalTs ts2 := by
  obtain ⟨b1, b2, b3, b4, b5, b6⟩ := hb
  refine ⟨?_, ?_, ?_, ?_, ?_, ?_⟩ <;>
    rw [he _ (by decide), he _ (by decide)] <;> assumption

theorem TagEq_cons (t : List Char) {ts2 ts : List (List Char)} (he : TagEq ts2 ts) :
    TagEq (t :: ts2) (t :: ts) := by
  intro pat hp
  rw [List.count_cons, List.count_cons, he pat hp]

theorem TagEq_cons_out (t : List Char) {ts2 ts : List (List Char)}
    (ht : t ∉ sixPairTags) (he : TagEq ts2 ts) : TagEq (t :: ts2) ts := by
  intro pat hp
  rw [List.count_cons, he pat hp, if_neg, Nat.add_zero]
  intro hb
  rw [beq_iff_eq] at hb
  exact ht (hb ▸ hp)

theorem TagEq_append {a b a2 b2 : List (List Char)} (ha : TagEq a2 a) (hb : TagEq b2 b) :
    TagEq (a2 ++ b2) (a ++ b) := by
  intro pat hp
  rw [List.count_append, List.count_append, ha pat hp, hb pat hp]

theorem bodyTags_no_star : ∀ t ∈ bodyTags, ∀ c ∈ t, c ≠ '*' := by decide

theorem bodyTags_no_bar : ∀ t ∈ bodyTags, ∀ c ∈ t, c ≠ '|' := by decide

theorem bodyTags_no_nl : ∀ t ∈ bodyTags, ∀ c ∈ t, c ≠ '\n' := by decide

theorem bodyTags_last_gt : ∀ t ∈ bodyTags, t.getLast? = some '>' := by decide

/-- Splitting an atom decomposition at an occurrence of a character that
appears in no tag. -/
theorem atoms_split_char {L : List Char} {ts : List (List Char)} (h : Atoms L ts)
    (sep : Char) (hsep : ∀ t ∈ bodyTags, ∀ c ∈ t, c ≠ sep) :
    ∀ a b, L = a ++ sep :: b →
      ∃ ts1 ts2, ts = ts1 ++ ts2 ∧ Atoms a ts1 ∧ Atoms b ts2 := by
  induction h with
  | nil =>
    intro a b hL
    exact absurd hL.symm (by simp)
  | ch hc h2 ih =>
    rename_i c l2 ts2
    intro a b hL
    rcases a with _ | ⟨d, a'⟩
    · simp only [List.nil_append] at hL
      obtain ⟨-, rfl⟩ := List.cons.inj hL
      exact ⟨[], ts2, rfl, Atoms.nil, h2⟩
    · rw [List.cons_append] at hL
      obtain ⟨rfl, h3⟩ := List.cons.inj hL
      obtain ⟨ts1, ts2x, rfl, hA1, hA2⟩ := ih a' b h3
      exact ⟨ts1, ts2x, rfl, Atoms.ch hc hA1, hA2⟩
  | tag htm h2 ih =>
    rename_i t l2 ts2
    intro a b hL
    by_cases hlen : t.length ≤ a.length
    · have h3 := congrArg (List.take t.length) hL
      rw [List.take_left, List.take_append_of_le_length hlen] at h3
      have h4 := congrArg (List.drop t.length) hL
      rw [List.drop_left, List.drop_append_of_le_length hlen] at h4
      obtain ⟨ts1, ts2x, rfl, hA1, hA2⟩ := ih (a.drop t.length) b h4
      refine ⟨t :: ts1, ts2x, rfl, ?_, hA2⟩
      have h5 : a = t ++ a.drop t.length := by
        conv_lhs => rw [← List.take_append_drop t.length a]
        rw [← h3]
      rw [h5]
      exact Atoms.tag htm hA1
    · exfalso
      push_neg at hlen
      have hta : t = a ++ (sep :: b).take (t.length - a.length) := by
        have h6 := congrArg (List.take t.length) hL
        rw [List.take_left, List.take_append_eq_append_take,
          List.take_of_length_le (by omega)] at h6
        exact h6
      have hmem : sep ∈ t := by
        rw [hta]
        have hpos : 1 ≤ t.length - a.length := by omega
        rcases Nat.exists_eq_add_of_le hpos with ⟨k, hk⟩
        rw [hk, Nat.add_comm 1 k, List.take_succ_cons]
        simp
      exact hsep t htm sep hmem rfl

theorem emConv_cons_ne (c : Char) (rest : List Char) (hc : c ≠ '*') :
    emConv (c :: rest) = c :: emConv rest := by
  rw [emConv.eq_def]
  split
  · simp_all
  · next heq => simp_all
  · next heq =>
    obtain ⟨rfl, rfl⟩ := List.cons.inj heq
    rfl

theorem emConv_star_some (rest p) (h : findCloseEm rest = some p) :
    emConv ('*' :: rest) = "<em>".data ++ p.1 ++ "</em>".data ++ emConv p.2 := by
  rw [emConv.eq_def]
  split
  · rename_i hp'
    simp at hp'
  · rename_i l2 rest2 hn
    obtain ⟨-, h3⟩ := List.cons.inj hn
    subst h3
    split
    · rename_i p' hp'
      rw [h] at hp'
      obtain rfl := Option.some.inj hp'
      simp
    · rename_i hn2
      rw [h] at hn2
      simp at hn2
  · rename_i l2 c2 rest2 x heq
    obtain ⟨h1, h2⟩ := List.cons.inj heq
    exact ((x h1.symm).elim)

theorem emConv_star_none (rest) (h : findCloseEm rest = none) :
    emConv ('*' :: rest) = '*' :: emConv rest := by
  rw [emConv.eq_def]
  split
  · rename_i hp'
    simp at hp'
  · rename_i l2 rest2 hn
    obtain ⟨-, h3⟩ := List.cons.inj hn
    subst h3
    split
    · rename_i p' hp'
      rw [h] at hp'
      simp at hp'
    · rfl
  · rename_i l2 c2 rest2 x heq
    obtain ⟨h1, h2⟩ := List.cons.inj heq
    exact ((x h1.symm).elim)

theorem emConv_starFree_prefix (x r : List Char) (hx : ∀ c ∈ x, c ≠ '*') :
    emConv (x ++ r) = x ++ emConv r := by
  induction x with
  | nil => rfl
  | cons c x' ih =>
    rw [List.cons_append, emConv_cons_ne c _ (hx c (by simp)),
      ih (fun d hd => hx d (by simp [hd]))]
    rfl

theorem atoms_nil_inv {L : List Char} {ts : List (List Char)} (h : Atoms L ts) :
    L = [] → ts = [] := by
  cases h with
  | nil => intro; rfl
  | ch hc h2 => intro hL; exact absurd hL (by simp)
  | tag htm h2 =>
    intro hL
    rename_i t l2 ts2
    have hsh := allTags_start t (bodyTags_sub t htm)
    rw [hsh] at hL
    exact absurd hL (by simp)

theorem emConv_atoms : ∀ (n : Nat) (l : List Char) (ts : List (List Char)),
    l.length ≤ n → Atoms l ts →
    ∃ ts2, Atoms (emConv l) ts2 ∧ TagEq ts2 ts := by
  intro n
  induction n with
  | zero =>
    intro l ts hlen h
    have hl : l = [] := List.length_eq_zero.mp (Nat.le_zero.mp hlen)
    subst hl
    have hts : ts = [] := atoms_nil_inv h rfl
    subst hts
    exact ⟨[], by rw [emConv.eq_def]; exact Atoms.nil, TagEq_refl []⟩
  | succ n ihn =>
    intro l ts hlen h
    cases h with
    | nil =>
      exact ⟨[], by rw [emConv.eq_def]; exact Atoms.nil, TagEq_refl []⟩
    | ch hc h2 =>
      rename_i c l2
      by_cases hstar : c = '*'
      · subst hstar
        rcases hfc : findCloseEm l2 with _ | p
        · obtain ⟨ts3, hA3, hE3⟩ :=
            ihn l2 ts (by simp only [List.length_cons] at hlen; omega) h2
          rw [emConv_star_none l2 hfc]
          exact ⟨ts3, Atoms.ch (by decide) hA3, hE3⟩
        · obtain ⟨hdec, -⟩ := findCloseEm_eq l2 p hfc
          obtain ⟨tsa, tsb, rfl, hAa, hAb⟩ :=
            atoms_split_char h2 '*' bodyTags_no_star p.1 p.2 hdec
          have hlen2 := findCloseEm_len l2 p hfc
          obtain ⟨tsb2, hAb2, hEb2⟩ :=
            ihn p.2 tsb (by
              simp only [List.length_cons] at hlen
              omega) hAb
          rw [emConv_star_some l2 p hfc]
          refine ⟨"<em>".data :: (tsa ++ "</em>".data :: tsb2), ?_, ?_⟩
          · have hAc : Atoms ("</em>".data ++ emConv p.2) ("</em>".data :: tsb2) :=
              Atoms.tag (by decide) hAb2
            have := Atoms.tag (t := "<em>".data) (by decide) (atoms_append hAa hAc)
            simpa [List.append_assoc] using this
          · exact TagEq_cons_out _ (by decide)
              (TagEq_append (TagEq_refl tsa) (TagEq_cons_out _ (by decide) hEb2))
      · obtain ⟨ts3, hA3, hE3⟩ :=
          ihn l2 ts (by simp only [List.length_cons] at hlen; omega) h2
        rw [emConv_cons_ne c l2 hstar]
        exact ⟨ts3, Atoms.ch hc hA3, hE3⟩
    | tag htm h2 =>
      rename_i t l2 ts2
      have ht1 : 1 ≤ t.length := by
        have := allTags_start t (bodyTags_sub t htm)
        rw [this]
        simp
      obtain ⟨ts3, hA3, hE3⟩ :=
        ihn l2 ts2 (by simp only [List.length_append] at hlen; omega) h2
      rw [show emConv (t ++ l2) = t ++ emConv l2 from
        emConv_starFree_prefix t l2 (bodyTags_no_star t htm)]
      exact ⟨t :: ts3, Atoms.tag htm hA3, TagEq_cons t hE3⟩

theorem pOpen_nil : pOpen [] = [] := by rw [pOpen.eq_def]

theorem pOpen_cons_ne (c : Char) (r : List Char) (hc : c ≠ '\n') :
    pOpen (c :: r) = c :: pOpen r := by
  rw [pOpen.eq_def]
  split
  · next heq => simp_all
  · next heq =>
    obtain ⟨rfl, rfl⟩ := List.cons.inj heq
    rfl
  · next heq => simp_all

theorem pOpen_nl_cons (l2 : List Char) (h : ∀ d rest, l2 ≠ '\n' :: d :: rest) :
    pOpen ('\n' :: l2) = '\n' :: pOpen l2 := by
  rw [pOpen.eq_def]
  split
  · next c2 rest2 heq =>
    obtain ⟨-, h2⟩ := List.cons.inj heq
    exact absurd h2 (h c2 rest2)
  · next heq =>
    obtain ⟨rfl, rfl⟩ := List.cons.inj heq
    rfl
  · next heq => simp_all

theorem pOpen_pat_lt (rest : List Char) :
    pOpen ('\n' :: '\n' :: '<' :: rest) = '\n' :: pOpen ('\n' :: '<' :: rest) := by
  rw [pOpen.eq_def]
  split
  · next c2 rest2 heq =>
    obtain ⟨-, h2⟩ := List.cons.inj heq
    obtain ⟨-, h3⟩ := List.cons.inj h2
    obtain ⟨h4, h5⟩ := List.cons.inj h3
    subst h4
    subst h5
    rw [if_pos rfl]
  · rename_i x heq
    obtain ⟨h1, h2⟩ := List.cons.inj heq
    exact absurd h2.symm (x '<' rest h1.symm)
  · next heq => simp_all

theorem pOpen_pat (d : Char) (rest : List Char) (hd : d ≠ '<') :
    pOpen ('\n' :: '\n' :: d :: rest) =
      '\n' :: '\n' :: '<' :: 'p' :: '>' :: d :: pOpen rest := by
  rw [pOpen.eq_def]
  split
  · next c2 rest2 heq =>
    obtain ⟨-, h2⟩ := List.cons.inj heq
    obtain ⟨-, h3⟩ := List.cons.inj h2
    obtain ⟨h4, h5⟩ := List.cons.inj h3
    subst h4
    subst h5
    rw [if_neg hd]
  · rename_i x heq
    obtain ⟨h1, h2⟩ := List.cons.inj heq
    exact absurd h2.symm (x d rest h1.symm)
  · next heq => simp_all

theorem pOpen_skip (m r : List Char) (hm : ∀ c ∈ m, c ≠ '\n') :
    pOpen (m ++ r) = m ++ pOpen r := by
  induction m with
  | nil => rfl
  | cons c m2 ih =>
    rw [List.cons_append, pOpen_cons_ne c _ (hm c (by simp)),
      ih (fun d hd => hm d (by simp [hd]))]
    rfl

theorem pOpen_atoms : ∀ (n : Nat) (l : List Char) (ts : List (List Char)),
    l.length ≤ n → Atoms l ts →
    ∃ ts2, Atoms (pOpen l) ts2 ∧ TagEq ts2 ts := by
  intro n
  induction n with
  | zero =>
    intro l ts hlen h
    have hl : l = [] := List.length_eq_zero.mp (Nat.le_zero.mp hlen)
    subst hl
    have hts : ts = [] := atoms_nil_inv h rfl
    subst hts
    exact ⟨[], by rw [pOpen_nil]; exact Atoms.nil, TagEq_refl []⟩
  | succ n ihn =>
    intro l ts hlen h
    cases h with
    | nil => exact ⟨[], by rw [pOpen_nil]; exact Atoms.nil, TagEq_refl []⟩
    | ch hc h2 =>
      rename_i c l2
      by_cases hnl : c = '\n'
      · subst hnl
        rcases l2 with _ | ⟨d, l3⟩
        · rw [pOpen_nl_cons [] (by simp)]
          exact ⟨ts, Atoms.ch (by decide) (by
            rw [pOpen_nil]
            have hts : ts = [] := atoms_nil_inv h2 rfl
            subst hts
            exact Atoms.nil), TagEq_refl ts⟩
        · by_cases hd : d = '\n'
          · subst hd
            rcases l3 with _ | ⟨e, l4⟩
            · rw [pOpen_nl_cons ['\n'] (by intro d rest h; simp at h)]
              obtain ⟨ts2, hA2, hE2⟩ :=
                ihn ('\n' :: []) ts (by
                  simp only [List.length_cons] at hlen
                  simp only [List.length_cons, List.length_nil]
                  omega) h2
              exact ⟨ts2, Atoms.ch (by decide) hA2, hE2⟩
            · by_cases he : e = '<'
              · subst he
                rw [pOpen_pat_lt l4]
                have h3 := atoms_cons_inv _ _ _ h2 (by decide)
                obtain ⟨ts2, hA2, hE2⟩ :=
                  ihn ('\n' :: '<' :: l4) ts
                    (by simp only [List.length_cons] at hlen ⊢; omega)
                    (Atoms.ch (by decide) h3)
                exact ⟨ts2, Atoms.ch (by decide) hA2, hE2⟩
              · rw [pOpen_pat e l4 he]
                have h3 := atoms_cons_inv _ _ _ h2 (by decide)
                have h4 := atoms_cons_inv _ _ _ h3 he
                obtain ⟨ts2, hA2, hE2⟩ :=
                  ihn l4 ts (by simp only [List.length_cons] at hlen; omega) h4
                refine ⟨"<p>".data :: ts2, ?_, TagEq_cons_out _ (by decide) hE2⟩
                have hAe : Atoms (e :: pOpen l4) ts2 := by
                  refine Atoms.ch ?_ hA2
                  intro hco
                  subst hco
                  exact he rfl
                have := Atoms.tag (t := "<p>".data) (by decide) hAe
                exact Atoms.ch (by decide) (Atoms.ch (by decide) this)
          · rw [pOpen_nl_cons (d :: l3) (by
              intro d2 rest h
              obtain ⟨h1, -⟩ := List.cons.inj h
              exact hd h1)]
            obtain ⟨ts2, hA2, hE2⟩ :=
              ihn (d :: l3) ts (by simp only [List.length_cons] at hlen ⊢; omega) h2
            exact ⟨ts2, Atoms.ch (by decide) hA2, hE2⟩
      · rw [pOpen_cons_ne c l2 hnl]
        obtain ⟨ts2, hA2, hE2⟩ :=
          ihn l2 ts (by simp only [List.length_cons] at hlen; omega) h2
        exact ⟨ts2, Atoms.ch hc hA2, hE2⟩
    | tag htm h2 =>
      rename_i t l2 ts2
      have ht1 : 1 ≤ t.length := by
        have := allTags_start t (bodyTags_sub t htm)
        rw [this]
        simp
      rw [pOpen_skip t l2 (bodyTags_no_nl t htm)]
      obtain ⟨ts3, hA3, hE3⟩ :=
        ihn l2 ts2 (by simp only [List.length_append] at hlen; omega) h2
      exact ⟨t :: ts3, Atoms.tag htm hA3, TagEq_cons t hE3⟩

theorem pClose_nil : pClose [] = [] := by rw [pClose.eq_def]

theorem pClose_cons_ne (c : Char) (r : List Char)
    (h : ∀ rest, r ≠ '\n' :: '\n' :: rest) : pClose (c :: r) = c :: pClose r := by
  rw [pClose.eq_def]
  split
  · next c2 rest2 heq =>
    obtain ⟨-, h2⟩ := List.cons.inj heq
    exact absurd h2 (h rest2)
  · next heq =>
    obtain ⟨rfl, rfl⟩ := List.cons.inj heq
    rfl
  · next heq => simp_all

theorem pClose_pat_gt (rest : List Char) :
    pClose ('>' :: '\n' :: '\n' :: rest) = '>' :: pClose ('\n' :: '\n' :: rest) := by
  rw [pClose.eq_def]
  split
  · next c2 rest2 heq =>
    obtain ⟨h1, h2⟩ := List.cons.inj heq
    obtain ⟨-, h3⟩ := List.cons.inj h2
    obtain ⟨-, h4⟩ := List.cons.inj h3
    subst h1
    subst h4
    rw [if_pos rfl]
  · rename_i x heq
    obtain ⟨-, h2⟩ := List.cons.inj heq
    exact (x rest h2.symm).elim
  · next heq => simp_all

theorem pClose_pat (c : Char) (rest : List Char) (hc : c ≠ '>') :
    pClose (c :: '\n' :: '\n' :: rest) =
      c :: '<' :: '/' :: 'p' :: '>' :: '\n' :: '\n' :: pClose rest := by
  rw [pClose.eq_def]
  split
  · next c2 rest2 heq =>
    obtain ⟨h1, h2⟩ := List.cons.inj heq
    obtain ⟨-, h3⟩ := List.cons.inj h2
    obtain ⟨-, h4⟩ := List.cons.inj h3
    subst h1
    subst h4
    rw [if_neg hc]
  · rename_i x heq
    obtain ⟨-, h2⟩ := List.cons.inj heq
    exact (x rest h2.symm).elim
  · next heq => simp_all

theorem pClose_gt (r : List Char) : pClose ('>' :: r) = '>' :: pClose r := by
  rcases r with _ | ⟨a, r1⟩
  · exact pClose_cons_ne '>' [] (by simp)
  · rcases r1 with _ | ⟨b, r2⟩
    · exact pClose_cons_ne '>' [a] (by intro rest h; simp at h)
    · by_cases hab : a = '\n' ∧ b = '\n'
      · obtain ⟨rfl, rfl⟩ := hab
        exact pClose_pat_gt r2
      · refine pClose_cons_ne '>' (a :: b :: r2) ?_
        intro rest h
        obtain ⟨h1, h2⟩ := List.cons.inj h
        obtain ⟨h3, -⟩ := List.cons.inj h2
        exact hab ⟨h1, h3⟩

theorem pClose_skip (m r : List Char) (hm : ∀ c ∈ m, c ≠ '\n')
    (hlast : m.getLast? = some '>' ∨ m = []) : pClose (m ++ r) = m ++ pClose r := by
  induction m with
  | nil => rfl
  | cons c m2 ih =>
    rcases m2 with _ | ⟨d, m3⟩
    · rcases hlast with hlast | hlast
      · simp only [List.getLast?_singleton] at hlast
        obtain rfl := Option.some.inj hlast
        rw [List.cons_append, List.nil_append, pClose_gt r]
        rfl
      · simp at hlast
    · rw [List.cons_append, pClose_cons_ne c ((d :: m3) ++ r) (by
        intro rest h
        rw [List.cons_append] at h
        obtain ⟨h1, -⟩ := List.cons.inj h
        exact hm d (by simp) h1)]
      rw [ih (fun x hx => hm x (by simp [List.mem_cons.mp hx])) (by
        rcases hlast with hlast | hlast
        · left
          rw [List.getLast?_cons_cons] at hlast
          exact hlast
        · simp at hlast)]
      rfl

theorem pClose_atoms : ∀ (n : Nat) (l : List Char) (ts : List (List Char)),
    l.length ≤ n → Atoms l ts →
    ∃ ts2, Atoms (pClose l) ts2 ∧ TagEq ts2 ts := by
  intro n
  induction n with
  | zero =>
    intro l ts hlen h
    have hl : l = [] := List.length_eq_zero.mp (Nat.le_zero.mp hlen)
    subst hl
    have hts : ts = [] := atoms_nil_inv h rfl
    subst hts
    exact ⟨[], by rw [pClose_nil]; exact Atoms.nil, TagEq_refl []⟩
  | succ n ihn =>
    intro l ts hlen h
    cases h with
    | nil => exact ⟨[], by rw [pClose_nil]; exact Atoms.nil, TagEq_refl []⟩
    | ch hc h2 =>
      rename_i c l2
      rcases l2 with _ | ⟨d, l3⟩
      · rw [pClose_cons_ne c [] (by simp)]
        obtain ⟨ts2, hA2, hE2⟩ := ihn [] ts (by simp) h2
        exact ⟨ts2, Atoms.ch hc hA2, hE2⟩
      · rcases l3 with _ | ⟨e, l4⟩
        · rw [pClose_cons_ne c [d] (by intro rest h; simp at h)]
          obtain ⟨ts2, hA2, hE2⟩ :=
            ihn [d] ts (by simp only [List.length_cons] at hlen ⊢; omega) h2
          exact ⟨ts2, Atoms.ch hc hA2, hE2⟩
        · by_cases hde : d = '\n' ∧ e = '\n'
          · obtain ⟨rfl, rfl⟩ := hde
            by_cases hgt : c = '>'
            · subst hgt
              rw [pClose_pat_gt l4]
              obtain ⟨ts2, hA2, hE2⟩ :=
                ihn ('\n' :: '\n' :: l4) ts
                  (by simp only [List.length_cons] at hlen ⊢; omega) h2
              exact ⟨ts2, Atoms.ch hc hA2, hE2⟩
            · rw [pClose_pat c l4 hgt]
              have h3 := atoms_cons_inv _ _ _ h2 (by decide)
              have h4 := atoms_cons_inv _ _ _ h3 (by decide)
              obtain ⟨ts2, hA2, hE2⟩ :=
                ihn l4 ts (by simp only [List.length_cons] at hlen; omega) h4
              refine ⟨"</p>".data :: ts2, ?_, TagEq_cons_out _ (by decide) hE2⟩
              have hAnn : Atoms ('\n' :: '\n' :: pClose l4) ts2 :=
                Atoms.ch (by decide) (Atoms.ch (by decide) hA2)
              have := Atoms.tag (t := "</p>".data) (by decide) hAnn
              exact Atoms.ch hc this
          · rw [pClose_cons_ne c (d :: e :: l4) (by
              intro rest h
              obtain ⟨h1, h2x⟩ := List.cons.inj h
              obtain ⟨h3, -⟩ := List.cons.inj h2x
              exact hde ⟨h1, h3⟩)]
            obtain ⟨ts2, hA2, hE2⟩ :=
              ihn (d :: e :: l4) ts (by simp only [List.length_cons] at hlen ⊢; omega) h2
            exact ⟨ts2, Atoms.ch hc hA2, hE2⟩
    | tag htm h2 =>
      rename_i t l2 ts2
      have ht1 : 1 ≤ t.length := by
        have := allTags_start t (bodyTags_sub t htm)
        rw [this]
        simp
      rw [pClose_skip t l2 (bodyTags_no_nl t htm) (Or.inl (bodyTags_last_gt t htm))]
      obtain ⟨ts3, hA3, hE3⟩ :=
        ihn l2 ts2 (by simp only [List.length_append] at hlen; omega) h2
      exact ⟨t :: ts3, Atoms.tag htm hA3, TagEq_cons t hE3⟩

/-- Balance of the six pairs, except that `ul` may be one close ahead
when the loop is inside an open list. -/
def BalTsUl (ts : List (List Char)) (b : Bool) : Prop :=
  ts.count "<h1>".data = ts.count "</h1>".data ∧
  ts.count "<h2>".data = ts.count "</h2>".data ∧
  ts.count "<h3>".data = ts.count "</h3>".data ∧
  ts.count "<strong>".data = ts.count "</strong>".data ∧
  ts.count "<ul>".data + (if b then 1 else 0) = ts.count "</ul>".data ∧
  ts.count "<li>".data = ts.count "</li>".data

theorem BalTsUl_false {ts : List (List Char)} (h : BalTsUl ts false) : BalTs ts := by
  obtain ⟨b1, b2, b3, b4, b5, b6⟩ := h
  exact ⟨b1, b2, b3, b4, by simpa using b5, b6⟩

theorem eulaLoop_atoms : ∀ (ls : List (List Char)) (inList : Bool),
    (∀ l ∈ ls, GoodLine l) →
    ∃ tss, LA (eulaListLoop ls inList) tss ∧ BalTsUl tss.flatten inList := by
  intro ls
  induction ls with
  | nil =>
    intro inList h
    cases inList
    · exact ⟨[], LA.nil, by simp [BalTsUl]⟩
    · refine ⟨[["</ul>".data]], ?_, ?_⟩
      · refine LA.cons ?_ LA.nil
        have := Atoms.tag (t := "</ul>".data) (by decide) Atoms.nil
        simpa using this
      · simp [BalTsUl, List.count_cons]
  | cons l ls2 ih =>
    intro inList h
    obtain ⟨ts_l, hA_l, hB_l⟩ := h l (by simp)
    by_cases hp : ("- ".data.isPrefixOf (stripChars l)) = true
    · obtain ⟨t, ht⟩ := List.isPrefixOf_iff_prefix.mp hp
      have hdrop : (stripChars l).drop 2 = t := by
        rw [← ht]
        rfl
      have hS := stripChars_atoms hA_l
      rw [← ht] at hS
      have hS1 := atoms_cons_inv _ _ _ hS (by decide)
      have hS2 := atoms_cons_inv _ _ _ hS1 (by decide)
      have hline : Atoms ("<li>".data ++ (stripChars l).drop 2 ++ "</li>".data)
          ("<li>".data :: (ts_l ++ ["</li>".data])) := by
        rw [hdrop]
        have hC : Atoms "</li>".data ["</li>".data] := by
          have := Atoms.tag (t := "</li>".data) (by decide) Atoms.nil
          simpa using this
        have := Atoms.tag (t := "<li>".data) (by decide) (atoms_append hS2 hC)
        simpa [List.append_assoc] using this
      have hlineB : BalTs ("<li>".data :: (ts_l ++ ["</li>".data])) :=
        BalTs_wrap _ _ ts_l hB_l (Or.inr (Or.inr (Or.inr (Or.inl ⟨rfl, rfl⟩))))
      obtain ⟨tssR, hLAR, hBR⟩ := ih true (fun x hx => h x (by simp [hx]))
      cases inList
      · refine ⟨["<ul>".data] :: ("<li>".data :: (ts_l ++ ["</li>".data])) :: tssR,
          ?_, ?_⟩
        · simp only [eulaListLoop, hp, if_true, if_false, Bool.false_eq_true,
            List.singleton_append]
          refine LA.cons ?_ (LA.cons hline hLAR)
          have := Atoms.tag (t := "<ul>".data) (by decide) Atoms.nil
          simpa using this
        · simp only [List.flatten_cons]
          simp only [BalTsUl, List.count_append, List.count_cons, List.count_nil] at hlineB hBR ⊢
          simp only [BalTs] at hlineB
          simp at hlineB hBR ⊢
          omega
      · refine ⟨("<li>".data :: (ts_l ++ ["</li>".data])) :: tssR, ?_, ?_⟩
        · simp only [eulaListLoop, hp, if_true, List.nil_append]
          exact LA.cons hline hLAR
        · simp only [List.flatten_cons]
          simp only [BalTsUl, List.count_append, List.count_cons, List.count_nil] at hBR ⊢
          simp only [BalTs] at hlineB
          simp at hlineB hBR ⊢
          omega
    · obtain ⟨tssR, hLAR, hBR⟩ := ih false (fun x hx => h x (by simp [hx]))
      cases inList
      · refine ⟨ts_l :: tssR, ?_, ?_⟩
        · simp only [eulaListLoop, hp, if_false, Bool.false_eq_true, List.nil_append]
          exact LA.cons hA_l hLAR
        · simp only [List.flatten_cons]
          simp only [BalTsUl, List.count_append] at hBR ⊢
          simp only [BalTs] at hB_l
          simp at hB_l hBR ⊢
          omega
      · refine ⟨["</ul>".data] :: ts_l :: tssR, ?_, ?_⟩
        · simp only [eulaListLoop, hp, if_false, if_true, List.singleton_append]
          refine LA.cons ?_ (LA.cons hA_l hLAR)
          have := Atoms.tag (t := "</ul>".data) (by decide) Atoms.nil
          simpa using this
        · simp only [List.flatten_cons]
          simp only [BalTsUl, List.count_append, List.count_cons, List.count_nil] at hBR ⊢
          simp only [BalTs] at hB_l
          simp at hB_l hBR ⊢
          omega

theorem dropWhile_head_false {p : Char → Bool} :
    ∀ (l : List Char) (c : Char) (r : List Char),
      l.dropWhile p = c :: r → p c = false := by
  intro l
  induction l with
  | nil => intro c r h; simp [List.dropWhile] at h
  | cons a l2 ih =>
    intro c r h
    rw [List.dropWhile_cons] at h
    split at h
    · exact ih c r h
    · obtain ⟨rfl, -⟩ := List.cons.inj h
      next hpa => simpa using hpa

theorem splitBar_cons_ne (c : Char) (r : List Char) (hc : c ≠ '|') :
    splitBar (c :: r) = match splitBar r with
      | [] => [[c]]
      | x :: xs => (c :: x) :: xs := by
  rw [splitBar.eq_def]
  split
  · rename_i heq
    exact absurd heq (by simp)
  · rename_i r2 heq
    obtain ⟨h1, -⟩ := List.cons.inj heq
    exact absurd h1 hc
  · rename_i c2 r2 hno heq
    obtain ⟨rfl, rfl⟩ := List.cons.inj heq
    rfl

theorem splitBar_ne_nil : ∀ l : List Char, splitBar l ≠ [] := by
  intro l
  induction l with
  | nil => simp [splitBar]
  | cons c r ih =>
    by_cases hc : c = '|'
    · subst hc
      rw [show splitBar ('|' :: r) = [] :: splitBar r from rfl]
      simp
    · rw [splitBar_cons_ne c r hc]
      rcases hsb : splitBar r with _ | ⟨x, xs⟩ <;> simp

theorem splitBar_skip (m : List Char) (hm : ∀ c ∈ m, c ≠ '|') (L : List Char) :
    ∃ x xs, splitBar L = x :: xs ∧ splitBar (m ++ L) = (m ++ x) :: xs := by
  induction m with
  | nil =>
    rcases hsb : splitBar L with _ | ⟨x, xs⟩
    · exact absurd hsb (splitBar_ne_nil L)
    · exact ⟨x, xs, rfl, by simpa using hsb⟩
  | cons c m2 ih =>
    obtain ⟨x, xs, h1, h2⟩ := ih (fun d hd => hm d (by simp [hd]))
    refine ⟨x, xs, h1, ?_⟩
    rw [List.cons_append, splitBar_cons_ne c _ (hm c (by simp)), h2]
    rfl

theorem splitBar_atoms : ∀ (n : Nat) (L : List Char) (ts : List (List Char)),
    L.length ≤ n → Atoms L ts →
    ∃ tss, LA (splitBar L) tss ∧ tss.flatten = ts := by
  intro n
  induction n with
  | zero =>
    intro L ts hlen h
    have hl : L = [] := List.length_eq_zero.mp (Nat.le_zero.mp hlen)
    subst hl
    have hts : ts = [] := atoms_nil_inv h rfl
    subst hts
    exact ⟨[[]], LA.cons Atoms.nil LA.nil, by simp⟩
  | succ n ihn =>
    intro L ts hlen h
    cases h with
    | nil => exact ⟨[[]], LA.cons Atoms.nil LA.nil, by simp⟩
    | ch hc h2 =>
      rename_i c l2
      by_cases hbar : c = '|'
      · subst hbar
        rw [show splitBar ('|' :: l2) = [] :: splitBar l2 from rfl]
        obtain ⟨tss, hLA, hF⟩ :=
          ihn l2 ts (by simp only [List.length_cons] at hlen; omega) h2
        exact ⟨[] :: tss, LA.cons Atoms.nil hLA, by simpa using hF⟩
      · rw [splitBar_cons_ne c l2 hbar]
        obtain ⟨tss, hLA, hF⟩ :=
          ihn l2 ts (by simp only [List.length_cons] at hlen; omega) h2
        rcases hsb : splitBar l2 with _ | ⟨x, xs⟩
        · exact absurd hsb (splitBar_ne_nil l2)
        · rw [hsb] at hLA
          cases hLA with
          | cons hx hxs =>
            rename_i tsx tssx
            refine ⟨tsx :: tssx, LA.cons (Atoms.ch hc hx) hxs, ?_⟩
            simpa [hsb] using hF
    | tag htm h2 =>
      rename_i t l2 ts2
      have ht1 : 1 ≤ t.length := by
        have := allTags_start t (bodyTags_sub t htm)
        rw [this]
        simp
      obtain ⟨x, xs, h1, h2x⟩ := splitBar_skip t (bodyTags_no_bar t htm) l2
      obtain ⟨tss, hLA, hF⟩ :=
        ihn l2 ts2 (by simp only [List.length_append] at hlen; omega) h2
      rw [h1] at hLA
      cases hLA with
      | cons hx hxs =>
        rename_i tsx tssx
        refine ⟨(t :: tsx) :: tssx, ?_, ?_⟩
        · rw [h2x]
          exact LA.cons (Atoms.tag htm hx) hxs
        · simp only [List.flatten_cons] at hF ⊢
          rw [List.cons_append, hF]

theorem joinWithTd_atoms : ∀ {parts : List (List Char)} {tss : List (List (List Char))},
    LA parts tss → ∃ ts2, Atoms (joinWithTd parts) ts2 ∧ TagEq ts2 tss.flatten := by
  intro parts
  induction parts with
  | nil =>
    intro tss h
    cases h
    exact ⟨[], Atoms.nil, TagEq_refl []⟩
  | cons x xs ih =>
    intro tss h
    cases h with
    | cons hx hxs =>
      rename_i tsx tssx
      rcases xs with _ | ⟨y, ys⟩
      · cases hxs
        refine ⟨tsx, hx, ?_⟩
        intro pat hp
        simp
      · obtain ⟨ts2, hA2, hE2⟩ := ih hxs
        refine ⟨tsx ++ "</td>".data :: "<td>".data :: ts2, ?_, ?_⟩
        · have hAtd : Atoms ("<td>".data ++ joinWithTd (y :: ys)) ("<td>".data :: ts2) :=
            Atoms.tag (by decide) hA2
          have hAtd2 : Atoms ("</td>".data ++ ("<td>".data ++ joinWithTd (y :: ys)))
              ("</td>".data :: "<td>".data :: ts2) :=
            Atoms.tag (by decide) hAtd
          have := atoms_append hx hAtd2
          have hsplit : ("</td><td>".data : List Char) =
              "</td>".data ++ "<td>".data := by decide
          rw [show joinWithTd (x :: y :: ys) =
            x ++ "</td><td>".data ++ joinWithTd (y :: ys) from rfl, hsplit]
          simpa [List.append_assoc] using this
        · simp only [List.flatten_cons]
          exact TagEq_append (TagEq_refl tsx)
            (TagEq_cons_out _ (by decide) (TagEq_cons_out _ (by decide) hE2))


theorem tableLine_good (L : List Char) (h : GoodLine L) : GoodLine (tableLine L) := by
  obtain ⟨ts, hA, hB⟩ := h
  rcases hdw : L.dropWhile (fun c => !(c = '|')) with _ | ⟨c0, r⟩
  · simp only [tableLine, hdw]
    exact ⟨ts, hA, hB⟩
  · have hc0 : c0 = '|' := by
      simpa using dropWhile_head_false L c0 r hdw
    subst hc0
    rcases hdw2 : r.reverse.dropWhile (fun c => !(c = '|')) with _ | ⟨c1, midRev⟩
    · simp only [tableLine, hdw, hdw2]
      exact ⟨ts, hA, hB⟩
    · have hc1 : c1 = '|' := by
        simpa using dropWhile_head_false _ c1 midRev hdw2
      subst hc1
      by_cases hmid : midRev.reverse.isEmpty = true
      · simp only [tableLine, hdw, hdw2, hmid, if_true]
        exact ⟨ts, hA, hB⟩
      · simp only [tableLine, hdw, hdw2, hmid, if_false, Bool.false_eq_true]
        have hsplit1 : L = L.takeWhile (fun c => !(c = '|')) ++ '|' :: r := by
          conv_lhs => rw [← List.takeWhile_append_dropWhile
            (p := fun c => !(c = '|')) (l := L)]
          rw [hdw]
        have h0 : r.reverse = r.reverse.takeWhile (fun c => !(c = '|')) ++
            ('|' :: midRev) := by
          conv_lhs => rw [← List.takeWhile_append_dropWhile
            (p := fun c => !(c = '|')) (l := r.reverse)]
          rw [hdw2]
        have hsplit2 : r = midRev.reverse ++ '|' ::
            (r.reverse.takeWhile (fun c => !(c = '|'))).reverse := by
          have h1 := congrArg List.reverse h0
          rw [List.reverse_reverse, List.reverse_append, List.reverse_cons] at h1
          simpa [List.append_assoc] using h1
        obtain ⟨ts1, tsR, hts, hA1, hAR⟩ :=
          atoms_split_char hA '|' bodyTags_no_bar (L.takeWhile (fun c => !(c = '|')))
            r hsplit1
        rw [hsplit2] at hAR
        obtain ⟨tsm, tss2, htsR, hAm, hAs⟩ :=
          atoms_split_char hAR '|' bodyTags_no_bar midRev.reverse _ rfl
        obtain ⟨tssM, hLAM, hFM⟩ :=
          splitBar_atoms midRev.reverse.length midRev.reverse tsm (Nat.le_refl _) hAm
        obtain ⟨tsJ, hAJ, hEJ⟩ := joinWithTd_atoms hLAM
        refine ⟨ts1 ++ "<tr>".data :: "<td>".data ::
          (tsJ ++ "</td>".data :: "</tr>".data :: tss2), ?_, ?_⟩
        · have hA2 : Atoms ("</tr>".data ++
              (r.reverse.takeWhile (fun c => !(c = '|'))).reverse)
              ("</tr>".data :: tss2) := Atoms.tag (by decide) hAs
          have hA3 := Atoms.tag (t := "</td>".data) (by decide) hA2
          have hA4 := atoms_append hAJ hA3
          have hA5 := Atoms.tag (t := "<td>".data) (by decide) hA4
          have hA6 := Atoms.tag (t := "<tr>".data) (by decide) hA5
          have hA7 := atoms_append hA1 hA6
          rw [show (['<', 't', 'r', '>', '<', 't', 'd', '>'] : List Char) =
              "<tr>".data ++ "<td>".data from by decide,
            show (['<', '/', 't', 'd', '>', '<', '/', 't', 'r', '>'] : List Char) =
              "</td>".data ++ "</tr>".data from by decide]
          simpa [List.append_assoc] using hA7
        · refine TagEq_bal ?_ hB
          rw [hts, htsR]
          refine TagEq_append (TagEq_refl ts1) ?_
          refine TagEq_cons_out _ (by decide) ?_
          refine TagEq_cons_out _ (by decide) ?_
          refine TagEq_append ?_ ?_
          · rw [← hFM]
            exact hEJ
          · exact TagEq_cons_out _ (by decide) (TagEq_cons_out _ (by decide)
              (TagEq_refl tss2))

theorem plineCookie_good (l : List Char) (h : GoodLine l) : GoodLine (plineCookie l) := by
  obtain ⟨ts, hat, hbal⟩ := h
  have hstrip := stripChars_atoms hat
  simp only [plineCookie]
  split
  · refine ⟨"<p>".data :: (ts ++ ["</p>".data]), ?_, ?_⟩
    · have hA1 : Atoms "</p>".data ["</p>".data] := by
        have := Atoms.tag (t := "</p>".data) (by decide) Atoms.nil
        simpa using this
      have := Atoms.tag (t := "<p>".data) (by decide) (atoms_append hstrip hA1)
      simpa [List.append_assoc] using this
    · exact BalTs_wrap _ _ ts hbal (Or.inr (Or.inr (Or.inr (Or.inr ⟨rfl, rfl⟩))))
  · exact ⟨ts, hstrip, hbal⟩

theorem glines_LA (g : List Char → List Char)
    (hg : ∀ l, GoodLine l → GoodLine (g l)) :
    ∀ ls : List (List Char), (∀ l ∈ ls, GoodLine l) →
    ∃ tss, LA (ls.map g) tss ∧ BalTs tss.flatten := by
  intro ls
  induction ls with
  | nil => exact fun _ => ⟨[], LA.nil, BalTs_nil⟩
  | cons l ls' ih =>
    intro h
    obtain ⟨ts, hA, hB⟩ := hg l (h l (by simp))
    obtain ⟨tss, hLA, hBB⟩ := ih (fun x hx => h x (by simp [hx]))
    exact ⟨ts :: tss, LA.cons hA hLA, by simpa using BalTs_append hB hBB⟩

theorem wrapLAg (g : List Char → List Char)
    (hg : ∀ l, GoodLine l → GoodLine (g l))
    (hgu : g "<ul>".data = "<ul>".data)
    (hgc : g "</ul>".data = "</ul>".data) :
    ∀ (n : Nat) (ls : List (List Char)), ls.length ≤ n →
    (∀ l ∈ ls, GoodLine l) →
    ∃ tss, LA ((wrapLiRuns ls).map g) tss ∧ BalTs tss.flatten := by
  intro n
  induction n with
  | zero =>
    intro ls hlen h
    have : ls = [] := List.length_eq_zero.mp (Nat.le_zero.mp hlen)
    subst this
    have hred : wrapLiRuns [] = [] := by rw [wrapLiRuns.eq_def]
    rw [hred]
    exact ⟨[], LA.nil, BalTs_nil⟩
  | succ n ihn =>
    intro ls hlen h
    rcases ls with _ | ⟨l, rest⟩
    · have hred : wrapLiRuns [] = [] := by rw [wrapLiRuns.eq_def]
      rw [hred]
      exact ⟨[], LA.nil, BalTs_nil⟩
    · by_cases hcond : (isLiLine l && !rest.isEmpty) = true
      · have hred : wrapLiRuns (l :: rest) = "<ul>".data :: l ::
            ((takeLiRun rest).1 ++ "</ul>".data :: wrapLiRuns (takeLiRun rest).2) := by
          rw [wrapLiRuns.eq_def]
          dsimp only
          rw [if_pos hcond]
        have hrun_sub : ∀ x ∈ (takeLiRun rest).1, x ∈ rest := by
          intro x hx
          have hsplit := takeLiRun_append rest
          rw [← hsplit]
          exact List.mem_append.mpr (Or.inl hx)
        have hrem_sub : ∀ x ∈ (takeLiRun rest).2, x ∈ rest := by
          intro x hx
          have hsplit := takeLiRun_append rest
          rw [← hsplit]
          exact List.mem_append.mpr (Or.inr hx)
        obtain ⟨ts_l, hA_l, hB_l⟩ := hg l (h l (by simp))
        obtain ⟨tssRun, hLARun, hBRun⟩ :=
          glines_LA g hg (takeLiRun rest).1 (fun x hx => h x (by simp [hrun_sub x hx]))
        obtain ⟨tssRem, hLARem, hBRem⟩ :=
          ihn (takeLiRun rest).2
            (by
              have := takeLiRun_len rest
              simp only [List.length_cons] at hlen
              omega)
            (fun x hx => h x (by simp [hrem_sub x hx]))
        have hUL : Atoms "<ul>".data ["<ul>".data] := by
          have := Atoms.tag (t := "<ul>".data) (by decide) Atoms.nil
          simpa using this
        have hULc : Atoms "</ul>".data ["</ul>".data] := by
          have := Atoms.tag (t := "</ul>".data) (by decide) Atoms.nil
          simpa using this
        refine ⟨["<ul>".data] :: ts_l :: (tssRun ++ ["</ul>".data] :: tssRem), ?_, ?_⟩
        · rw [hred]
          simp only [List.map_cons, List.map_append]
          rw [hgu, hgc]
          exact LA.cons (by simpa using hUL) (LA.cons hA_l
            (LA_append hLARun (LA.cons (by simpa using hULc) hLARem)))
        · simp only [List.flatten_cons, List.flatten_append]
          simp only [BalTs, List.count_append, List.count_cons, List.count_nil] at hB_l hBRun hBRem ⊢
          simp at hB_l hBRun hBRem ⊢
          omega
      · have hred : wrapLiRuns (l :: rest) = l :: wrapLiRuns rest := by
          rw [wrapLiRuns.eq_def]
          dsimp only
          rw [if_neg hcond]
        obtain ⟨ts_l, hA_l, hB_l⟩ := hg l (h l (by simp))
        obtain ⟨tss, hLA, hB⟩ :=
          ihn rest (by simp only [List.length_cons] at hlen; omega)
            (fun x hx => h x (by simp [hx]))
        refine ⟨ts_l :: tss, ?_, ?_⟩
        · rw [hred]
          simp only [List.map_cons]
          exact LA.cons hA_l hLA
        · simpa using BalTs_append hB_l hB

theorem cookieBody_good (t : List Char) (ht : ∀ c ∈ t, c ≠ '<') :
    ∃ ts, Atoms (joinLines (((wrapLiRuns ((((splitLines t).map convertHeaderLine).map
      boldConv).map convertListLine)).map tableLine).map plineCookie)) ts ∧
      BalTs ts := by
  rw [List.map_map]
  have hgl : ∀ l ∈ (((splitLines t).map convertHeaderLine).map boldConv).map
      convertListLine, GoodLine l := by
    intro l hl
    simp only [List.mem_map] at hl
    obtain ⟨l1, ⟨l0, hl0, rfl⟩, rfl⟩ := hl
    obtain ⟨lz, hlz, rfl⟩ := hl0
    exact convertListLine_good _ (header_bold_good lz (splitLines_no_lt t ht lz hlz))
  obtain ⟨tss, hLA, hB⟩ := wrapLAg (plineCookie ∘ tableLine)
    (fun l hgood => plineCookie_good (tableLine l) (tableLine_good l hgood))
    (by decide) (by decide)
    ((((splitLines t).map convertHeaderLine).map boldConv).map convertListLine).length
    _ (Nat.le_refl _) hgl
  exact ⟨tss.flatten, join_LA hLA, hB⟩

theorem emConv_good (l : List Char) (h : GoodLine l) : GoodLine (emConv l) := by
  obtain ⟨ts, hA, hB⟩ := h
  obtain ⟨ts2, hA2, hE⟩ := emConv_atoms l.length l ts (Nat.le_refl _) hA
  exact ⟨ts2, hA2, TagEq_bal hE hB⟩

theorem eulaBody_good (t : List Char) (ht : ∀ c ∈ t, c ≠ '<') :
    ∃ ts, Atoms (pClose (pOpen (joinLines (eulaListLoop
      ((((splitLines t).map convertHeaderLine).map boldConv).map emConv) false)))) ts ∧
      BalTs ts := by
  have hgl : ∀ l ∈ (((splitLines t).map convertHeaderLine).map boldConv).map emConv,
      GoodLine l := by
    intro l hl
    simp only [List.mem_map] at hl
    obtain ⟨l1, ⟨l0, hl0, rfl⟩, rfl⟩ := hl
    obtain ⟨lz, hlz, rfl⟩ := hl0
    exact emConv_good _ (header_bold_good lz (splitLines_no_lt t ht lz hlz))
  obtain ⟨tss, hLA, hBU⟩ := eulaLoop_atoms _ false hgl
  have hB := BalTsUl_false hBU
  have hAt := join_LA hLA
  obtain ⟨ts1, hA1, hE1⟩ := pOpen_atoms _ _ _ (Nat.le_refl _) hAt
  obtain ⟨ts2, hA2, hE2⟩ := pClose_atoms _ _ _ (Nat.le_refl _) hA1
  exact ⟨ts2, hA2, TagEq_bal (TagEq_trans hE2 hE1) hB⟩

/-- The fixed HTML shell of the cookie converter, before the company
name. -/
def cookieShellHead : String :=
  "<!DOCTYPE html>\n<html lang=\"en\">\n<head>\n    <meta charset=\"UTF-8\">\n    <meta name=\"viewport\" content=\"width=device-width, initial-scale=1.0\">\n    <title>Cookie Policy - "

/-- The fixed HTML shell of the cookie converter, between the company
name and the body. -/
def cookieShellMid : String :=
  "</title>\n    <style>\n        body \x7b\n            font-family: -apple-system, BlinkMacSystemFont, \x27Segoe UI\x27, Roboto, Oxygen, Ubuntu, Cantarell, sans-serif;\n            line-height: 1.6;\n            max-width: 800px;\n            margin: 0 auto;\n            padding: 20px;\n            color: #333;\n        \x7d\n        h1 \x7b\n            color: #1a1a1a;\n            border-bottom: 2px solid #eee;\n            padding-bottom: 10px;\n        \x7d\n        h2 \x7b\n            color: #2a2a2a;\n            margin-top: 30px;\n            border-bottom: 1px solid #eee;\n            padding-bottom: 5px;\n        \x7d\n        h3 \x7b\n            color: #3a3a3a;\n            margin-top: 20px;\n        \x7d\n        ul \x7b\n            padding-left: 20px;\n        \x7d\n        li \x7b\n            margin-bottom: 8px;\n        \x7d\n        strong \x7b\n            color: #1a1a1a;\n        \x7d\n        p \x7b\n            margin-bottom: 15px;\n        \x7d\n        table \x7b\n            width: 100%;\n            border-collapse: collapse;\n            margin: 20px 0;\n        \x7d\n        th, td \x7b\n            border: 1px solid #ddd;\n            padding: 10px;\n            text-align: left;\n        \x7d\n        th \x7b\n            background-color: #f5f5f5;\n        \x7d\n        @media (prefers-color-scheme: dark) \x7b\n            body \x7b\n                background-color: #1a1a1a;\n                color: #e0e0e0;\n            \x7d\n            h1, h2, h3, strong \x7b\n                color: #fff;\n            \x7d\n            h1, h2 \x7b\n                border-color: #444;\n            \x7d\n            th \x7b\n                background-color: #333;\n            \x7d\n            th, td \x7b\n                border-color: #444;\n            \x7d\n        \x7d\n    </style>\n</head>\n<body>\n"

/-- The fixed HTML shell of the EULA converter, before the title. -/
def eulaShellHead : String :=
  "<!DOCTYPE html>\n<html lang=\"en\">\n<head>\n    <meta charset=\"UTF-8\">\n    <meta name=\"viewport\" content=\"width=device-width, initial-scale=1.0\">\n    <title>"

/-- The fixed HTML shell of the EULA converter, between the title and the
body. -/
def eulaShellMid : String :=
  "</title>\n    <style>\n        body \x7b\n            font-family: -apple-system, BlinkMacSystemFont, \x27Segoe UI\x27, Roboto, Oxygen, Ubuntu, sans-serif;\n            line-height: 1.6;\n            max-width: 800px;\n            margin: 0 auto;\n            padding: 20px;\n            color: #333;\n        \x7d\n        h1 \x7b color: #2c3e50; border-bottom: 2px solid #3498db; padding-bottom: 10px; \x7d\n        h2 \x7b color: #34495e; margin-top: 30px; border-bottom: 1px solid #bdc3c7; padding-bottom: 5px; \x7d\n        h3 \x7b color: #7f8c8d; margin-top: 20px; \x7d\n        ul \x7b padding-left: 20px; \x7d\n        li \x7b margin: 5px 0; \x7d\n        strong \x7b color: #2c3e50; \x7d\n        p \x7b margin: 10px 0; text-align: justify; \x7d\n    </style>\n</head>\n<body>\n"

/-- The well-formedness properties claimed of a rendered HTML document: it
begins with a single `<!DOCTYPE html>` declaration and the heading,
bold and list tags are balanced, counted over the whole output. -/
def WellFormedHtml (s : String) : Prop :=
  ("<!DOCTYPE html>".data <+: s.data) ∧
  occs "<!DOCTYPE html>".data s.data = 1 ∧
  occs "<h1>".data s.data = occs "</h1>".data s.data ∧
  occs "<h2>".data s.data = occs "</h2>".data s.data ∧
  occs "<h3>".data s.data = occs "</h3>".data s.data ∧
  occs "<strong>".data s.data = occs "</strong>".data s.data ∧
  occs "<ul>".data s.data = occs "</ul>".data s.data ∧
  occs "<li>".data s.data = occs "</li>".data s.data

theorem shell_wellformed (head mid tail : String) (comp body : List Char)
    (hcleanH : clean allTags head.data = true)
    (hcleanM : clean allTags mid.data = true)
    (hcomp : ∀ ch ∈ comp, ch ≠ '<')
    (ts : List (List Char)) (hAt : Atoms body ts) (hB : BalTs ts)
    (hpre : "<!DOCTYPE html>".data <+: head.data)
    (hoccH : ∀ pat ∈ sixPairTags, occs pat head.data = 0)
    (hoccM : ∀ pat ∈ sixPairTags, occs pat mid.data = 0)
    (hoccT : ∀ pat ∈ sixPairTags, occs pat tail.data = 0)
    (hdoc1 : occs "<!DOCTYPE html>".data head.data = 1)
    (hdocM : occs "<!DOCTYPE html>".data mid.data = 0)
    (hdocT : occs "<!DOCTYPE html>".data tail.data = 0) :
    WellFormedHtml ⟨head.data ++ comp ++ mid.data ++ body ++ tail.data⟩ := by
  have hL : (⟨head.data ++ comp ++ mid.data ++ body ++ tail.data⟩ : String).data =
      head.data ++ comp ++ mid.data ++ body ++ tail.data := rfl
  unfold WellFormedHtml
  rw [hL]
  have hcleanC : clean allTags comp = true := clean_of_no_lt _ hcomp
  have hcleanB := atoms_clean hAt
  have hzero_co : ∀ pat ∈ allTags, occs pat comp = 0 :=
    fun pat hpat => occs_no_lt pat _ (allTags_start pat hpat) hcomp
  have hdecomp : ∀ pat ∈ allTags,
      occs pat (head.data ++ comp ++ mid.data ++ body ++ tail.data) =
        occs pat head.data + occs pat mid.data + occs pat tail.data +
          occs pat body := by
    intro pat hpat
    have hcl1 := clean_append _ _ hcleanH hcleanC
    have hcl2 := clean_append _ _ hcl1 hcleanM
    have hcl3 := clean_append _ _ hcl2 hcleanB
    rw [occs_append_clean _ _ _ hpat hcl3, occs_append_clean _ _ _ hpat hcl2,
      occs_append_clean _ _ _ hpat hcl1, occs_append_clean _ _ _ hpat hcleanH,
      hzero_co pat hpat]
    omega
  have hfull : ∀ pat ∈ bodyTags,
      occs pat (head.data ++ comp ++ mid.data ++ body ++ tail.data) =
        occs pat head.data + occs pat mid.data + occs pat tail.data +
          ts.count pat := by
    intro pat hpat
    rw [hdecomp pat (bodyTags_sub pat hpat),
      atoms_count pat _ ts (bodyTags_sub pat hpat) hAt]
  obtain ⟨b1, b2, b3, b4, b5, b6⟩ := hB
  refine ⟨?_, ?_, ?_, ?_, ?_, ?_, ?_, ?_⟩
  · exact (((hpre.trans (List.prefix_append _ _)).trans (List.prefix_append _ _)).trans
      (List.prefix_append _ _)).trans (List.prefix_append _ _)
  · rw [hdecomp "<!DOCTYPE html>".data (by decide),
      atoms_count "<!DOCTYPE html>".data _ ts (by decide) hAt]
    have hzero : ts.count "<!DOCTYPE html>".data = 0 := by
      refine List.count_eq_zero.mpr ?_
      intro hm
      have := atoms_tags_mem hAt _ hm
      exact absurd this (by decide)
    rw [hzero, hdoc1, hdocM, hdocT]
  · rw [hfull "<h1>".data (by decide), hfull "</h1>".data (by decide),
      hoccH "<h1>".data (by decide), hoccM "<h1>".data (by decide),
      hoccT "<h1>".data (by decide), hoccH "</h1>".data (by decide),
      hoccM "</h1>".data (by decide), hoccT "</h1>".data (by decide), b1]
  · rw [hfull "<h2>".data (by decide), hfull "</h2>".data (by decide),
      hoccH "<h2>".data (by decide), hoccM "<h2>".data (by decide),
      hoccT "<h2>".data (by decide), hoccH "</h2>".data (by decide),
      hoccM "</h2>".data (by decide), hoccT "</h2>".data (by decide), b2]
  · rw [hfull "<h3>".data (by decide), hfull "</h3>".data (by decide),
      hoccH "<h3>".data (by decide), hoccM "<h3>".data (by decide),
      hoccT "<h3>".data (by decide), hoccH "</h3>".data (by decide),
      hoccM "</h3>".data (by decide), hoccT "</h3>".data (by decide), b3]
  · rw [hfull "<strong>".data (by decide), hfull "</strong>".data (by decide),
      hoccH "<strong>".data (by decide), hoccM "<strong>".data (by decide),
      hoccT "<strong>".data (by decide), hoccH "</strong>".data (by decide),
      hoccM "</strong>".data (by decide), hoccT "</strong>".data (by decide), b4]
  · rw [hfull "<ul>".data (by decide), hfull "</ul>".data (by decide),
      hoccH "<ul>".data (by decide), hoccM "<ul>".data (by decide),
      hoccT "<ul>".data (by decide), hoccH "</ul>".data (by decide),
      hoccM "</ul>".data (by decide), hoccT "</ul>".data (by decide), b5]
  · rw [hfull "<li>".data (by decide), hfull "</li>".data (by decide),
      hoccH "<li>".data (by decide), hoccM "<li>".data (by decide),
      hoccT "<li>".data (by decide), hoccH "</li>".data (by decide),
      hoccM "</li>".data (by decide), hoccT "</li>".data (by decide), b6]

/-- C8: rendering to HTML in the privacy, cookie and EULA generators
yields output that begins with a single `<!DOCTYPE html>` declaration,
and the emitted heading (`h1`/`h2`/`h3`), bold (`strong`) and list
(`ul`/`li`) tags are balanced: every open tag has a matching close tag,
counted over the whole output.  This covers `Privacy._convert_to_html`,
`Cookie._convert_to_html` (table rows and the `|`-aware paragraph wrap
included) and `Eula.convert_to_html` (emphasis, the stateful bullet
loop and the blank-line paragraph substitutions included).  The
hypotheses say the markdown input, the interpolated company names and
the EULA page title contain no raw `<`. -/
theorem converters_html_wellformed (text : String) (c : Config) (title : String)
    (htext : ∀ ch ∈ text.data, ch ≠ '<')
    (hcompP : ∀ ch ∈ (pyOr c.company_name (pyOr c.website_name
      (pyOr c.app_name "Privacy Policy"))).data, ch ≠ '<')
    (hcompC : ∀ ch ∈ (pyOr c.company_name (pyOr c.website_name "Cookie Policy")).data,
      ch ≠ '<')
    (htitle : ∀ ch ∈ title.data, ch ≠ '<') :
    WellFormedHtml (Privacy._convert_to_html text c) ∧
    WellFormedHtml (Cookie._convert_to_html text c) ∧
    WellFormedHtml (Eula.convert_to_html text title) := by
  refine ⟨?_, ?_, ?_⟩
  · obtain ⟨ts, hAt, hB⟩ := convertBody_good text.data htext
    have hout : Privacy._convert_to_html text c =
        ⟨Privacy.shellHead.data ++ (pyOr c.company_name (pyOr c.website_name
          (pyOr c.app_name "Privacy Policy"))).data ++ Privacy.shellMid.data ++
            Privacy.convertBody text.data ++ Privacy.shellTail.data⟩ := rfl
    rw [hout]
    exact shell_wellformed Privacy.shellHead Privacy.shellMid Privacy.shellTail _ _
      (by decide) (by decide) hcompP ts hAt hB (by decide) (by decide) (by decide)
      (by decide) (by decide) (by decide) (by decide)
  · obtain ⟨ts, hAt, hB⟩ := cookieBody_good text.data htext
    have hout : Cookie._convert_to_html text c =
        ⟨cookieShellHead.data ++ (pyOr c.company_name
          (pyOr c.website_name "Cookie Policy")).data ++ cookieShellMid.data ++
            joinLines (((wrapLiRuns ((((splitLines text.data).map
              convertHeaderLine).map boldConv).map convertListLine)).map
                tableLine).map plineCookie) ++ Privacy.shellTail.data⟩ := rfl
    rw [hout]
    exact shell_wellformed cookieShellHead cookieShellMid Privacy.shellTail _ _
      (by decide) (by decide) hcompC ts hAt hB (by decide) (by decide) (by decide)
      (by decide) (by decide) (by decide) (by decide)
  · obtain ⟨ts, hAt, hB⟩ := eulaBody_good text.data htext
    have hout : Eula.convert_to_html text title =
        ⟨eulaShellHead.data ++ title.data ++ eulaShellMid.data ++
          pClose (pOpen (joinLines (eulaListLoop ((((splitLines text.data).map
            convertHeaderLine).map boldConv).map emConv) false))) ++
              Privacy.shellTail.data⟩ := rfl
    rw [hout]
    exact shell_wellformed eulaShellHead eulaShellMid Privacy.shellTail _ _
      (by decide) (by decide) htitle ts hAt hB (by decide) (by decide) (by decide)
      (by decide) (by decide) (by decide) (by decide)

theorem converters_html_wellformed_witness :
    WellFormedHtml (Privacy._convert_to_html "## Data\n\n- **Email**\n- Name"
      defaultConfig) ∧
    WellFormedHtml (Cookie._convert_to_html "## Data\n\n- **Email**\n- Name"
      defaultConfig) ∧
    WellFormedHtml (Eula.convert_to_html "## Data\n\n- **Email**\n- Name"
      "EULA - Application") :=
  converters_html_wellformed "## Data\n\n- **Email**\n- Name" defaultConfig
    "EULA - Application" (by decide) (by decide) (by decide) (by decide)
